import Mathlib

/-! # Allocator context manager of poseidonos: rebuild context and orchestrator

Shallow embedding of

* `src/allocator/context_manager/rebuild_ctx/rebuild_ctx.cpp` (class `RebuildCtx`),
* `src/allocator/context_manager/context_manager.cpp` (class `ContextManager`).

Conventions.

* `SegmentId` / `StripeId` (`uint32_t`) are natural numbers; where the source
  relies on 32- or 64-bit arithmetic the wrap is written out with `%`.
* `std::set<SegmentId> targetSegmentList` is a `Finset SegmentId`:
  `find` is membership, `emplace` is `insert`, `erase` is `Finset.erase`,
  `*begin()` is `Finset.min'` and `size()` is `Finset.card`.
* A member function `T C::f(args)` becomes `C.f : C → args → T × C`
  (just `C → args → C` when it returns `void`).
* The mutex guards are dropped: the embedding is sequential.
-/

namespace pos

/-! ## Basic types and constants -/

/-- Segment identifier, `uint32_t` in the source. -/
abbrev SegmentId := Nat

/-- Logical stripe identifier, `uint32_t` in the source. -/
abbrev StripeId := Nat

/-- The largest `uint32_t`. -/
def UINT32_MAX : Nat := 4294967295

/-- Modelled from the spec: the constant `UNMAP_SEGMENT`, declared in a header
that is not part of the sources at hand. The spec knows a single sentinel
"none" for segment ids, and the constructor of `RebuildCtx` stores `UINT32_MAX`
as the empty `currentTarget`, so the sentinel is that value. -/
def UNMAP_SEGMENT : SegmentId := UINT32_MAX

/-- Decrement of a `uint32_t` (`x--`): zero wraps to the largest value. -/
def dec32 (x : Nat) : Nat := if x = 0 then UINT32_MAX else x - 1

/-- Conversion of a container size (`size_t`) to `uint32_t`. -/
def toUInt32 (x : Nat) : Nat := x % 4294967296

/-- Increment of a `uint64_t`, wrapping. -/
def inc64 (x : Nat) : Nat := (x + 1) % 18446744073709551616

/-- Conversion of an unsigned value to `int` (two's complement, 32 bit). -/
def toInt32 (x : Nat) : Int :=
  if x % 4294967296 < 2147483648 then ((x % 4294967296 : Nat) : Int)
  else ((x % 4294967296 : Nat) : Int) - 4294967296

/-- Geometry of the array as far as the context manager reads it
(`AllocatorAddressInfo`). -/
structure AllocatorAddressInfo where
  stripesPerSegment : Nat
  numUserAreaSegments : Nat
  isUT : Bool
deriving DecidableEq, Repr

/-! ## RebuildCtx -/

/-- Header of the rebuild context file. -/
structure RebuildCtxHeader where
  sig : Nat
  ctxVersion : Nat
  numTargetSegments : Nat
deriving DecidableEq, Repr

/-- The member variables of `RebuildCtx`. -/
structure RebuildCtx where
  ctxHeader : RebuildCtxHeader
  ctxStoredVersion : Nat
  ctxDirtyVersion : Nat
  needContinue : Bool
  targetSegmentCount : Nat
  currentTarget : SegmentId
  targetSegmentList : Finset SegmentId
  initialized : Bool
deriving DecidableEq

namespace RebuildCtx

/-- The constructor `RebuildCtx::RebuildCtx(tp, header, info)`; the signature
constant `SIG_REBUILD_CTX` of the missing header is a parameter. -/
def new (SIG_REBUILD_CTX : Nat) (header : Option RebuildCtxHeader) : RebuildCtx :=
  { ctxHeader :=
      match header with
      | some h => { sig := h.sig, ctxVersion := h.ctxVersion,
                    numTargetSegments := h.numTargetSegments }
      | none => { sig := SIG_REBUILD_CTX, ctxVersion := 0, numTargetSegments := 0 }
    ctxStoredVersion := 0
    ctxDirtyVersion := 0
    needContinue := false
    targetSegmentCount := 0
    currentTarget := UINT32_MAX
    targetSegmentList := ∅
    initialized := false }

/-- Member function `RebuildCtx::EraseRebuildTargetSegment`. -/
def EraseRebuildTargetSegment (r : RebuildCtx) (segmentId : SegmentId) : RebuildCtx :=
  if segmentId ∈ r.targetSegmentList then
    { r with
      targetSegmentList := r.targetSegmentList.erase segmentId
      targetSegmentCount := dec32 r.targetSegmentCount
      currentTarget := if segmentId = r.currentTarget then UNMAP_SEGMENT else r.currentTarget }
  else r

/-- Member function `RebuildCtx::GetRebuildTargetSegment`. -/
def GetRebuildTargetSegment (r : RebuildCtx) : SegmentId × RebuildCtx :=
  if h : r.targetSegmentList = ∅ then
    (UNMAP_SEGMENT, r)
  else
    let segmentId := r.targetSegmentList.min' (Finset.nonempty_iff_ne_empty.mpr h)
    (segmentId, { r with currentTarget := segmentId })

/-- Member function `RebuildCtx::ReleaseRebuildSegment`. -/
def ReleaseRebuildSegment (r : RebuildCtx) (segmentId : SegmentId) : Int × RebuildCtx :=
  if segmentId ∉ r.targetSegmentList then
    (0, { r with currentTarget := UINT32_MAX })
  else
    (1, r.EraseRebuildTargetSegment segmentId)

/-- Member function `RebuildCtx::NeedRebuildAgain`. -/
def NeedRebuildAgain (r : RebuildCtx) : Bool := r.needContinue

/-- Member function `RebuildCtx::FreeSegmentInRebuildTarget`. -/
def FreeSegmentInRebuildTarget (r : RebuildCtx) (segId : SegmentId) : Int × RebuildCtx :=
  if r.targetSegmentList = ∅ then (0, r)
  else if segId ∉ r.targetSegmentList then (0, r)
  else if r.currentTarget = segId then (0, r)
  else (1, r.EraseRebuildTargetSegment segId)

/-- Member function `RebuildCtx::IsRebuidTargetSegmentsEmpty`. -/
def IsRebuidTargetSegmentsEmpty (r : RebuildCtx) : Bool :=
  decide (r.targetSegmentList = ∅)

/-- Member function `RebuildCtx::IsRebuildTargetSegment`. -/
def IsRebuildTargetSegment (r : RebuildCtx) (segId : SegmentId) : Bool :=
  decide (segId ∈ r.targetSegmentList)

/-- Member function `RebuildCtx::GetRebuildTargetSegmentCount`. -/
def GetRebuildTargetSegmentCount (r : RebuildCtx) : Nat := r.targetSegmentCount

/-- Member function `RebuildCtx::ClearRebuildTargetList`. -/
def ClearRebuildTargetList (r : RebuildCtx) : RebuildCtx :=
  if r.targetSegmentList ≠ ∅ then
    { r with targetSegmentList := ∅, targetSegmentCount := 0 }
  else r

/-- Member function `RebuildCtx::AddRebuildTargetSegment`. -/
def AddRebuildTargetSegment (r : RebuildCtx) (segmentId : SegmentId) : RebuildCtx :=
  { r with
    targetSegmentList := insert segmentId r.targetSegmentList
    targetSegmentCount := toUInt32 (insert segmentId r.targetSegmentList).card }

/-- Member function `RebuildCtx::StopRebuilding`; `eidSetEmpty` is the value of
`EID(ALLOCATOR_REBUILD_TARGET_SET_EMPTY)`, an enumerator of the missing
`pos_event_id.h`. -/
def StopRebuilding (eidSetEmpty : Int) (r : RebuildCtx) : Int × RebuildCtx :=
  if r.targetSegmentList = ∅ then
    (-eidSetEmpty, r)
  else
    (1, { r with targetSegmentList := ∅, currentTarget := UINT32_MAX, targetSegmentCount := 0 })

/-- Member function `RebuildCtx::EmplaceRebuildTargetSegment`; the boolean is `pr.second`,
true when the element was newly inserted. -/
def EmplaceRebuildTargetSegment (r : RebuildCtx) (segmentId : SegmentId) : Bool × RebuildCtx :=
  (decide (segmentId ∉ r.targetSegmentList),
   { r with targetSegmentList := insert segmentId r.targetSegmentList })

/-- Member function `RebuildCtx::Init`. -/
def Init (r : RebuildCtx) : RebuildCtx :=
  if r.initialized = true then r
  else
    { r with
      targetSegmentCount := 0
      ctxHeader := { r.ctxHeader with ctxVersion := 0 }
      ctxStoredVersion := 0
      ctxDirtyVersion := 0
      initialized := true }

/-- Member function `RebuildCtx::Dispose`. -/
def Dispose (r : RebuildCtx) : RebuildCtx :=
  if r.initialized = false then r else { r with initialized := false }

/-- Member function `RebuildCtx::GetStoredVersion`. -/
def GetStoredVersion (r : RebuildCtx) : Nat := r.ctxStoredVersion

/-- Member function `RebuildCtx::ResetDirtyVersion`. -/
def ResetDirtyVersion (r : RebuildCtx) : RebuildCtx := { r with ctxDirtyVersion := 0 }

end RebuildCtx

/-- The buffer handed to `BeforeFlush`, `AfterLoad` and (inside the I/O
context) `FinalizeIo`: a `RebuildCtxHeader` followed by segment ids. -/
structure RebuildCtxBuffer where
  header : RebuildCtxHeader
  segmentList : List SegmentId
deriving DecidableEq, Repr

/-- In-order traversal of a `std::set<SegmentId>` holding at most `n` elements:
the smallest element, then the traversal of the rest. -/
def ascendingAux : Nat → Finset SegmentId → List SegmentId
  | 0, _ => []
  | n + 1, s =>
    if h : s.Nonempty then s.min' h :: ascendingAux n (s.erase (s.min' h)) else []

/-- In-order traversal of a `std::set<SegmentId>` (`for (auto x : set)`). -/
def ascending (s : Finset SegmentId) : List SegmentId := ascendingAux s.card s

/-- Member function `RebuildCtx::BeforeFlush`: the context afterwards and the
buffer as written. The header goes to the front of the buffer and the targets,
in order, to `segmentList[0]`, `segmentList[1]`, ...; what the buffer held
behind them stays. -/
def RebuildCtx.BeforeFlush (r : RebuildCtx) (buf : RebuildCtxBuffer) :
    RebuildCtx × RebuildCtxBuffer :=
  let targetSegmentCount := toUInt32 r.targetSegmentList.card
  let ctxHeader : RebuildCtxHeader :=
    { r.ctxHeader with numTargetSegments := targetSegmentCount, ctxVersion := r.ctxDirtyVersion }
  ({ r with
     targetSegmentCount := targetSegmentCount
     ctxHeader := ctxHeader
     ctxDirtyVersion := inc64 r.ctxDirtyVersion },
   { header := ctxHeader
     segmentList :=
       ascending r.targetSegmentList ++ buf.segmentList.drop r.targetSegmentList.card })

/-- The loop of `RebuildCtx::AfterLoad` with `n` rounds to go, at index `cnt`:
`emplace(segmentList[cnt])` for each index. The result is `none` when the loop
does not come to its end: on a duplicate outside unit tests it spins for ever
(`while (addrInfo->IsUT() != true) usleep(1)`), and an index past the end of
the buffer has nothing to read. -/
def afterLoadLoop (isUT : Bool) (segmentList : List SegmentId) :
    Nat → Nat → Finset SegmentId → Option (Finset SegmentId)
  | 0, _, s => some s
  | n + 1, cnt, s =>
    match segmentList[cnt]? with
    | none => none
    | some seg =>
      if seg ∈ s then
        if isUT = true then afterLoadLoop isUT segmentList n (cnt + 1) s else none
      else afterLoadLoop isUT segmentList n (cnt + 1) (insert seg s)

/-- Member function `RebuildCtx::AfterLoad`; `none` when the loop does not come
to its end or the assertion `targetSegmentCount == targetSegmentList.size()`
fails. -/
def RebuildCtx.AfterLoad (info : AllocatorAddressInfo) (r : RebuildCtx)
    (buf : RebuildCtxBuffer) : Option RebuildCtx :=
  let targetSegmentCount := r.ctxHeader.numTargetSegments
  match afterLoadLoop info.isUT buf.segmentList targetSegmentCount 0 r.targetSegmentList with
  | none => none
  | some s =>
    let r1 : RebuildCtx :=
      { r with
        ctxStoredVersion := r.ctxHeader.ctxVersion
        ctxDirtyVersion := inc64 r.ctxHeader.ctxVersion
        targetSegmentCount := targetSegmentCount
        targetSegmentList := s }
    if targetSegmentCount ≠ 0 then
      if targetSegmentCount = s.card then some { r1 with needContinue := true } else none
    else some r1

/-- Member function `RebuildCtx::FinalizeIo`, on the buffer of the I/O context. -/
def RebuildCtx.FinalizeIo (r : RebuildCtx) (buf : RebuildCtxBuffer) : RebuildCtx :=
  { r with ctxStoredVersion := buf.header.ctxVersion }

/-- Modelled from the spec: loading a rebuild context from a buffer, done by the
context I/O manager, whose source is not at hand. The header section is copied
from the buffer to `GetSectionAddr(RC_HEADER)`, which is `&ctxHeader`, then
`AfterLoad(buf)` is called. -/
def RebuildCtx.load (info : AllocatorAddressInfo) (r : RebuildCtx) (buf : RebuildCtxBuffer) :
    Option RebuildCtx :=
  RebuildCtx.AfterLoad info { r with ctxHeader := buf.header } buf

/-! ## Collaborators of the context manager -/

/-- GC mode (`GcMode`); the enumeration is declared in a header that is not at
hand, the enumerators are the ones `context_manager.cpp` uses. -/
inductive GcMode where
  | MODE_NO_GC
  | MODE_NORMAL_GC
  | MODE_URGENT_GC
deriving DecidableEq, Repr

/-- Modelled from the spec: the integer a `GcMode` converts to when assigned to
a gauge; the enumeration is not at hand, the spec lists the modes as
`NO_GC | NORMAL_GC | URGENT_GC`, numbered here from zero in that order. -/
def GcMode.toNat : GcMode → Nat
  | .MODE_NO_GC => 0
  | .MODE_NORMAL_GC => 1
  | .MODE_URGENT_GC => 2

/-- Segment states (`SegmentState`). -/
inductive SegmentState where
  | FREE
  | NVRAM
  | SSD
  | VICTIM
deriving DecidableEq, Repr

/-- Modelled from the spec: the class `GcCtx` (its source is not at hand), a
pure value object holding the two thresholds. -/
structure GcCtx where
  normalGcThreshold : Int
  urgentGcThreshold : Int
deriving DecidableEq, Repr

/-- Modelled from the spec: `GcCtx::GetCurrentGcMode(free_count)`, missing from
the sources. "`free_count > normal` gives `NO_GC`; `urgent < free_count ≤ normal`
gives `NORMAL_GC`; `free_count ≤ urgent` gives `URGENT_GC`." -/
def GcCtx.GetCurrentGcMode (g : GcCtx) (numFreeSegments : Int) : GcMode :=
  if numFreeSegments > g.normalGcThreshold then GcMode.MODE_NO_GC
  else if g.urgentGcThreshold < numFreeSegments then GcMode.MODE_NORMAL_GC
  else GcMode.MODE_URGENT_GC

/-- Modelled from the spec: `GcCtx::GetNormalGcThreshold`. -/
def GcCtx.GetNormalGcThreshold (g : GcCtx) : Int := g.normalGcThreshold

/-- Modelled from the spec: `GcCtx::GetUrgentThreshold`. -/
def GcCtx.GetUrgentThreshold (g : GcCtx) : Int := g.urgentGcThreshold

/-- Modelled from the spec: the class `BlockAllocationStatus` (its source is
not at hand), "an admission flag for user block allocations" with
`Permit()` / `Prohibit()` / `IsPermitted()`. -/
structure BlockAllocationStatus where
  userBlockAllocationPermitted : Bool
deriving DecidableEq, Repr

/-- Modelled from the spec: `BlockAllocationStatus::PermitUserBlockAllocation`. -/
def BlockAllocationStatus.PermitUserBlockAllocation (_b : BlockAllocationStatus) :
    BlockAllocationStatus :=
  { userBlockAllocationPermitted := true }

/-- Modelled from the spec: `BlockAllocationStatus::ProhibitUserBlockAllocation`. -/
def BlockAllocationStatus.ProhibitUserBlockAllocation (_b : BlockAllocationStatus) :
    BlockAllocationStatus :=
  { userBlockAllocationPermitted := false }

/-- Modelled from the spec: `IsPermitted()` of `BlockAllocationStatus`. -/
def BlockAllocationStatus.IsPermitted (b : BlockAllocationStatus) : Bool :=
  b.userBlockAllocationPermitted

/-- Modelled from the spec: the class `AllocatorCtx` (its source is not at
hand), which "holds `next_ssd_lsid`". -/
structure AllocatorCtx where
  nextSsdLsid : StripeId
deriving DecidableEq, Repr

/-- Modelled from the spec: `AllocatorCtx::SetNextSsdLsid(seg)`, which "snaps
the cursor to the first stripe of `seg`", where
`segment_id = lsid / stripes_per_segment`. -/
def AllocatorCtx.SetNextSsdLsid (_a : AllocatorCtx) (info : AllocatorAddressInfo)
    (segId : SegmentId) : AllocatorCtx :=
  { nextSsdLsid := (segId * info.stripesPerSegment) % 4294967296 }

/-- The virtual member functions of `SegmentCtx` (declared in `segment_ctx.h`)
which the context manager calls, over an arbitrary state `σ` of the segment
context. Each takes the state and the arguments and gives the returned value
and the state it leaves; `MakeRebuildTarget` also works on the rebuild context
the segment context holds a pointer to. -/
structure SegmentCtxOps (σ : Type) where
  IncreaseValidBlockCount : σ → SegmentId → Nat → Nat × σ
  DecreaseValidBlockCount : σ → SegmentId → Nat → Bool × σ
  IncreaseOccupiedStripeCount : σ → SegmentId → Bool × σ
  SetSegmentState : σ → SegmentId → SegmentState → Bool → σ
  AllocateFreeSegment : σ → SegmentId × σ
  GetNumOfFreeSegment : σ → Nat × σ
  GetNumOfFreeSegmentWoLock : σ → Nat × σ
  FindMostInvalidSSDSegment : σ → SegmentId × σ
  GetRebuildTargetSegment : σ → RebuildCtx → SegmentId × σ × RebuildCtx
  MakeRebuildTarget : σ → RebuildCtx → Int × σ × RebuildCtx

/-- Metric identifiers the context manager publishes under. -/
inductive TelemetryId where
  | TEL30000_ALCT_FREE_SEG_CNT
  | TEL30002_ALCT_GCVICTIM_SEG
  | TEL30003_ALCT_GCMODE
deriving DecidableEq, Repr

/-- Calls the context manager makes into collaborators that only receive
(telemetry publisher, QoS manager, context I/O manager), in the order made;
`NotifySegmentFreed` records an entry into `_NotifySegmentFreed`. -/
inductive Event where
  | PublishData (id : TelemetryId) (gauge : Nat)
  | SetGcFreeSegment (numFreeSegments : Int) (arrayId : Nat)
  | FlushRebuildContext
  | NotifySegmentFreed (segId : SegmentId)
deriving DecidableEq, Repr

/-! ## ContextManager -/

/-- The member variables of `ContextManager`, with the calls into its
receive-only collaborators collected in `events`. -/
structure ContextManager (σ : Type) where
  addrInfo : AllocatorAddressInfo
  curGcMode : GcMode
  prevGcMode : GcMode
  arrayId : Nat
  allocatorCtx : AllocatorCtx
  segmentCtx : σ
  rebuildCtx : RebuildCtx
  gcCtx : GcCtx
  blockAllocStatus : BlockAllocationStatus
  events : List Event
deriving DecidableEq

namespace ContextManager

variable {σ : Type}

/-- The constructor `ContextManager::ContextManager` taking the sub-contexts. -/
def new (allocCtx : AllocatorCtx) (segCtx : σ) (rebuildCtx : RebuildCtx) (gcCtx : GcCtx)
    (blockAllocStatus : BlockAllocationStatus) (info : AllocatorAddressInfo) (arrayId : Nat) :
    ContextManager σ :=
  { addrInfo := info
    curGcMode := GcMode.MODE_NO_GC
    prevGcMode := GcMode.MODE_NO_GC
    arrayId := arrayId
    allocatorCtx := allocCtx
    segmentCtx := segCtx
    rebuildCtx := rebuildCtx
    gcCtx := gcCtx
    blockAllocStatus := blockAllocStatus
    events := [] }

/-- Member function `ContextManager::GetCurrentGcMode`. -/
def GetCurrentGcMode (ops : SegmentCtxOps σ) (cm : ContextManager σ) :
    GcMode × ContextManager σ :=
  let (n, seg1) := ops.GetNumOfFreeSegment cm.segmentCtx
  let numFreeSegments : Int := toInt32 n
  let mode := cm.gcCtx.GetCurrentGcMode numFreeSegments
  let ev1 := cm.events ++ [Event.SetGcFreeSegment numFreeSegments cm.arrayId]
  let ev2 := if cm.curGcMode ≠ mode then
      ev1 ++ [Event.PublishData TelemetryId.TEL30003_ALCT_GCMODE mode.toNat]
    else ev1
  (mode, { cm with segmentCtx := seg1, prevGcMode := cm.curGcMode, curGcMode := mode,
                   events := ev2 })

/-- Member function `ContextManager::_NotifySegmentFreed`. -/
def _NotifySegmentFreed (ops : SegmentCtxOps σ) (cm : ContextManager σ) (segId : SegmentId) :
    ContextManager σ :=
  let (_freeSegCount, seg1) := ops.GetNumOfFreeSegmentWoLock cm.segmentCtx
  let (ret, rb1) := cm.rebuildCtx.FreeSegmentInRebuildTarget segId
  let ev1 := cm.events ++ [Event.NotifySegmentFreed segId]
  let ev2 := if ret = 1 then ev1 ++ [Event.FlushRebuildContext] else ev1
  let (mode, cm1) :=
    GetCurrentGcMode ops { cm with segmentCtx := seg1, rebuildCtx := rb1, events := ev2 }
  if mode ≠ GcMode.MODE_URGENT_GC then
    { cm1 with blockAllocStatus := cm1.blockAllocStatus.PermitUserBlockAllocation }
  else cm1

/-- Member function `ContextManager::UpdateOccupiedStripeCount`. -/
def UpdateOccupiedStripeCount (ops : SegmentCtxOps σ) (cm : ContextManager σ)
    (lsid : StripeId) : ContextManager σ :=
  let segId := lsid / cm.addrInfo.stripesPerSegment
  let (segmentFreed, seg1) := ops.IncreaseOccupiedStripeCount cm.segmentCtx segId
  if segmentFreed = true then
    _NotifySegmentFreed ops { cm with segmentCtx := seg1 } segId
  else { cm with segmentCtx := seg1 }

/-- Member function `ContextManager::IncreaseValidBlockCount`. -/
def IncreaseValidBlockCount (ops : SegmentCtxOps σ) (cm : ContextManager σ)
    (segId : SegmentId) (count : Nat) : ContextManager σ :=
  { cm with segmentCtx := (ops.IncreaseValidBlockCount cm.segmentCtx segId count).2 }

/-- Member function `ContextManager::DecreaseValidBlockCount`. -/
def DecreaseValidBlockCount (ops : SegmentCtxOps σ) (cm : ContextManager σ)
    (segId : SegmentId) (count : Nat) : ContextManager σ :=
  let (segmentFreed, seg1) := ops.DecreaseValidBlockCount cm.segmentCtx segId count
  if segmentFreed = true then
    _NotifySegmentFreed ops { cm with segmentCtx := seg1 } segId
  else { cm with segmentCtx := seg1 }

/-- Member function `ContextManager::AllocateFreeSegment`. -/
def AllocateFreeSegment (ops : SegmentCtxOps σ) (cm : ContextManager σ) :
    SegmentId × ContextManager σ :=
  let (segId, seg1) := ops.AllocateFreeSegment cm.segmentCtx
  let (_freeSegCount, seg2) := ops.GetNumOfFreeSegmentWoLock seg1
  if segId ≠ UNMAP_SEGMENT then
    (segId, { cm with segmentCtx := seg2,
                      events := cm.events ++
                        [Event.PublishData TelemetryId.TEL30000_ALCT_FREE_SEG_CNT segId] })
  else (segId, { cm with segmentCtx := seg2 })

/-- Member function `ContextManager::SetNextSsdLsid`; `eidNoFreeSegment` is the value of
`EID(ALLOCATOR_NO_FREE_SEGMENT)`, an enumerator of the missing `pos_event_id.h`. -/
def SetNextSsdLsid (eidNoFreeSegment : Int) (ops : SegmentCtxOps σ) (cm : ContextManager σ) :
    Int × ContextManager σ :=
  let (segId, cm1) := AllocateFreeSegment ops cm
  if segId = UNMAP_SEGMENT then
    (-eidNoFreeSegment, cm1)
  else
    (0, { cm1 with allocatorCtx := cm1.allocatorCtx.SetNextSsdLsid cm1.addrInfo segId })

/-- Member function `ContextManager::StopRebuilding`. -/
def StopRebuilding (eidSetEmpty : Int) (cm : ContextManager σ) : Int × ContextManager σ :=
  let (ret, rb1) := cm.rebuildCtx.StopRebuilding eidSetEmpty
  if ret = 1 then
    (0, { cm with rebuildCtx := rb1, events := cm.events ++ [Event.FlushRebuildContext] })
  else (ret, { cm with rebuildCtx := rb1 })

/-- Member function `ContextManager::AllocateGCVictimSegment`. -/
def AllocateGCVictimSegment (ops : SegmentCtxOps σ) (cm : ContextManager σ) :
    SegmentId × ContextManager σ :=
  let (victimSegment, seg1) := ops.FindMostInvalidSSDSegment cm.segmentCtx
  if victimSegment ≠ UNMAP_SEGMENT then
    let seg2 := ops.SetSegmentState seg1 victimSegment SegmentState.VICTIM true
    let (_freeSegCount, seg3) := ops.GetNumOfFreeSegmentWoLock seg2
    (victimSegment,
     { cm with segmentCtx := seg3,
               events := cm.events ++
                 [Event.PublishData TelemetryId.TEL30002_ALCT_GCVICTIM_SEG victimSegment] })
  else (victimSegment, { cm with segmentCtx := seg1 })

/-- Member function `ContextManager::GetGcThreshold`. -/
def GetGcThreshold (cm : ContextManager σ) (mode : GcMode) : Int :=
  if mode = GcMode.MODE_NORMAL_GC then cm.gcCtx.GetNormalGcThreshold
  else cm.gcCtx.GetUrgentThreshold

/-- Member function `ContextManager::NeedRebuildAgain`. -/
def NeedRebuildAgain (cm : ContextManager σ) : Bool := cm.rebuildCtx.NeedRebuildAgain

/-- Member function `ContextManager::ReleaseRebuildSegment`. -/
def ReleaseRebuildSegment (cm : ContextManager σ) (segId : SegmentId) :
    Int × ContextManager σ :=
  let (ret, rb1) := cm.rebuildCtx.ReleaseRebuildSegment segId
  if ret = 1 then
    (0, { cm with rebuildCtx := rb1, events := cm.events ++ [Event.FlushRebuildContext] })
  else (ret, { cm with rebuildCtx := rb1 })

/-- Member function `ContextManager::MakeRebuildTarget`; the count, a
`uint32_t`, is returned as `int`. -/
def MakeRebuildTarget (ops : SegmentCtxOps σ) (cm : ContextManager σ) :
    Int × ContextManager σ :=
  let (ret, seg1, rb1) := ops.MakeRebuildTarget cm.segmentCtx cm.rebuildCtx
  if ret = 1 then
    (toInt32 rb1.GetRebuildTargetSegmentCount,
     { cm with segmentCtx := seg1, rebuildCtx := rb1,
               events := cm.events ++ [Event.FlushRebuildContext] })
  else (ret, { cm with segmentCtx := seg1, rebuildCtx := rb1 })

end ContextManager

/-! ## A scripted segment context

The unit tests drive the context manager through `MockSegmentCtx`
(`segment_ctx_mock.h`), whose member functions return what the test scripted.
`ScriptedSegmentCtx` is such a double: every member function returns the head
of its script and keeps the tail, and returns the default value (`0`, `false`)
once the script is used up; the calls of `SetSegmentState` are recorded. -/

/-- State of the scripted segment context: what is left of each script. -/
structure ScriptedSegmentCtx where
  decreaseValidBlockCount : List Bool
  increaseOccupiedStripeCount : List Bool
  allocateFreeSegment : List SegmentId
  numOfFreeSegment : List Nat
  numOfFreeSegmentWoLock : List Nat
  findMostInvalidSSDSegment : List SegmentId
  makeRebuildTarget : List Int
  setSegmentStateCalls : List (SegmentId × SegmentState × Bool)
deriving DecidableEq, Repr

/-- The member functions of the scripted segment context. -/
def scriptedOps : SegmentCtxOps ScriptedSegmentCtx where
  IncreaseValidBlockCount := fun s _ _ => (0, s)
  DecreaseValidBlockCount := fun s _ _ =>
    (s.decreaseValidBlockCount.headD false,
     { s with decreaseValidBlockCount := s.decreaseValidBlockCount.tail })
  IncreaseOccupiedStripeCount := fun s _ =>
    (s.increaseOccupiedStripeCount.headD false,
     { s with increaseOccupiedStripeCount := s.increaseOccupiedStripeCount.tail })
  SetSegmentState := fun s segId state needlock =>
    { s with setSegmentStateCalls := s.setSegmentStateCalls ++ [(segId, state, needlock)] }
  AllocateFreeSegment := fun s =>
    (s.allocateFreeSegment.headD 0, { s with allocateFreeSegment := s.allocateFreeSegment.tail })
  GetNumOfFreeSegment := fun s =>
    (s.numOfFreeSegment.headD 0, { s with numOfFreeSegment := s.numOfFreeSegment.tail })
  GetNumOfFreeSegmentWoLock := fun s =>
    (s.numOfFreeSegmentWoLock.headD 0,
     { s with numOfFreeSegmentWoLock := s.numOfFreeSegmentWoLock.tail })
  FindMostInvalidSSDSegment := fun s =>
    (s.findMostInvalidSSDSegment.headD 0,
     { s with findMostInvalidSSDSegment := s.findMostInvalidSSDSegment.tail })
  GetRebuildTargetSegment := fun s r => ((r.GetRebuildTargetSegment).1, s, (r.GetRebuildTargetSegment).2)
  MakeRebuildTarget := fun s r =>
    (s.makeRebuildTarget.headD 0, { s with makeRebuildTarget := s.makeRebuildTarget.tail }, r)

/-- A scripted segment context with every script empty. -/
def ScriptedSegmentCtx.empty : ScriptedSegmentCtx :=
  { decreaseValidBlockCount := []
    increaseOccupiedStripeCount := []
    allocateFreeSegment := []
    numOfFreeSegment := []
    numOfFreeSegmentWoLock := []
    findMostInvalidSSDSegment := []
    makeRebuildTarget := []
    setSegmentStateCalls := [] }

/-! ## Example states -/

/-- A rebuild context as constructed by `RebuildCtx(tp, info)`, with the
signature taken to be `0`. -/
def RebuildCtx.fresh : RebuildCtx := RebuildCtx.new 0 none

/-- The rebuild context of the race scenario: targets `{5, 7}`, nothing picked. -/
def RebuildCtx.ex57 : RebuildCtx :=
  (RebuildCtx.fresh.AddRebuildTargetSegment 5).AddRebuildTargetSegment 7

/-- The rebuild context `ex57` after `GetRebuildTargetSegment` picked segment 5. -/
def RebuildCtx.ex57picked : RebuildCtx := RebuildCtx.ex57.GetRebuildTargetSegment.2

/-- A rebuild context whose target list was cleared while segment 5 was the
current target: add 5, pick it, then `ClearRebuildTargetList`. -/
def RebuildCtx.exCleared : RebuildCtx :=
  (RebuildCtx.fresh.AddRebuildTargetSegment 5).GetRebuildTargetSegment.2.ClearRebuildTargetList

/-- Successive calls of `FreeSegmentInRebuildTarget`, one per freed segment. -/
def RebuildCtx.freeAll (r : RebuildCtx) : List SegmentId → RebuildCtx
  | [] => r
  | s :: rest => RebuildCtx.freeAll (r.FreeSegmentInRebuildTarget s).2 rest

/-- The segments for which `_NotifySegmentFreed` was entered, in order. -/
def notified : List Event → List SegmentId
  | [] => []
  | Event.NotifySegmentFreed segId :: rest => segId :: notified rest
  | _ :: rest => notified rest

/-- The number of rebuild-context flushes requested. -/
def flushCount : List Event → Nat
  | [] => 0
  | Event.FlushRebuildContext :: rest => flushCount rest + 1
  | _ :: rest => flushCount rest

/-- The gauges published under one metric identifier, in order. -/
def published (id : TelemetryId) : List Event → List Nat
  | [] => []
  | Event.PublishData i gauge :: rest =>
    if i = id then gauge :: published id rest else published id rest
  | _ :: rest => published id rest

/-- The GC thresholds of the mode-transition scenario: normal 3, urgent 1. -/
def GcCtx.ex31 : GcCtx := { normalGcThreshold := 3, urgentGcThreshold := 1 }

/-- The geometry of the scenarios: 8 stripes a segment, 4 segments. -/
def AllocatorAddressInfo.ex : AllocatorAddressInfo :=
  { stripesPerSegment := 8, numUserAreaSegments := 4, isUT := true }

/-- A context manager over a scripted segment context, with thresholds 3 and
1, the rebuild targets `{5, 7}` of which 5 is picked, and the given admission
flag. -/
def ContextManager.scripted (s : ScriptedSegmentCtx) (permitted : Bool) :
    ContextManager ScriptedSegmentCtx :=
  ContextManager.new { nextSsdLsid := 0 } s RebuildCtx.ex57picked GcCtx.ex31
    { userBlockAllocationPermitted := permitted } AllocatorAddressInfo.ex 0

/-- The mode-transition scenario on 4 segments: the segment context hands out
segments 0, 1, 2 and reports 4, then 2, then 1 free segments to the three
`GetCurrentGcMode` calls. -/
def ContextManager.exScenario : ContextManager ScriptedSegmentCtx :=
  ContextManager.scripted
    { ScriptedSegmentCtx.empty with
      allocateFreeSegment := [0, 1, 2]
      numOfFreeSegmentWoLock := [3, 2, 1]
      numOfFreeSegment := [4, 2, 1] } true

/-- The scenario run: `GetCurrentGcMode` with 4 free, two allocations,
`GetCurrentGcMode` with 2 free, one more allocation; what is left is the
`GetCurrentGcMode` call that sees 1 free segment. -/
def ContextManager.exScenarioBeforeUrgent : ContextManager ScriptedSegmentCtx :=
  (ContextManager.AllocateFreeSegment scriptedOps
    (ContextManager.GetCurrentGcMode scriptedOps
      (ContextManager.AllocateFreeSegment scriptedOps
        (ContextManager.AllocateFreeSegment scriptedOps
          (ContextManager.GetCurrentGcMode scriptedOps
            ContextManager.exScenario).2).2).2).2).2

/-- The rebuild context of the crash-recovery scenario: targets `{3, 9, 17}`,
added in another order. -/
def RebuildCtx.ex3917 : RebuildCtx :=
  ((RebuildCtx.fresh.AddRebuildTargetSegment 9).AddRebuildTargetSegment 17).AddRebuildTargetSegment 3

/-- A buffer of `n` segment ids, all bytes zero. -/
def RebuildCtxBuffer.zeros (n : Nat) : RebuildCtxBuffer :=
  { header := { sig := 0, ctxVersion := 0, numTargetSegments := 0 }
    segmentList := List.replicate n 0 }

/-- The invariant on the current target: it is a target or it is the sentinel. -/
def RebuildCtx.targetInv (r : RebuildCtx) : Prop :=
  r.currentTarget ∈ r.targetSegmentList ∨ r.currentTarget = UINT32_MAX

instance (r : RebuildCtx) : Decidable r.targetInv := by
  unfold RebuildCtx.targetInv
  infer_instance

/-- The invariant on the versions: the stored one is at most the dirty one. -/
def RebuildCtx.versionInv (r : RebuildCtx) : Prop :=
  r.ctxStoredVersion ≤ r.ctxDirtyVersion

instance (r : RebuildCtx) : Decidable r.versionInv := by
  unfold RebuildCtx.versionInv
  infer_instance

/-- How urgent a GC mode is: no GC, then normal GC, then urgent GC. -/
def GcMode.urgency : GcMode → Nat
  | .MODE_NO_GC => 0
  | .MODE_NORMAL_GC => 1
  | .MODE_URGENT_GC => 2

/-- A rebuild context into which segment 5 was put by
`EmplaceRebuildTargetSegment` alone: the target is there, the count is still 0. -/
def RebuildCtx.exEmplaced : RebuildCtx := (RebuildCtx.fresh.EmplaceRebuildTargetSegment 5).2

/-- A rebuild context with the single target 5, picked as current target. -/
def RebuildCtx.ex5picked : RebuildCtx :=
  (RebuildCtx.fresh.AddRebuildTargetSegment 5).GetRebuildTargetSegment.2

/-- A rebuild context after `Init` and two flushes, with the buffer the second
flush wrote: the dirty version is 2, the buffer carries version 1. -/
def RebuildCtx.exFlushedTwice : RebuildCtx × RebuildCtxBuffer :=
  (RebuildCtx.fresh.Init.BeforeFlush (RebuildCtxBuffer.zeros 4)).1.BeforeFlush
    (RebuildCtxBuffer.zeros 4)

/-- The context `exFlushedTwice` after the I/O of the second flush completed:
stored version 1, dirty version 2. -/
def RebuildCtx.exStored1 : RebuildCtx :=
  RebuildCtx.exFlushedTwice.1.FinalizeIo RebuildCtx.exFlushedTwice.2

/-- A context that was flushed twice before `Init` ran, with the buffer the
second flush wrote. -/
def RebuildCtx.exFlushedBeforeInit : RebuildCtx × RebuildCtxBuffer :=
  (RebuildCtx.fresh.BeforeFlush (RebuildCtxBuffer.zeros 4)).1.BeforeFlush
    (RebuildCtxBuffer.zeros 4)

/-- A buffer whose header carries the largest 64-bit version and no targets. -/
def RebuildCtxBuffer.exMaxVersion : RebuildCtxBuffer :=
  { header := { sig := 0, ctxVersion := 18446744073709551615, numTargetSegments := 0 }
    segmentList := [] }

/-- The operations of a rebuild context that touch its versions. `finalizeIo k`
is `FinalizeIo` on the `k`-th of the buffers in flight. -/
inductive VersionOp where
  | beforeFlush (buf : RebuildCtxBuffer)
  | finalizeIo (k : Nat)
  | afterLoad (info : AllocatorAddressInfo) (buf : RebuildCtxBuffer)
  | resetDirtyVersion
  | init

/-- A rebuild context together with the buffers in flight: those written by
`BeforeFlush` since the versions were last set anew (by an `Init` that reset
them, by `AfterLoad` or by `ResetDirtyVersion`), newest first. -/
structure VersionState where
  ctx : RebuildCtx
  written : List RebuildCtxBuffer

/-- One version-affecting operation. `none` when the step is not admitted:
a `BeforeFlush` or `AfterLoad` whose increment would wrap at `2^64`, an
`AfterLoad` that does not return, `FinalizeIo` on a buffer that is not in
flight, `ResetDirtyVersion` while the stored version is not 0. -/
def versionStep (st : VersionState) : VersionOp → Option VersionState
  | .beforeFlush buf =>
    if st.ctx.ctxDirtyVersion + 1 < 18446744073709551616 then
      some { ctx := (st.ctx.BeforeFlush buf).1, written := (st.ctx.BeforeFlush buf).2 :: st.written }
    else none
  | .finalizeIo k =>
    match st.written[k]? with
    | some b => some { st with ctx := st.ctx.FinalizeIo b }
    | none => none
  | .afterLoad info buf =>
    if st.ctx.ctxHeader.ctxVersion + 1 < 18446744073709551616 then
      match st.ctx.AfterLoad info buf with
      | some r => some { ctx := r, written := [] }
      | none => none
    else none
  | .resetDirtyVersion =>
    if st.ctx.ctxStoredVersion = 0 then some { ctx := st.ctx.ResetDirtyVersion, written := [] }
    else none
  | .init =>
    some { ctx := st.ctx.Init, written := if st.ctx.initialized = true then st.written else [] }

/-- A sequence of version-affecting operations, `none` as soon as a step is
not admitted. -/
def versionRun (st : VersionState) : List VersionOp → Option VersionState
  | [] => some st
  | op :: rest =>
    match versionStep st op with
    | some st' => versionRun st' rest
    | none => none

/-- The invariant along a run: the stored version is at most the dirty one,
and every buffer in flight carries a version below the dirty one. -/
def VersionState.inv (st : VersionState) : Prop :=
  st.ctx.versionInv ∧ ∀ b ∈ st.written, b.header.ctxVersion < st.ctx.ctxDirtyVersion

/-- A run through every operation: `Init`, two flushes, completion of the
older and then of the newer one, a load of the newer buffer, a flush,
its completion, `Init` again. -/
def VersionOp.exRun : List VersionOp :=
  [VersionOp.init, VersionOp.beforeFlush (RebuildCtxBuffer.zeros 4),
   VersionOp.beforeFlush (RebuildCtxBuffer.zeros 4), VersionOp.finalizeIo 1,
   VersionOp.finalizeIo 0,
   VersionOp.afterLoad AllocatorAddressInfo.ex RebuildCtx.exFlushedTwice.2,
   VersionOp.beforeFlush (RebuildCtxBuffer.zeros 4), VersionOp.finalizeIo 0, VersionOp.init]

/-! ## Rebuild context: sections, flush cycles, operation sequences -/

/-- Sections of the rebuild context file (`RebuildCtxSection`); the
enumeration is declared in a header that is not at hand, the enumerators are
the ones `rebuild_ctx.cpp` uses. -/
inductive RebuildCtxSection where
  | RC_HEADER
  | RC_REBUILD_SEGMENT_LIST
  | NUM_REBUILD_CTX_SECTION
deriving DecidableEq, Repr

/-- Size in bytes of a `SegmentId`, a `uint32_t`. -/
def sizeofSegmentId : Nat := 4

/-- Member function `RebuildCtx::GetSectionSize`, an `int`; `sizeofHeader` is
`sizeof(RebuildCtxHeader)`, a structure declared in a header not at hand. -/
def RebuildCtx.GetSectionSize (sizeofHeader : Nat) (info : AllocatorAddressInfo)
    (_r : RebuildCtx) : RebuildCtxSection → Int
  | .RC_HEADER => toInt32 sizeofHeader
  | .RC_REBUILD_SEGMENT_LIST => toInt32 (info.numUserAreaSegments * sizeofSegmentId)
  | .NUM_REBUILD_CTX_SECTION => 0

/-- Member function `RebuildCtx::GetSignature`; the constant `SIG_REBUILD_CTX`
of the missing header is a parameter. -/
def RebuildCtx.GetSignature (SIG_REBUILD_CTX : Nat) (_r : RebuildCtx) : Nat := SIG_REBUILD_CTX

/-- The bytes `BeforeFlush` writes into the buffer: `sizeof(RebuildCtxHeader)`
by `memcpy`, then one `SegmentId` for each target. -/
def RebuildCtx.bytesWritten (sizeofHeader : Nat) (r : RebuildCtx) : Nat :=
  sizeofHeader + (ascending r.targetSegmentList).length * sizeofSegmentId

/-- One flush cycle: `BeforeFlush(buf)`, then `FinalizeIo` on that buffer. -/
def RebuildCtx.flushCycle (r : RebuildCtx) (buf : RebuildCtxBuffer) : RebuildCtx :=
  (r.BeforeFlush buf).1.FinalizeIo (r.BeforeFlush buf).2

/-- The contexts after every step of a sequence of flush cycles, one cycle for
each buffer: after `BeforeFlush`, after `FinalizeIo`, after the next
`BeforeFlush`, and so on. -/
def RebuildCtx.flushTrace (r : RebuildCtx) : List RebuildCtxBuffer → List RebuildCtx
  | [] => []
  | buf :: rest =>
    (r.BeforeFlush buf).1 :: r.flushCycle buf :: RebuildCtx.flushTrace (r.flushCycle buf) rest

/-- The operations of a rebuild context that touch the target set or the
count, apart from `EmplaceRebuildTargetSegment` and `AfterLoad`. -/
inductive RebuildOp where
  | add (segmentId : SegmentId)
  | get
  | release (segmentId : SegmentId)
  | free (segId : SegmentId)
  | stop
  | clear
  | beforeFlush (buf : RebuildCtxBuffer)

/-- One operation on a rebuild context; `eidSetEmpty` as in `StopRebuilding`. -/
def RebuildCtx.apply (eidSetEmpty : Int) (r : RebuildCtx) : RebuildOp → RebuildCtx
  | .add segmentId => r.AddRebuildTargetSegment segmentId
  | .get => r.GetRebuildTargetSegment.2
  | .release segmentId => (r.ReleaseRebuildSegment segmentId).2
  | .free segId => (r.FreeSegmentInRebuildTarget segId).2
  | .stop => (r.StopRebuilding eidSetEmpty).2
  | .clear => r.ClearRebuildTargetList
  | .beforeFlush buf => (r.BeforeFlush buf).1

/-- A sequence of operations on a rebuild context. -/
def RebuildCtx.run (eidSetEmpty : Int) (r : RebuildCtx) : List RebuildOp → RebuildCtx
  | [] => r
  | op :: rest => RebuildCtx.run eidSetEmpty (r.apply eidSetEmpty op) rest

/-- The segment an operation adds is a segment id, below `UNMAP_SEGMENT`. -/
def RebuildOp.addsSegmentId : RebuildOp → Prop
  | .add segmentId => segmentId < UNMAP_SEGMENT
  | _ => True

instance (op : RebuildOp) : Decidable op.addsSegmentId := by
  cases op <;> unfold RebuildOp.addsSegmentId <;> infer_instance

/-- A sequence through every operation: add 9, 17, 3 and 9 again, pick, free
17, flush, release 3, add 5, clear, add 7, stop. -/
def RebuildOp.exRun : List RebuildOp :=
  [RebuildOp.add 9, RebuildOp.add 17, RebuildOp.add 3, RebuildOp.add 9, RebuildOp.get,
   RebuildOp.free 17, RebuildOp.beforeFlush (RebuildCtxBuffer.zeros 20), RebuildOp.release 3,
   RebuildOp.add 5, RebuildOp.clear, RebuildOp.add 7, RebuildOp.stop]

/-- A buffer whose header carries the signature 1, version 7 and two targets,
followed by the segment ids 3 and 9. -/
def RebuildCtxBuffer.exForeignSig : RebuildCtxBuffer :=
  { header := { sig := 1, ctxVersion := 7, numTargetSegments := 2 }
    segmentList := [3, 9] }

/-! ## PartitionManager

`partition_manager.cpp` creates the four partitions of an array. The classes it
builds on (`Partition`, `StripePartition`, `NvmPartition`, `Raid5`,
`ArrayInterface`, `ArrayDevice`, `ArrayConfig`, `POS_EVENT_ID`) are declared in
headers that are not among the sources; what the member functions read from
them is collected in `PartitionEnv`, and the calls into the `ArrayInterface`
are collected in order. A result `none` stands for undefined behaviour: a
division by zero, a null pointer that is dereferenced, `front()` of an empty
vector.

The sizes are machine integers. The sizes of devices, `startLba` and the local
variables declared `uint64_t` are 64 bits wide, and so is every expression they
enter: sums, products and differences wrap modulo `2^64`. The other fields of
`PartitionPhysicalSize` are `uint32_t` (`partition_manager.cpp` casts them to
`uint64_t` before it multiplies them, `nvm_partition_test.cpp` assigns their
products to `uint32_t`), so a value stored into one of them is cut to 32 bits.
The constants of `ArrayConfig` are taken as `uint64_t` values; this decides the
width of the two products `totalSegments * SSD_SEGMENT_SIZE_BYTE` and
`BLOCK_SIZE_BYTE * blksPerChunk * chunksPerStripe` only. -/

/-- The partition types that `partition_manager.cpp` names; they index the
array `partitions_`. -/
inductive PartitionType where
  | META_NVM
  | WRITE_BUFFER
  | META_SSD
  | USER_DATA
deriving DecidableEq, Repr, Fintype

/-- States of an array device; `partition_manager.cpp` names `NORMAL` only. -/
inductive ArrayDeviceState where
  | NORMAL
  | FAULT
  | REBUILD
deriving DecidableEq, Repr

/-- An array device as far as the partition manager reads it: `GetState()`,
and `GetUblock()->GetSize()`, which is `none` when there is no block device
behind `GetUblock()`. -/
structure ArrayDevice where
  state : ArrayDeviceState
  ublockSize : Option Nat
deriving DecidableEq, Repr

/-- The physical geometry of a partition (`PartitionPhysicalSize`). -/
structure PartitionPhysicalSize where
  startLba : Nat
  blksPerChunk : Nat
  chunksPerStripe : Nat
  stripesPerSegment : Nat
  totalSegments : Nat
deriving DecidableEq, Repr

/-- The logical geometry of a partition (`PartitionLogicalSize`), with the
fields that `nvm_partition_test.cpp` reads. -/
structure PartitionLogicalSize where
  minWriteBlkCnt : Nat
  blksPerChunk : Nat
  blksPerStripe : Nat
  stripesPerSegment : Nat
  totalStripes : Nat
  totalSegments : Nat
deriving DecidableEq, Repr

/-- A partition object as far as the partition manager reads it: what
`GetPhysicalSize()` and `GetLogicalSize()` return, `none` for a null pointer. -/
structure Partition where
  GetPhysicalSize : Option PartitionPhysicalSize
  GetLogicalSize : Option PartitionLogicalSize
deriving DecidableEq, Repr

/-- The constants of `ArrayConfig` that `partition_manager.cpp` reads. -/
structure ArrayConfig where
  NVM_MBR_SIZE_BYTE : Nat
  SECTOR_SIZE_BYTE : Nat
  NVM_DEVICE_COUNT : Nat
  META_NVM_SIZE : Nat
  BLOCK_SIZE_BYTE : Nat
  NVM_SEGMENT_SIZE : Nat
  SECTORS_PER_BLOCK : Nat
  META_SSD_START_LBA : Nat
  BLOCKS_PER_CHUNK : Nat
  STRIPES_PER_SEGMENT : Nat
  SSD_SEGMENT_SIZE_BYTE : Nat
  META_SSD_SIZE_RATIO : Nat
  MBR_SIZE_BYTE : Nat
deriving DecidableEq, Repr

/-- What the partition manager takes from code that is not among the sources:
the constants, the two event ids it returns, the constructors of the partition
classes (array index, type, physical size, devices), and the result of
`Raid5(&physicalSize, totalNvmStripes, affinityManager).AllocParityPools()`. -/
structure PartitionEnv where
  config : ArrayConfig
  ARRAY_PARTITION_CREATION_ERROR : Int
  ARRAY_PARTITION_LOAD_ERROR : Int
  newStripePartition : Nat → PartitionType → PartitionPhysicalSize → List ArrayDevice → Partition
  newNvmPartition : Nat → PartitionType → PartitionPhysicalSize → List ArrayDevice → Partition
  AllocParityPools : PartitionPhysicalSize → Nat → Bool

/-- Calls into the `ArrayInterface`, in the order made; the partition handed
over is the one just stored in the slot of the given type. -/
inductive IntfCall where
  | AddTranslator (partType : PartitionType)
  | AddRecover (partType : PartitionType)
  | AddRebuildTarget (partType : PartitionType)
  | ClearInterface
deriving DecidableEq, Repr

/-- The member variable `partitions_` of `PartitionManager`: one slot for each
partition type, `none` for `nullptr`. -/
structure PartitionManager where
  partitions_ : PartitionType → Option Partition

/-- Conversion to `uint64_t`. -/
def toUInt64 (x : Nat) : Nat := x % 18446744073709551616

/-- Sum of two `uint64_t`, wrapping. -/
def add64 (a b : Nat) : Nat := toUInt64 (a + b)

/-- Product of two `uint64_t`, wrapping. -/
def mul64 (a b : Nat) : Nat := toUInt64 (a * b)

/-- Difference of two `uint64_t`, wrapping: below zero it continues from
`2^64 - 1` downwards. -/
def sub64 (a b : Nat) : Nat :=
  if toUInt64 b ≤ toUInt64 a then toUInt64 a - toUInt64 b
  else 18446744073709551616 - (toUInt64 b - toUInt64 a)

/-- Unsigned division; division by zero is undefined. -/
def udiv (n d : Nat) : Option Nat := if d = 0 then none else some (n / d)

/-- The function-like definition `DIV_ROUND_UP(n, d)`, `(((n) + (d)-1) / (d))`,
on `uint64_t`. -/
def DIV_ROUND_UP (n d : Nat) : Option Nat := udiv (sub64 (add64 n d) 1) (toUInt64 d)

namespace PartitionManager

/-- The constructor `PartitionManager::PartitionManager`: `partitions_.fill(nullptr)`. -/
def new : PartitionManager := { partitions_ := fun _ => none }

/-- Member function `PartitionManager::_DeleteAllPartitions`: every slot that
is not null is deleted and set to null. -/
def _DeleteAllPartitions (pm : PartitionManager) : PartitionManager :=
  { partitions_ := fun i =>
      match pm.partitions_ i with
      | some _ => none
      | none => none }

/-- Member function `PartitionManager::GetSizeInfo`. -/
def GetSizeInfo (pm : PartitionManager) (type : PartitionType) : Option PartitionLogicalSize :=
  match pm.partitions_ type with
  | none => none
  | some partition => partition.GetLogicalSize

/-- Member function `PartitionManager::DeleteAll`. -/
def DeleteAll (pm : PartitionManager) (intf : List IntfCall) :
    PartitionManager × List IntfCall :=
  (pm._DeleteAllPartitions, intf ++ [IntfCall.ClearInterface])

/-- Member function `PartitionManager::_GetBaseline`: the first device in state
`NORMAL`, `none` when there is none. -/
def _GetBaseline (devs : List ArrayDevice) : Option ArrayDevice :=
  devs.find? (fun p => decide (p.state = ArrayDeviceState.NORMAL))

/-- The assignment `partitions_[partType] = partition`. -/
def store (pm : PartitionManager) (partType : PartitionType) (partition : Partition) :
    PartitionManager :=
  { partitions_ := fun i => if i = partType then some partition else pm.partitions_ i }

/-- Member function `PartitionManager::_CreateMetaSsd`: the code returned, the
partition manager and the interface calls afterwards. -/
def _CreateMetaSsd (env : PartitionEnv) (pm : PartitionManager) (devs : List ArrayDevice)
    (intf : List IntfCall) (arrayIndex : Nat) :
    Option (Int × PartitionManager × List IntfCall) :=
  let partType := PartitionType.META_SSD
  let devs := if 0 ≠ devs.length % 2 then devs.dropLast else devs
  match _GetBaseline devs with
  | none => some (env.ARRAY_PARTITION_CREATION_ERROR, pm, intf)
  | some baseline => do
    let size ← baseline.ublockSize
    let ssdTotalSegments ← udiv (toUInt64 size) (toUInt64 env.config.SSD_SEGMENT_SIZE_BYTE)
    let totalSegments ←
      DIV_ROUND_UP (mul64 ssdTotalSegments (ArrayConfig.META_SSD_SIZE_RATIO env.config)) 100
    let physicalSize : PartitionPhysicalSize :=
      { startLba := toUInt64 env.config.META_SSD_START_LBA
        blksPerChunk := toUInt32 env.config.BLOCKS_PER_CHUNK
        chunksPerStripe := toUInt32 devs.length
        stripesPerSegment := toUInt32 env.config.STRIPES_PER_SEGMENT
        totalSegments := toUInt32 totalSegments }
    let partition := env.newStripePartition arrayIndex partType physicalSize devs
    some (0, pm.store partType partition,
      intf ++ [IntfCall.AddTranslator partType, IntfCall.AddRecover partType,
        IntfCall.AddRebuildTarget partType])

/-- Member function `PartitionManager::_CreateUserData`. -/
def _CreateUserData (env : PartitionEnv) (pm : PartitionManager) (devs : List ArrayDevice)
    (nvm : ArrayDevice) (intf : List IntfCall) (arrayIndex : Nat) :
    Option (Int × PartitionManager × List IntfCall) :=
  let partType := PartitionType.USER_DATA
  match pm.partitions_ PartitionType.META_SSD with
  | none => some (env.ARRAY_PARTITION_LOAD_ERROR, pm, intf)
  | some metaSsd => do
    let metaSsdSize ← metaSsd.GetPhysicalSize
    let sectors ← udiv (mul64 metaSsdSize.totalSegments env.config.SSD_SEGMENT_SIZE_BYTE)
      (toUInt64 env.config.SECTOR_SIZE_BYTE)
    let startLba := add64 metaSsdSize.startLba sectors
    let blksPerChunk := toUInt32 env.config.BLOCKS_PER_CHUNK
    let chunksPerStripe := toUInt32 devs.length
    let stripesPerSegment := toUInt32 env.config.STRIPES_PER_SEGMENT
    match _GetBaseline devs with
    | none => some (env.ARRAY_PARTITION_CREATION_ERROR, pm, intf)
    | some baseline => do
      let size ← baseline.ublockSize
      let ssdTotalSegments ← udiv (toUInt64 size) (toUInt64 env.config.SSD_SEGMENT_SIZE_BYTE)
      let mbrSegments ← udiv (toUInt64 env.config.MBR_SIZE_BYTE)
        (toUInt64 env.config.SSD_SEGMENT_SIZE_BYTE)
      let physicalSize : PartitionPhysicalSize :=
        { startLba := startLba
          blksPerChunk := blksPerChunk
          chunksPerStripe := chunksPerStripe
          stripesPerSegment := stripesPerSegment
          totalSegments :=
            toUInt32 (sub64 (sub64 ssdTotalSegments mbrSegments) metaSsdSize.totalSegments) }
      let nvmSize ← nvm.ublockSize
      let totalNvmBlks ← udiv (toUInt64 nvmSize) (toUInt64 env.config.BLOCK_SIZE_BYTE)
      let blksPerStripe := mul64 physicalSize.blksPerChunk physicalSize.chunksPerStripe
      let totalNvmStripes ← udiv totalNvmBlks blksPerStripe
      if env.AllocParityPools physicalSize totalNvmStripes = false then
        some (env.ARRAY_PARTITION_LOAD_ERROR, pm, intf)
      else
        let partition := env.newStripePartition arrayIndex partType physicalSize devs
        some (0, pm.store partType partition,
          intf ++ [IntfCall.AddTranslator partType, IntfCall.AddRecover partType,
            IntfCall.AddRebuildTarget partType])

/-- Member function `PartitionManager::_CreateMetaNvm`. -/
def _CreateMetaNvm (env : PartitionEnv) (pm : PartitionManager) (dev : ArrayDevice)
    (intf : List IntfCall) (arrayIndex : Nat) :
    Option (Int × PartitionManager × List IntfCall) :=
  let partType := PartitionType.META_NVM
  match pm.GetSizeInfo PartitionType.META_SSD with
  | none => some (env.ARRAY_PARTITION_CREATION_ERROR, pm, intf)
  | some metaSsdSize => do
    let startLba ← udiv (toUInt64 env.config.NVM_MBR_SIZE_BYTE)
      (toUInt64 env.config.SECTOR_SIZE_BYTE)
    let blksPerChunk := toUInt32 metaSsdSize.blksPerStripe
    let chunksPerStripe := toUInt32 env.config.NVM_DEVICE_COUNT
    let stripesPerSegment ← udiv (toUInt64 env.config.META_NVM_SIZE)
      (mul64 (mul64 env.config.BLOCK_SIZE_BYTE blksPerChunk) chunksPerStripe)
    let physicalSize : PartitionPhysicalSize :=
      { startLba := startLba
        blksPerChunk := blksPerChunk
        chunksPerStripe := chunksPerStripe
        stripesPerSegment := toUInt32 stripesPerSegment
        totalSegments := toUInt32 env.config.NVM_SEGMENT_SIZE }
    let partition := env.newNvmPartition arrayIndex partType physicalSize [dev]
    some (0, pm.store partType partition, intf ++ [IntfCall.AddTranslator partType])

/-- Member function `PartitionManager::_CreateWriteBuffer`; the test of the
result of `new` against `nullptr` cannot succeed and has no branch here. -/
def _CreateWriteBuffer (env : PartitionEnv) (pm : PartitionManager) (dev : ArrayDevice)
    (intf : List IntfCall) (arrayIndex : Nat) :
    Option (Int × PartitionManager × List IntfCall) :=
  let partType := PartitionType.WRITE_BUFFER
  match pm.GetSizeInfo PartitionType.USER_DATA with
  | none => some (env.ARRAY_PARTITION_CREATION_ERROR, pm, intf)
  | some userDataSize => do
    let metaNvm ← pm.partitions_ PartitionType.META_NVM
    match metaNvm.GetPhysicalSize with
    | none => some (env.ARRAY_PARTITION_CREATION_ERROR, pm, intf)
    | some metaNvmSize => do
      let metaNvmTotalBlks :=
        mul64 (mul64 metaNvmSize.blksPerChunk metaNvmSize.stripesPerSegment)
          metaNvmSize.totalSegments
      let startLba :=
        add64 metaNvmSize.startLba (mul64 metaNvmTotalBlks env.config.SECTORS_PER_BLOCK)
      let blksPerChunk := toUInt32 userDataSize.blksPerStripe
      let size ← dev.ublockSize
      let blks ← udiv (toUInt64 size) (toUInt64 env.config.BLOCK_SIZE_BYTE)
      let startBlk ← DIV_ROUND_UP startLba env.config.SECTORS_PER_BLOCK
      let stripesPerSegment ← udiv (sub64 blks startBlk) (toUInt32 userDataSize.blksPerStripe)
      let physicalSize : PartitionPhysicalSize :=
        { startLba := startLba
          blksPerChunk := blksPerChunk
          chunksPerStripe := toUInt32 env.config.NVM_DEVICE_COUNT
          stripesPerSegment := toUInt32 stripesPerSegment
          totalSegments := toUInt32 env.config.NVM_SEGMENT_SIZE }
      let partition := env.newNvmPartition arrayIndex partType physicalSize [dev]
      some (0, pm.store partType partition, intf ++ [IntfCall.AddTranslator partType])

/-- Member function `PartitionManager::CreateAll`: the code returned, the
partition manager and the interface calls afterwards; `buf.front()` is
evaluated where a step takes it as argument. -/
def CreateAll (env : PartitionEnv) (pm : PartitionManager) (buf data : List ArrayDevice)
    (intf : List IntfCall) (arrayIndex : Nat) :
    Option (Int × PartitionManager × List IntfCall) :=
  match pm._CreateMetaSsd env data intf arrayIndex with
  | none => none
  | some (ret, pm1, intf1) =>
    if ret ≠ 0 then some (ret, pm1.DeleteAll intf1)
    else
      match buf.head? with
      | none => none
      | some front =>
        match pm1._CreateUserData env data front intf1 arrayIndex with
        | none => none
        | some (ret, pm2, intf2) =>
          if ret ≠ 0 then some (ret, pm2.DeleteAll intf2)
          else
            match pm2._CreateMetaNvm env front intf2 arrayIndex with
            | none => none
            | some (ret, pm3, intf3) =>
              if ret ≠ 0 then some (ret, pm3.DeleteAll intf3)
              else
                match pm3._CreateWriteBuffer env front intf3 arrayIndex with
                | none => none
                | some (ret, pm4, intf4) =>
                  if ret ≠ 0 then some (ret, pm4.DeleteAll intf4)
                  else some (0, pm4, intf4)

end PartitionManager

/-- A scaled-down configuration for the examples: sectors of 512 bytes, blocks
of 4096 bytes, 4 blocks a chunk, 2 stripes a segment, so SSD segments of 32768
bytes a device. -/
def ArrayConfig.ex : ArrayConfig :=
  { NVM_MBR_SIZE_BYTE := 4096
    SECTOR_SIZE_BYTE := 512
    NVM_DEVICE_COUNT := 1
    META_NVM_SIZE := 65536
    BLOCK_SIZE_BYTE := 4096
    NVM_SEGMENT_SIZE := 1
    SECTORS_PER_BLOCK := 8
    META_SSD_START_LBA := 64
    BLOCKS_PER_CHUNK := 4
    STRIPES_PER_SEGMENT := 2
    SSD_SEGMENT_SIZE_BYTE := 32768
    META_SSD_SIZE_RATIO := 2
    MBR_SIZE_BYTE := 32768 }

/-- A partition object whose logical size is derived from the physical size
as `nvm_partition_test.cpp` expects of an `NvmPartition`. -/
def Partition.ex (_arrayIndex : Nat) (_type : PartitionType) (physicalSize : PartitionPhysicalSize)
    (_devs : List ArrayDevice) : Partition :=
  { GetPhysicalSize := some physicalSize
    GetLogicalSize := some
      { minWriteBlkCnt := 1
        blksPerChunk := physicalSize.blksPerChunk
        blksPerStripe := physicalSize.blksPerChunk * physicalSize.chunksPerStripe
        stripesPerSegment := physicalSize.stripesPerSegment
        totalStripes := physicalSize.stripesPerSegment * physicalSize.totalSegments
        totalSegments := physicalSize.totalSegments } }

/-- An environment for the examples: creation error 2501, load error 2502, and
the given result of `AllocParityPools`. -/
def PartitionEnv.ex (parityPools : Bool) : PartitionEnv :=
  { config := ArrayConfig.ex
    ARRAY_PARTITION_CREATION_ERROR := 2501
    ARRAY_PARTITION_LOAD_ERROR := 2502
    newStripePartition := Partition.ex
    newNvmPartition := Partition.ex
    AllocParityPools := fun _ _ => parityPools }

/-- A device in the given state with a block device of the given size. -/
def ArrayDevice.ex (state : ArrayDeviceState) (size : Nat) : ArrayDevice :=
  { state := state, ublockSize := some size }

/-- Four data devices of 40 SSD segments each, all in state `NORMAL`. -/
def ArrayDevice.exData : List ArrayDevice :=
  List.replicate 4 (ArrayDevice.ex ArrayDeviceState.NORMAL 1310720)

/-- Four data devices none of which is in state `NORMAL`. -/
def ArrayDevice.exFaulty : List ArrayDevice :=
  List.replicate 4 (ArrayDevice.ex ArrayDeviceState.FAULT 1310720)

/-- One buffer device of 1 MiB. -/
def ArrayDevice.exBuf : List ArrayDevice :=
  [ArrayDevice.ex ArrayDeviceState.NORMAL 1048576]

/-- Four data devices of one SSD segment each, all in state `NORMAL`: too
small for the MBR segment and the meta segment, so that the number of user
segments, `1 - 1 - 1`, wraps. -/
def ArrayDevice.exSmallData : List ArrayDevice :=
  List.replicate 4 (ArrayDevice.ex ArrayDeviceState.NORMAL 32768)

/-- One buffer device of a single block, smaller than the meta partition that
precedes the write buffer on it. -/
def ArrayDevice.exSmallBuf : List ArrayDevice :=
  [ArrayDevice.ex ArrayDeviceState.NORMAL 4096]

/-- An environment in which `AllocParityPools` succeeds for fewer than 1000
segments only. -/
def PartitionEnv.exSized : PartitionEnv :=
  { config := ArrayConfig.ex
    ARRAY_PARTITION_CREATION_ERROR := 2501
    ARRAY_PARTITION_LOAD_ERROR := 2502
    newStripePartition := Partition.ex
    newNvmPartition := Partition.ex
    AllocParityPools := fun physicalSize _ => decide (physicalSize.totalSegments < 1000) }

/-- The physical size stored in a slot of what a step or `CreateAll` left. -/
def PartitionManager.physicalSizeOf (type : PartitionType)
    (res : Option (Int × PartitionManager × List IntfCall)) : Option PartitionPhysicalSize :=
  match res with
  | none => none
  | some (_, pm, _) =>
    match pm.partitions_ type with
    | none => none
    | some partition => partition.GetPhysicalSize

/-- A rebuild context with the single target 3. -/
def RebuildCtx.ex3 : RebuildCtx := RebuildCtx.fresh.AddRebuildTargetSegment 3

/-- A geometry with `2^30` user-area segments. -/
def AllocatorAddressInfo.exHuge : AllocatorAddressInfo :=
  { stripesPerSegment := 8, numUserAreaSegments := 1073741824, isUT := true }

/-- A geometry with `2^29` user-area segments. -/
def AllocatorAddressInfo.exHalfHuge : AllocatorAddressInfo :=
  { stripesPerSegment := 8, numUserAreaSegments := 536870912, isUT := true }

/-- The slots of a partition manager that are not null, as booleans in the
order `META_NVM`, `WRITE_BUFFER`, `META_SSD`, `USER_DATA`. -/
def PartitionManager.occupied (pm : PartitionManager) : List Bool :=
  [(pm.partitions_ PartitionType.META_NVM).isSome,
   (pm.partitions_ PartitionType.WRITE_BUFFER).isSome,
   (pm.partitions_ PartitionType.META_SSD).isSome,
   (pm.partitions_ PartitionType.USER_DATA).isSome]

/-! ## Rebuild context: unfolding lemmas -/

theorem RebuildCtx.erase_of_mem (r : RebuildCtx) (seg : SegmentId)
    (h : seg ∈ r.targetSegmentList) :
    r.EraseRebuildTargetSegment seg =
      { r with
        targetSegmentList := r.targetSegmentList.erase seg
        targetSegmentCount := dec32 r.targetSegmentCount
        currentTarget := if seg = r.currentTarget then UNMAP_SEGMENT else r.currentTarget } := by
  unfold RebuildCtx.EraseRebuildTargetSegment
  rw [if_pos h]

theorem RebuildCtx.free_of_not_mem (r : RebuildCtx) (seg : SegmentId)
    (h : seg ∉ r.targetSegmentList) : r.FreeSegmentInRebuildTarget seg = (0, r) := by
  unfold RebuildCtx.FreeSegmentInRebuildTarget
  rw [if_pos h]
  exact ite_self _

theorem RebuildCtx.free_of_current (r : RebuildCtx) (seg : SegmentId)
    (hc : seg = r.currentTarget) : r.FreeSegmentInRebuildTarget seg = (0, r) := by
  unfold RebuildCtx.FreeSegmentInRebuildTarget
  rw [if_pos hc.symm, ite_self, ite_self]

theorem RebuildCtx.free_of_mem_of_ne (r : RebuildCtx) (seg : SegmentId)
    (h : seg ∈ r.targetSegmentList) (hc : seg ≠ r.currentTarget) :
    r.FreeSegmentInRebuildTarget seg =
      (1, { r with
            targetSegmentList := r.targetSegmentList.erase seg
            targetSegmentCount := dec32 r.targetSegmentCount }) := by
  unfold RebuildCtx.FreeSegmentInRebuildTarget
  rw [if_neg (Finset.ne_empty_of_mem h), if_neg (not_not.mpr h), if_neg (fun e => hc e.symm),
    RebuildCtx.erase_of_mem r seg h, if_neg hc]

theorem RebuildCtx.release_of_not_mem (r : RebuildCtx) (seg : SegmentId)
    (h : seg ∉ r.targetSegmentList) :
    r.ReleaseRebuildSegment seg = (0, { r with currentTarget := UINT32_MAX }) := by
  unfold RebuildCtx.ReleaseRebuildSegment
  rw [if_pos h]

theorem RebuildCtx.release_of_mem (r : RebuildCtx) (seg : SegmentId)
    (h : seg ∈ r.targetSegmentList) :
    r.ReleaseRebuildSegment seg =
      (1, { r with
            targetSegmentList := r.targetSegmentList.erase seg
            targetSegmentCount := dec32 r.targetSegmentCount
            currentTarget :=
              if seg = r.currentTarget then UNMAP_SEGMENT else r.currentTarget }) := by
  unfold RebuildCtx.ReleaseRebuildSegment
  rw [if_neg (not_not.mpr h), RebuildCtx.erase_of_mem r seg h]

theorem RebuildCtx.get_of_empty (r : RebuildCtx) (h : r.targetSegmentList = ∅) :
    r.GetRebuildTargetSegment = (UNMAP_SEGMENT, r) := by
  unfold RebuildCtx.GetRebuildTargetSegment
  rw [dif_pos h]

theorem RebuildCtx.get_of_nonempty (r : RebuildCtx) (h : r.targetSegmentList.Nonempty) :
    r.GetRebuildTargetSegment =
      (r.targetSegmentList.min' h, { r with currentTarget := r.targetSegmentList.min' h }) := by
  unfold RebuildCtx.GetRebuildTargetSegment
  rw [dif_neg (Finset.nonempty_iff_ne_empty.mp h)]

/-! ## Rebuild context: contracts of the target-set operations -/

/-- C1: `FreeSegmentInRebuildTarget(seg)`. When `seg` is not a target it returns
0 and leaves the context as it is; when `seg` is a target and is the current
target it returns 0 and leaves the context as it is, `seg` still a target;
otherwise it returns 1, the targets afterwards are exactly the former ones
without `seg`, and the current target is unchanged. -/
theorem FreeSegmentInRebuildTarget_contract (r : RebuildCtx) (seg : SegmentId) :
    (seg ∉ r.targetSegmentList → r.FreeSegmentInRebuildTarget seg = (0, r)) ∧
    (seg ∈ r.targetSegmentList → seg = r.currentTarget →
      r.FreeSegmentInRebuildTarget seg = (0, r) ∧
      seg ∈ (r.FreeSegmentInRebuildTarget seg).2.targetSegmentList) ∧
    (seg ∈ r.targetSegmentList → seg ≠ r.currentTarget →
      (r.FreeSegmentInRebuildTarget seg).1 = 1 ∧
      (r.FreeSegmentInRebuildTarget seg).2.targetSegmentList = r.targetSegmentList.erase seg ∧
      (∀ x, x ∈ (r.FreeSegmentInRebuildTarget seg).2.targetSegmentList ↔
        x ∈ r.targetSegmentList ∧ x ≠ seg) ∧
      (r.FreeSegmentInRebuildTarget seg).2.currentTarget = r.currentTarget) := by
  refine ⟨RebuildCtx.free_of_not_mem r seg, ?_, ?_⟩
  · intro h hc
    rw [RebuildCtx.free_of_current r seg hc]
    exact ⟨rfl, h⟩
  · intro h hc
    rw [RebuildCtx.free_of_mem_of_ne r seg h hc]
    simp only [Finset.mem_erase, true_and]
    exact ⟨fun x => and_comm, trivial⟩

/-- The three cases of C1 on the targets `{5, 7}` with current target 5:
freeing 9 (no target), 5 (the current target) and 7 (another target). -/
theorem FreeSegmentInRebuildTarget_contract_witness :
    RebuildCtx.ex57picked.FreeSegmentInRebuildTarget 9 = (0, RebuildCtx.ex57picked) ∧
    (RebuildCtx.ex57picked.FreeSegmentInRebuildTarget 5 = (0, RebuildCtx.ex57picked) ∧
      5 ∈ (RebuildCtx.ex57picked.FreeSegmentInRebuildTarget 5).2.targetSegmentList) ∧
    ((RebuildCtx.ex57picked.FreeSegmentInRebuildTarget 7).1 = 1 ∧
      (RebuildCtx.ex57picked.FreeSegmentInRebuildTarget 7).2.targetSegmentList =
        RebuildCtx.ex57picked.targetSegmentList.erase 7 ∧
      (∀ x, x ∈ (RebuildCtx.ex57picked.FreeSegmentInRebuildTarget 7).2.targetSegmentList ↔
        x ∈ RebuildCtx.ex57picked.targetSegmentList ∧ x ≠ 7) ∧
      (RebuildCtx.ex57picked.FreeSegmentInRebuildTarget 7).2.currentTarget =
        RebuildCtx.ex57picked.currentTarget) :=
  ⟨(FreeSegmentInRebuildTarget_contract RebuildCtx.ex57picked 9).1 (by decide),
   (FreeSegmentInRebuildTarget_contract RebuildCtx.ex57picked 5).2.1 (by decide) (by decide),
   (FreeSegmentInRebuildTarget_contract RebuildCtx.ex57picked 7).2.2 (by decide) (by decide)⟩

/-- C2: `ReleaseRebuildSegment(seg)`. When `seg` is a target it returns 1 and
the targets afterwards are exactly the former ones without `seg`; when it is
not, it returns 0, the targets are unchanged and the current target is reset
to the sentinel `UINT32_MAX` (which is `UNMAP_SEGMENT`). -/
theorem ReleaseRebuildSegment_contract (r : RebuildCtx) (seg : SegmentId) :
    (seg ∈ r.targetSegmentList →
      (r.ReleaseRebuildSegment seg).1 = 1 ∧
      (r.ReleaseRebuildSegment seg).2.targetSegmentList = r.targetSegmentList.erase seg ∧
      (∀ x, x ∈ (r.ReleaseRebuildSegment seg).2.targetSegmentList ↔
        x ∈ r.targetSegmentList ∧ x ≠ seg)) ∧
    (seg ∉ r.targetSegmentList →
      (r.ReleaseRebuildSegment seg).1 = 0 ∧
      (r.ReleaseRebuildSegment seg).2.targetSegmentList = r.targetSegmentList ∧
      (r.ReleaseRebuildSegment seg).2.currentTarget = UINT32_MAX ∧
      (r.ReleaseRebuildSegment seg).2.currentTarget = UNMAP_SEGMENT) := by
  refine ⟨?_, ?_⟩
  · intro h
    rw [RebuildCtx.release_of_mem r seg h]
    simp only [Finset.mem_erase, true_and]
    intro x
    exact and_comm
  · intro h
    rw [RebuildCtx.release_of_not_mem r seg h]
    simp only [UNMAP_SEGMENT, and_self]

/-- Both cases of C2 on the targets `{5, 7}`: releasing 5 and releasing 9. -/
theorem ReleaseRebuildSegment_contract_witness :
    ((RebuildCtx.ex57picked.ReleaseRebuildSegment 5).1 = 1 ∧
      (RebuildCtx.ex57picked.ReleaseRebuildSegment 5).2.targetSegmentList =
        RebuildCtx.ex57picked.targetSegmentList.erase 5 ∧
      (∀ x, x ∈ (RebuildCtx.ex57picked.ReleaseRebuildSegment 5).2.targetSegmentList ↔
        x ∈ RebuildCtx.ex57picked.targetSegmentList ∧ x ≠ 5)) ∧
    ((RebuildCtx.ex57picked.ReleaseRebuildSegment 9).1 = 0 ∧
      (RebuildCtx.ex57picked.ReleaseRebuildSegment 9).2.targetSegmentList =
        RebuildCtx.ex57picked.targetSegmentList ∧
      (RebuildCtx.ex57picked.ReleaseRebuildSegment 9).2.currentTarget = UINT32_MAX ∧
      (RebuildCtx.ex57picked.ReleaseRebuildSegment 9).2.currentTarget = UNMAP_SEGMENT) :=
  ⟨(ReleaseRebuildSegment_contract RebuildCtx.ex57picked 5).1 (by decide),
   (ReleaseRebuildSegment_contract RebuildCtx.ex57picked 9).2 (by decide)⟩

/-- C3: on a non-empty target set `GetRebuildTargetSegment` returns the smallest
target, records it as the current target and changes nothing else, the target
set in particular. -/
theorem GetRebuildTargetSegment_nonempty (r : RebuildCtx)
    (h : r.targetSegmentList.Nonempty) :
    r.GetRebuildTargetSegment.1 ∈ r.targetSegmentList ∧
    (∀ x ∈ r.targetSegmentList, r.GetRebuildTargetSegment.1 ≤ x) ∧
    r.GetRebuildTargetSegment.2.currentTarget = r.GetRebuildTargetSegment.1 ∧
    r.GetRebuildTargetSegment.2.targetSegmentList = r.targetSegmentList ∧
    r.GetRebuildTargetSegment.2 = { r with currentTarget := r.GetRebuildTargetSegment.1 } := by
  rw [RebuildCtx.get_of_nonempty r h]
  refine ⟨Finset.min'_mem _ h, ?_, ?_, ?_, ?_⟩
  · intro x hx
    exact Finset.min'_le _ x hx
  · simp only
  · simp only
  · simp only

/-- C3 on the targets `{5, 7}`. -/
theorem GetRebuildTargetSegment_nonempty_witness :
    RebuildCtx.ex57.targetSegmentList.Nonempty ∧
    RebuildCtx.ex57.GetRebuildTargetSegment.1 = 5 ∧
    RebuildCtx.ex57.GetRebuildTargetSegment.1 ∈ RebuildCtx.ex57.targetSegmentList ∧
    (∀ x ∈ RebuildCtx.ex57.targetSegmentList, RebuildCtx.ex57.GetRebuildTargetSegment.1 ≤ x) ∧
    RebuildCtx.ex57.GetRebuildTargetSegment.2.currentTarget = 5 :=
  have hne : RebuildCtx.ex57.targetSegmentList.Nonempty := by decide
  have h := GetRebuildTargetSegment_nonempty RebuildCtx.ex57 hne
  ⟨hne, by decide, h.1, h.2.1, by decide⟩

/-- C4 as stated fails: on the empty target set of `exCleared` (add 5, pick
it, clear the list) `GetRebuildTargetSegment` returns `UNMAP_SEGMENT` but the
current target is still 5 afterwards, not the sentinel. -/
theorem GetRebuildTargetSegment_empty_keeps_target :
    RebuildCtx.exCleared.targetSegmentList = ∅ ∧
    RebuildCtx.exCleared.currentTarget = 5 ∧
    RebuildCtx.exCleared.GetRebuildTargetSegment.1 = UNMAP_SEGMENT ∧
    RebuildCtx.exCleared.GetRebuildTargetSegment.2.currentTarget = 5 ∧
    RebuildCtx.exCleared.GetRebuildTargetSegment.2.currentTarget ≠ UNMAP_SEGMENT ∧
    RebuildCtx.exCleared.GetRebuildTargetSegment.2.currentTarget ≠ UINT32_MAX := by
  decide

/-- C4, amended: on an empty target set `GetRebuildTargetSegment` returns
`UNMAP_SEGMENT` and leaves the whole context as it is; the current target keeps
its value, so it is the sentinel afterwards when it was the sentinel before. -/
theorem GetRebuildTargetSegment_empty (r : RebuildCtx) (h : r.targetSegmentList = ∅) :
    r.GetRebuildTargetSegment = (UNMAP_SEGMENT, r) ∧
    r.GetRebuildTargetSegment.2.currentTarget = r.currentTarget ∧
    (r.currentTarget = UNMAP_SEGMENT →
      r.GetRebuildTargetSegment.2.currentTarget = UNMAP_SEGMENT) := by
  rw [RebuildCtx.get_of_empty r h]
  exact ⟨rfl, rfl, fun hc => hc⟩

/-- The amended C4 on a freshly constructed rebuild context. -/
theorem GetRebuildTargetSegment_empty_witness :
    RebuildCtx.fresh.GetRebuildTargetSegment = (UNMAP_SEGMENT, RebuildCtx.fresh) ∧
    RebuildCtx.fresh.GetRebuildTargetSegment.2.currentTarget = UNMAP_SEGMENT :=
  have h := GetRebuildTargetSegment_empty RebuildCtx.fresh (by decide)
  ⟨h.1, h.2.2 (by decide)⟩

/-! ## Rebuild against GC -/

/-- While `c` is the current target and a target, freeing any segment keeps it
so, and removes the freed segment when it is another target. -/
theorem RebuildCtx.free_keeps_current (r : RebuildCtx) (c s : SegmentId)
    (hc : r.currentTarget = c) (hm : c ∈ r.targetSegmentList) :
    (r.FreeSegmentInRebuildTarget s).2.currentTarget = c ∧
    c ∈ (r.FreeSegmentInRebuildTarget s).2.targetSegmentList ∧
    (r.FreeSegmentInRebuildTarget s).2.targetSegmentList =
      r.targetSegmentList.filter (fun x => x = c ∨ x ≠ s) := by
  by_cases hs : s ∈ r.targetSegmentList
  · by_cases hsc : s = r.currentTarget
    · rw [RebuildCtx.free_of_current r s hsc]
      refine ⟨hc, hm, ?_⟩
      ext x
      simp only [Finset.mem_filter]
      constructor
      · intro hx
        refine ⟨hx, ?_⟩
        by_cases hxc : x = c
        · exact Or.inl hxc
        · right
          intro hxs
          exact hxc (by rw [hxs, hsc, hc])
      · exact fun hx => hx.1
    · rw [RebuildCtx.free_of_mem_of_ne r s hs hsc]
      have hcs : c ≠ s := fun e => hsc (by rw [← e, hc])
      refine ⟨hc, Finset.mem_erase.mpr ⟨hcs, hm⟩, ?_⟩
      ext x
      simp only [Finset.mem_filter, Finset.mem_erase]
      constructor
      · exact fun hx => ⟨hx.2, Or.inr hx.1⟩
      · rintro ⟨hx, hxc | hxs⟩
        · exact ⟨by rw [hxc]; exact hcs, hx⟩
        · exact ⟨hxs, hx⟩
  · rw [RebuildCtx.free_of_not_mem r s hs]
    refine ⟨hc, hm, ?_⟩
    ext x
    simp only [Finset.mem_filter]
    constructor
    · intro hx
      exact ⟨hx, Or.inr (fun e => hs (by rw [← e]; exact hx))⟩
    · exact fun hx => hx.1

/-- After any run of frees the current target `c` is still current and still a
target; the targets left are the former ones that are `c` or were not freed. -/
theorem RebuildCtx.freeAll_keeps_current (frees : List SegmentId) :
    ∀ (r : RebuildCtx) (c : SegmentId), r.currentTarget = c → c ∈ r.targetSegmentList →
      (r.freeAll frees).currentTarget = c ∧
      c ∈ (r.freeAll frees).targetSegmentList ∧
      (r.freeAll frees).targetSegmentList =
        r.targetSegmentList.filter (fun x => x = c ∨ x ∉ frees) := by
  induction frees with
  | nil =>
    intro r c hc hm
    refine ⟨hc, hm, ?_⟩
    ext x
    simp [RebuildCtx.freeAll]
  | cons s rest ih =>
    intro r c hc hm
    obtain ⟨h1, h2, h3⟩ := RebuildCtx.free_keeps_current r c s hc hm
    obtain ⟨i1, i2, i3⟩ := ih (r.FreeSegmentInRebuildTarget s).2 c h1 h2
    refine ⟨i1, i2, ?_⟩
    show ((r.FreeSegmentInRebuildTarget s).2.freeAll rest).targetSegmentList = _
    rw [i3, h3]
    ext x
    simp only [Finset.mem_filter, List.mem_cons, not_or]
    tauto

/-- C5: rebuild against GC. On a non-empty target set let `c` be the segment
`GetRebuildTargetSegment` picks. Then freeing `c` returns 0 and `c` stays a
target; freeing any other target `s` returns 1 and removes exactly `s`; and
after any run of frees, `ReleaseRebuildSegment(c)` returns 1, removes `c` and
leaves the current target at the sentinel. -/
theorem rebuild_gc_race (r : RebuildCtx) (h : r.targetSegmentList.Nonempty) :
    (r.GetRebuildTargetSegment.2.FreeSegmentInRebuildTarget r.GetRebuildTargetSegment.1 =
        (0, r.GetRebuildTargetSegment.2) ∧
      r.GetRebuildTargetSegment.1 ∈ r.GetRebuildTargetSegment.2.targetSegmentList) ∧
    (∀ s ∈ r.targetSegmentList, s ≠ r.GetRebuildTargetSegment.1 →
      (r.GetRebuildTargetSegment.2.FreeSegmentInRebuildTarget s).1 = 1 ∧
      (r.GetRebuildTargetSegment.2.FreeSegmentInRebuildTarget s).2.targetSegmentList =
        r.targetSegmentList.erase s ∧
      (r.GetRebuildTargetSegment.2.FreeSegmentInRebuildTarget s).2.currentTarget =
        r.GetRebuildTargetSegment.1) ∧
    (∀ frees : List SegmentId,
      ((r.GetRebuildTargetSegment.2.freeAll frees).ReleaseRebuildSegment
          r.GetRebuildTargetSegment.1).1 = 1 ∧
      ((r.GetRebuildTargetSegment.2.freeAll frees).ReleaseRebuildSegment
          r.GetRebuildTargetSegment.1).2.targetSegmentList =
        (r.targetSegmentList.filter (fun x => x ∉ frees)).erase r.GetRebuildTargetSegment.1 ∧
      r.GetRebuildTargetSegment.1 ∉
        ((r.GetRebuildTargetSegment.2.freeAll frees).ReleaseRebuildSegment
          r.GetRebuildTargetSegment.1).2.targetSegmentList ∧
      ((r.GetRebuildTargetSegment.2.freeAll frees).ReleaseRebuildSegment
          r.GetRebuildTargetSegment.1).2.currentTarget = UNMAP_SEGMENT ∧
      ((r.GetRebuildTargetSegment.2.freeAll frees).ReleaseRebuildSegment
          r.GetRebuildTargetSegment.1).2.currentTarget = UINT32_MAX) := by
  rw [RebuildCtx.get_of_nonempty r h]
  have hm : r.targetSegmentList.min' h ∈ r.targetSegmentList := Finset.min'_mem _ h
  refine ⟨⟨?_, hm⟩, ?_, ?_⟩
  · exact RebuildCtx.free_of_current _ _ rfl
  · intro s hs hsc
    have e := RebuildCtx.free_of_mem_of_ne
      { r with currentTarget := r.targetSegmentList.min' h } s hs hsc
    simp only at e ⊢
    rw [e]
    simp only [and_self]
  · intro frees
    obtain ⟨i1, i2, i3⟩ := RebuildCtx.freeAll_keeps_current frees
      { r with currentTarget := r.targetSegmentList.min' h } (r.targetSegmentList.min' h) rfl hm
    simp only at i1 i2 i3 ⊢
    rw [RebuildCtx.release_of_mem _ _ i2]
    simp only [i1, i3, if_true, true_and]
    refine ⟨?_, ?_, rfl⟩
    · ext x
      simp only [Finset.mem_erase, Finset.mem_filter]
      tauto
    · exact Finset.not_mem_erase _ _

/-- C5 on the targets `{5, 7}`: 5 is picked; freeing 5 is refused, freeing 7
removes it, and releasing 5 after both frees empties the set. -/
theorem rebuild_gc_race_witness :
    RebuildCtx.ex57.targetSegmentList.Nonempty ∧
    RebuildCtx.ex57.GetRebuildTargetSegment.1 = 5 ∧
    (RebuildCtx.ex57.GetRebuildTargetSegment.2.FreeSegmentInRebuildTarget
        RebuildCtx.ex57.GetRebuildTargetSegment.1 = (0, RebuildCtx.ex57.GetRebuildTargetSegment.2) ∧
      RebuildCtx.ex57.GetRebuildTargetSegment.1 ∈
        RebuildCtx.ex57.GetRebuildTargetSegment.2.targetSegmentList) ∧
    (RebuildCtx.ex57.GetRebuildTargetSegment.2.FreeSegmentInRebuildTarget 7).1 = 1 ∧
    ((RebuildCtx.ex57.GetRebuildTargetSegment.2.freeAll [7, 5]).ReleaseRebuildSegment
        RebuildCtx.ex57.GetRebuildTargetSegment.1).1 = 1 ∧
    ((RebuildCtx.ex57.GetRebuildTargetSegment.2.freeAll [7, 5]).ReleaseRebuildSegment 5).2.targetSegmentList
      = ∅ ∧
    ((RebuildCtx.ex57.GetRebuildTargetSegment.2.freeAll [7, 5]).ReleaseRebuildSegment
        RebuildCtx.ex57.GetRebuildTargetSegment.1).2.currentTarget = UNMAP_SEGMENT :=
  have hne : RebuildCtx.ex57.targetSegmentList.Nonempty := by decide
  have h := rebuild_gc_race RebuildCtx.ex57 hne
  ⟨hne, by decide, h.1, (h.2.1 7 (by decide) (by decide)).1, (h.2.2 [7, 5]).1, by decide,
   (h.2.2 [7, 5]).2.2.2.1⟩

/-! ## Context manager -/

theorem notified_append (l₁ l₂ : List Event) : notified (l₁ ++ l₂) = notified l₁ ++ notified l₂ := by
  induction l₁ with
  | nil => rfl
  | cons e rest ih =>
    cases e <;> simp [notified, ih]

variable {σ : Type}

theorem ContextManager.GetCurrentGcMode_notified (ops : SegmentCtxOps σ) (cm : ContextManager σ) :
    notified (ContextManager.GetCurrentGcMode ops cm).2.events = notified cm.events := by
  unfold ContextManager.GetCurrentGcMode
  simp only
  split_ifs <;> simp [notified_append, notified]

theorem ContextManager.GetCurrentGcMode_fields (ops : SegmentCtxOps σ) (cm : ContextManager σ) :
    (ContextManager.GetCurrentGcMode ops cm).2.blockAllocStatus = cm.blockAllocStatus ∧
    (ContextManager.GetCurrentGcMode ops cm).2.rebuildCtx = cm.rebuildCtx ∧
    (ContextManager.GetCurrentGcMode ops cm).2.allocatorCtx = cm.allocatorCtx ∧
    (ContextManager.GetCurrentGcMode ops cm).2.gcCtx = cm.gcCtx ∧
    (ContextManager.GetCurrentGcMode ops cm).2.curGcMode =
      (ContextManager.GetCurrentGcMode ops cm).1 ∧
    (ContextManager.GetCurrentGcMode ops cm).1 =
      cm.gcCtx.GetCurrentGcMode (toInt32 (ops.GetNumOfFreeSegment cm.segmentCtx).1) := by
  unfold ContextManager.GetCurrentGcMode
  simp only [and_self]

theorem ContextManager.notify_notified (ops : SegmentCtxOps σ) (cm : ContextManager σ)
    (segId : SegmentId) :
    notified (ContextManager._NotifySegmentFreed ops cm segId).events =
      notified cm.events ++ [segId] := by
  unfold ContextManager._NotifySegmentFreed
  simp only
  split_ifs <;>
    simp [ContextManager.GetCurrentGcMode_notified, notified_append, notified]

/-- C6: the freed-segment notification. `DecreaseValidBlockCount(seg, n)` enters
`_NotifySegmentFreed` once, for `seg`, when the segment context reports the
segment freed, and not at all otherwise; `UpdateOccupiedStripeCount(lsid)` does
the same for the segment `lsid / stripesPerSegment`, the segment whose stripes
include `lsid`; `IncreaseValidBlockCount` makes no call at all. -/
theorem notify_exactly_once (ops : SegmentCtxOps σ) (cm : ContextManager σ)
    (segId : SegmentId) (count : Nat) (lsid : StripeId)
    (hsps : 0 < cm.addrInfo.stripesPerSegment) :
    notified (ContextManager.DecreaseValidBlockCount ops cm segId count).events =
      notified cm.events ++
        (if (ops.DecreaseValidBlockCount cm.segmentCtx segId count).1 = true then [segId]
         else []) ∧
    notified (ContextManager.UpdateOccupiedStripeCount ops cm lsid).events =
      notified cm.events ++
        (if (ops.IncreaseOccupiedStripeCount cm.segmentCtx
              (lsid / cm.addrInfo.stripesPerSegment)).1 = true
         then [lsid / cm.addrInfo.stripesPerSegment] else []) ∧
    (lsid / cm.addrInfo.stripesPerSegment) * cm.addrInfo.stripesPerSegment ≤ lsid ∧
    lsid < (lsid / cm.addrInfo.stripesPerSegment + 1) * cm.addrInfo.stripesPerSegment ∧
    (ContextManager.IncreaseValidBlockCount ops cm segId count).events = cm.events := by
  refine ⟨?_, ?_, Nat.div_mul_le_self _ _, ?_, rfl⟩
  · unfold ContextManager.DecreaseValidBlockCount
    simp only
    split_ifs with h
    · rw [ContextManager.notify_notified]
    · simp only [List.append_nil]
  · unfold ContextManager.UpdateOccupiedStripeCount
    simp only
    split_ifs with h
    · rw [ContextManager.notify_notified]
    · simp only [List.append_nil]
  · exact Nat.lt_mul_of_div_lt (Nat.lt_succ_self _) hsps

theorem ContextManager.notify_unfold (ops : SegmentCtxOps σ) (cm : ContextManager σ)
    (segId : SegmentId) :
    ∃ cm0 : ContextManager σ,
      cm0.blockAllocStatus = cm.blockAllocStatus ∧ cm0.gcCtx = cm.gcCtx ∧
      cm0.segmentCtx = (ops.GetNumOfFreeSegmentWoLock cm.segmentCtx).2 ∧
      cm0.rebuildCtx = (cm.rebuildCtx.FreeSegmentInRebuildTarget segId).2 ∧
      cm0.events = cm.events ++ [Event.NotifySegmentFreed segId] ++
        (if (cm.rebuildCtx.FreeSegmentInRebuildTarget segId).1 = 1
         then [Event.FlushRebuildContext] else []) ∧
      ContextManager._NotifySegmentFreed ops cm segId =
        if (ContextManager.GetCurrentGcMode ops cm0).1 ≠ GcMode.MODE_URGENT_GC then
          { (ContextManager.GetCurrentGcMode ops cm0).2 with
            blockAllocStatus :=
              (ContextManager.GetCurrentGcMode ops cm0).2.blockAllocStatus.PermitUserBlockAllocation }
        else (ContextManager.GetCurrentGcMode ops cm0).2 := by
  refine ⟨{ cm with
            segmentCtx := (ops.GetNumOfFreeSegmentWoLock cm.segmentCtx).2
            rebuildCtx := (cm.rebuildCtx.FreeSegmentInRebuildTarget segId).2
            events := cm.events ++ [Event.NotifySegmentFreed segId] ++
              (if (cm.rebuildCtx.FreeSegmentInRebuildTarget segId).1 = 1
               then [Event.FlushRebuildContext] else []) }, rfl, rfl, rfl, rfl, rfl, ?_⟩
  unfold ContextManager._NotifySegmentFreed
  simp only
  by_cases h : (cm.rebuildCtx.FreeSegmentInRebuildTarget segId).1 = 1
  · simp only [h, if_true]
  · simp only [h, if_false, List.append_nil]

/-- C7: `_NotifySegmentFreed` and the admission flag. The mode it recomputes is
the one of the thresholds at the free count the segment context reports; when
that mode is not `MODE_URGENT_GC` user block allocation is permitted
afterwards, and when it is `MODE_URGENT_GC` the flag is as it was. -/
theorem notify_permits_unless_urgent (ops : SegmentCtxOps σ) (cm : ContextManager σ)
    (segId : SegmentId) :
    (ContextManager._NotifySegmentFreed ops cm segId).curGcMode =
      cm.gcCtx.GetCurrentGcMode
        (toInt32 (ops.GetNumOfFreeSegment (ops.GetNumOfFreeSegmentWoLock cm.segmentCtx).2).1) ∧
    ((ContextManager._NotifySegmentFreed ops cm segId).curGcMode ≠ GcMode.MODE_URGENT_GC →
      (ContextManager._NotifySegmentFreed ops cm segId).blockAllocStatus.IsPermitted = true) ∧
    ((ContextManager._NotifySegmentFreed ops cm segId).curGcMode = GcMode.MODE_URGENT_GC →
      (ContextManager._NotifySegmentFreed ops cm segId).blockAllocStatus =
        cm.blockAllocStatus) := by
  obtain ⟨cm0, hb, hg, hs, _, _, he⟩ := ContextManager.notify_unfold ops cm segId
  obtain ⟨f1, _, _, f4, f5, f6⟩ := ContextManager.GetCurrentGcMode_fields ops cm0
  rw [he]
  by_cases hm : (ContextManager.GetCurrentGcMode ops cm0).1 = GcMode.MODE_URGENT_GC
  · rw [if_neg (not_not.mpr hm)]
    refine ⟨?_, ?_, ?_⟩
    · rw [f5, f6, hg, hs]
    · intro hne
      exact absurd (f5.trans hm) hne
    · intro _
      rw [f1, hb]
  · rw [if_pos hm]
    refine ⟨?_, ?_, ?_⟩
    · show (ContextManager.GetCurrentGcMode ops cm0).2.curGcMode = _
      rw [f5, f6, hg, hs]
    · intro _
      rfl
    · intro hu
      exact absurd (f5.symm.trans hu) hm

/-- C6 on a scripted segment context, 8 stripes a segment: a decrease on
segment 7 reported as freeing notifies once for 7, stripe 60 reported as
freeing its segment notifies once for segment 7, and neither notifies when
the segment context reports nothing freed. -/
theorem notify_exactly_once_witness :
    notified (ContextManager.DecreaseValidBlockCount scriptedOps
      (ContextManager.scripted
        { ScriptedSegmentCtx.empty with decreaseValidBlockCount := [true] } false) 7 32).events
      = [7] ∧
    notified (ContextManager.UpdateOccupiedStripeCount scriptedOps
      (ContextManager.scripted
        { ScriptedSegmentCtx.empty with increaseOccupiedStripeCount := [true] } false) 60).events
      = [7] ∧
    notified (ContextManager.DecreaseValidBlockCount scriptedOps
      (ContextManager.scripted ScriptedSegmentCtx.empty false) 7 32).events = [] ∧
    notified (ContextManager.UpdateOccupiedStripeCount scriptedOps
      (ContextManager.scripted ScriptedSegmentCtx.empty false) 60).events = [] :=
  ⟨(notify_exactly_once scriptedOps
      (ContextManager.scripted
        { ScriptedSegmentCtx.empty with decreaseValidBlockCount := [true] } false)
      7 32 60 (by decide)).1,
   (notify_exactly_once scriptedOps
      (ContextManager.scripted
        { ScriptedSegmentCtx.empty with increaseOccupiedStripeCount := [true] } false)
      7 32 60 (by decide)).2.1,
   (notify_exactly_once scriptedOps
      (ContextManager.scripted ScriptedSegmentCtx.empty false) 7 32 60 (by decide)).1,
   (notify_exactly_once scriptedOps
      (ContextManager.scripted ScriptedSegmentCtx.empty false) 7 32 60 (by decide)).2.1⟩

/-- C7 with thresholds 3 and 1 and the flag prohibited beforehand: with 2
segments free the mode is `MODE_NORMAL_GC` and allocation is permitted
afterwards; with 1 free the mode is `MODE_URGENT_GC` and the flag stays
prohibited. -/
theorem notify_permits_unless_urgent_witness :
    ((ContextManager._NotifySegmentFreed scriptedOps
        (ContextManager.scripted
          { ScriptedSegmentCtx.empty with numOfFreeSegment := [2] } false) 7).curGcMode
        = GcMode.MODE_NORMAL_GC ∧
      (ContextManager._NotifySegmentFreed scriptedOps
        (ContextManager.scripted
          { ScriptedSegmentCtx.empty with numOfFreeSegment := [2] } false)
        7).blockAllocStatus.IsPermitted = true) ∧
    ((ContextManager._NotifySegmentFreed scriptedOps
        (ContextManager.scripted
          { ScriptedSegmentCtx.empty with numOfFreeSegment := [1] } false) 7).curGcMode
        = GcMode.MODE_URGENT_GC ∧
      (ContextManager._NotifySegmentFreed scriptedOps
        (ContextManager.scripted
          { ScriptedSegmentCtx.empty with numOfFreeSegment := [1] } false)
        7).blockAllocStatus.IsPermitted = false) :=
  ⟨⟨by decide,
    (notify_permits_unless_urgent scriptedOps
      (ContextManager.scripted
        { ScriptedSegmentCtx.empty with numOfFreeSegment := [2] } false) 7).2.1 (by decide)⟩,
   ⟨by decide,
    by
      rw [(notify_permits_unless_urgent scriptedOps
        (ContextManager.scripted
          { ScriptedSegmentCtx.empty with numOfFreeSegment := [1] } false) 7).2.2 (by decide)]
      decide⟩⟩

/-- C8 as stated fails. Thresholds normal 3 and urgent 1, 4 segments, user
allocation permitted at the start: after three allocations the segment context
reports 1 free segment, `GetCurrentGcMode` goes from `MODE_NORMAL_GC` to
`MODE_URGENT_GC`, and user block allocation is still permitted. -/
theorem urgent_gc_leaves_allocation_permitted :
    ContextManager.exScenario.blockAllocStatus.IsPermitted = true ∧
    ContextManager.exScenarioBeforeUrgent.curGcMode = GcMode.MODE_NORMAL_GC ∧
    published TelemetryId.TEL30000_ALCT_FREE_SEG_CNT
      ContextManager.exScenarioBeforeUrgent.events = [0, 1, 2] ∧
    (ContextManager.GetCurrentGcMode scriptedOps ContextManager.exScenarioBeforeUrgent).1
      = GcMode.MODE_URGENT_GC ∧
    (ContextManager.GetCurrentGcMode scriptedOps ContextManager.exScenarioBeforeUrgent).2.curGcMode
      = GcMode.MODE_URGENT_GC ∧
    (ContextManager.GetCurrentGcMode scriptedOps
      ContextManager.exScenarioBeforeUrgent).2.blockAllocStatus.IsPermitted = true := by
  decide

/-- C8, amended: the context manager never prohibits. `AllocateFreeSegment` and
`GetCurrentGcMode` leave the admission flag as it was, whatever mode results;
so after the mode becomes `MODE_URGENT_GC` user allocation is prohibited only
when it already was before these calls. -/
theorem allocate_and_gc_mode_keep_admission_flag (ops : SegmentCtxOps σ)
    (cm : ContextManager σ) :
    (ContextManager.AllocateFreeSegment ops cm).2.blockAllocStatus = cm.blockAllocStatus ∧
    (ContextManager.GetCurrentGcMode ops cm).2.blockAllocStatus = cm.blockAllocStatus ∧
    (ContextManager.GetCurrentGcMode ops
        (ContextManager.AllocateFreeSegment ops cm).2).2.blockAllocStatus.IsPermitted
      = cm.blockAllocStatus.IsPermitted := by
  have h1 : (ContextManager.AllocateFreeSegment ops cm).2.blockAllocStatus
      = cm.blockAllocStatus := by
    unfold ContextManager.AllocateFreeSegment
    simp only
    split_ifs <;> rfl
  refine ⟨h1, (ContextManager.GetCurrentGcMode_fields ops cm).1, ?_⟩
  rw [(ContextManager.GetCurrentGcMode_fields ops _).1, h1]

/-- C9: `SetNextSsdLsid`. When the segment context hands out no segment it
returns `-EID(ALLOCATOR_NO_FREE_SEGMENT)` (negative, the identifier being
positive); the allocator context is untouched, nothing is published, and the
context manager differs from before only by the state the segment context's
own member functions left. Otherwise it returns 0 and the allocator context is
the old one after `SetNextSsdLsid` of exactly the segment handed out. -/
theorem SetNextSsdLsid_contract (eid : Int) (ops : SegmentCtxOps σ) (cm : ContextManager σ)
    (heid : 0 < eid) :
    ((ops.AllocateFreeSegment cm.segmentCtx).1 = UNMAP_SEGMENT →
      (ContextManager.AllocateFreeSegment ops cm).1 = UNMAP_SEGMENT ∧
      (ContextManager.SetNextSsdLsid eid ops cm).1 = -eid ∧
      (ContextManager.SetNextSsdLsid eid ops cm).1 < 0 ∧
      (ContextManager.SetNextSsdLsid eid ops cm).2.allocatorCtx = cm.allocatorCtx ∧
      (ContextManager.SetNextSsdLsid eid ops cm).2.events = cm.events ∧
      (ContextManager.SetNextSsdLsid eid ops cm).2 =
        { cm with segmentCtx :=
            (ops.GetNumOfFreeSegmentWoLock (ops.AllocateFreeSegment cm.segmentCtx).2).2 }) ∧
    ((ops.AllocateFreeSegment cm.segmentCtx).1 ≠ UNMAP_SEGMENT →
      (ContextManager.AllocateFreeSegment ops cm).1 = (ops.AllocateFreeSegment cm.segmentCtx).1 ∧
      (ContextManager.SetNextSsdLsid eid ops cm).1 = 0 ∧
      (ContextManager.SetNextSsdLsid eid ops cm).2.allocatorCtx =
        cm.allocatorCtx.SetNextSsdLsid cm.addrInfo (ops.AllocateFreeSegment cm.segmentCtx).1) := by
  refine ⟨?_, ?_⟩
  · intro h
    have e : ContextManager.AllocateFreeSegment ops cm =
        (UNMAP_SEGMENT, { cm with segmentCtx :=
          (ops.GetNumOfFreeSegmentWoLock (ops.AllocateFreeSegment cm.segmentCtx).2).2 }) := by
      unfold ContextManager.AllocateFreeSegment
      simp only [h, ne_eq, not_true_eq_false, if_false]
    unfold ContextManager.SetNextSsdLsid
    rw [e]
    simp only [if_true, and_self, true_and, and_true]
    omega
  · intro h
    have e : ContextManager.AllocateFreeSegment ops cm =
        ((ops.AllocateFreeSegment cm.segmentCtx).1,
          { cm with
            segmentCtx :=
              (ops.GetNumOfFreeSegmentWoLock (ops.AllocateFreeSegment cm.segmentCtx).2).2
            events := cm.events ++
              [Event.PublishData TelemetryId.TEL30000_ALCT_FREE_SEG_CNT
                (ops.AllocateFreeSegment cm.segmentCtx).1] }) := by
      unfold ContextManager.AllocateFreeSegment
      simp only [h, ne_eq, not_false_eq_true, if_true]
    unfold ContextManager.SetNextSsdLsid
    rw [e]
    simp only [h, if_false, and_self]

/-- C9 on a scripted segment context, 8 stripes a segment, with 5000 for the
event identifier: when the segment context returns the sentinel the result is
-5000 and cursor and telemetry are as before; when it returns segment 2 the
result is 0 and the cursor is at stripe 16. -/
theorem SetNextSsdLsid_contract_witness :
    ((ContextManager.SetNextSsdLsid 5000 scriptedOps
        (ContextManager.scripted
          { ScriptedSegmentCtx.empty with allocateFreeSegment := [UNMAP_SEGMENT] } true)).1
        = -5000 ∧
      (ContextManager.SetNextSsdLsid 5000 scriptedOps
        (ContextManager.scripted
          { ScriptedSegmentCtx.empty with allocateFreeSegment := [UNMAP_SEGMENT] } true)).2.events
        = []) ∧
    ((ContextManager.SetNextSsdLsid 5000 scriptedOps
        (ContextManager.scripted
          { ScriptedSegmentCtx.empty with allocateFreeSegment := [2] } true)).1 = 0 ∧
      (ContextManager.SetNextSsdLsid 5000 scriptedOps
        (ContextManager.scripted
          { ScriptedSegmentCtx.empty with allocateFreeSegment := [2] } true)).2.allocatorCtx
        = { nextSsdLsid := 16 }) :=
  have h1 := (SetNextSsdLsid_contract 5000 scriptedOps
    (ContextManager.scripted
      { ScriptedSegmentCtx.empty with allocateFreeSegment := [UNMAP_SEGMENT] } true)
    (by decide)).1 (by decide)
  have h2 := (SetNextSsdLsid_contract 5000 scriptedOps
    (ContextManager.scripted
      { ScriptedSegmentCtx.empty with allocateFreeSegment := [2] } true)
    (by decide)).2 (by decide)
  ⟨⟨h1.2.1, h1.2.2.2.2.1⟩, ⟨h2.2.1, h2.2.2⟩⟩

/-- C10: `StopRebuilding`. On a non-empty target set `RebuildCtx::StopRebuilding`
returns 1 and leaves the set empty, the count 0 and the current target at the
sentinel, and `ContextManager::StopRebuilding` returns 0 (after requesting one
flush of the rebuild context). On an empty set `RebuildCtx::StopRebuilding`
returns `-EID(ALLOCATOR_REBUILD_TARGET_SET_EMPTY)`, negative for a positive
identifier, `ContextManager::StopRebuilding` returns the same value, and the
rebuild context, indeed the whole context manager, is unchanged. -/
theorem StopRebuilding_contract (eid : Int) (cm : ContextManager σ) (heid : 0 < eid) :
    (cm.rebuildCtx.targetSegmentList.Nonempty →
      (cm.rebuildCtx.StopRebuilding eid).1 = 1 ∧
      (cm.rebuildCtx.StopRebuilding eid).2.targetSegmentList = ∅ ∧
      (cm.rebuildCtx.StopRebuilding eid).2.GetRebuildTargetSegmentCount = 0 ∧
      (cm.rebuildCtx.StopRebuilding eid).2.currentTarget = UINT32_MAX ∧
      (cm.rebuildCtx.StopRebuilding eid).2.currentTarget = UNMAP_SEGMENT ∧
      (ContextManager.StopRebuilding eid cm).1 = 0 ∧
      (ContextManager.StopRebuilding eid cm).2.rebuildCtx = (cm.rebuildCtx.StopRebuilding eid).2 ∧
      (ContextManager.StopRebuilding eid cm).2.events =
        cm.events ++ [Event.FlushRebuildContext]) ∧
    (cm.rebuildCtx.targetSegmentList = ∅ →
      (cm.rebuildCtx.StopRebuilding eid).1 = -eid ∧
      (cm.rebuildCtx.StopRebuilding eid).1 < 0 ∧
      (cm.rebuildCtx.StopRebuilding eid).2 = cm.rebuildCtx ∧
      (ContextManager.StopRebuilding eid cm).1 = (cm.rebuildCtx.StopRebuilding eid).1 ∧
      (ContextManager.StopRebuilding eid cm).2 = cm) := by
  refine ⟨?_, ?_⟩
  · intro h
    have e : cm.rebuildCtx.StopRebuilding eid =
        (1, { cm.rebuildCtx with
              targetSegmentList := ∅, currentTarget := UINT32_MAX, targetSegmentCount := 0 }) := by
      unfold RebuildCtx.StopRebuilding
      rw [if_neg (Finset.nonempty_iff_ne_empty.mp h)]
    unfold ContextManager.StopRebuilding
    rw [e]
    simp only [if_true, RebuildCtx.GetRebuildTargetSegmentCount, UNMAP_SEGMENT, and_self]
  · intro h
    have e : cm.rebuildCtx.StopRebuilding eid = (-eid, cm.rebuildCtx) := by
      unfold RebuildCtx.StopRebuilding
      rw [if_pos h]
    have hne : ¬ (-eid = 1) := by omega
    unfold ContextManager.StopRebuilding
    rw [e]
    simp only [hne, if_false, true_and, and_true]
    omega

/-- C10 with 5001 for the event identifier: on the targets `{5, 7}` with 5
picked, and on a context manager whose rebuild context is fresh. -/
theorem StopRebuilding_contract_witness :
    ((RebuildCtx.ex57picked.StopRebuilding 5001).1 = 1 ∧
      (RebuildCtx.ex57picked.StopRebuilding 5001).2.targetSegmentList = ∅ ∧
      (RebuildCtx.ex57picked.StopRebuilding 5001).2.GetRebuildTargetSegmentCount = 0 ∧
      (RebuildCtx.ex57picked.StopRebuilding 5001).2.currentTarget = UINT32_MAX ∧
      (ContextManager.StopRebuilding 5001
        (ContextManager.scripted ScriptedSegmentCtx.empty true)).1 = 0) ∧
    ((RebuildCtx.fresh.StopRebuilding 5001).1 = -5001 ∧
      (RebuildCtx.fresh.StopRebuilding 5001).2 = RebuildCtx.fresh ∧
      (ContextManager.StopRebuilding 5001
        (ContextManager.new { nextSsdLsid := 0 } ScriptedSegmentCtx.empty RebuildCtx.fresh
          GcCtx.ex31 { userBlockAllocationPermitted := true } AllocatorAddressInfo.ex 0)).1
        = -5001) :=
  have h1 := (StopRebuilding_contract 5001
    (ContextManager.scripted ScriptedSegmentCtx.empty true) (by decide)).1 (by decide)
  have h2 := (StopRebuilding_contract 5001
    (ContextManager.new { nextSsdLsid := 0 } ScriptedSegmentCtx.empty RebuildCtx.fresh
      GcCtx.ex31 { userBlockAllocationPermitted := true } AllocatorAddressInfo.ex 0)
    (by decide)).2 (by decide)
  ⟨⟨h1.1, h1.2.1, h1.2.2.1, h1.2.2.2.1, h1.2.2.2.2.2.1⟩, ⟨h2.1, h2.2.2.1, h2.2.2.2.1.trans h2.1⟩⟩

/-! ## Context manager: rebuild segments, thresholds, victims -/

theorem flushCount_append (l₁ l₂ : List Event) :
    flushCount (l₁ ++ l₂) = flushCount l₁ + flushCount l₂ := by
  induction l₁ with
  | nil => simp [flushCount]
  | cons e rest ih =>
    cases e <;> simp [flushCount, ih]
    omega

theorem toInt32_of_lt (n : Nat) (h : n < 2147483648) : toInt32 n = (n : Int) := by
  have h1 : n % 4294967296 = n := Nat.mod_eq_of_lt (by omega)
  unfold toInt32
  rw [h1, if_pos h]

/-- C11: `ContextManager::ReleaseRebuildSegment(seg)` returns 0 whether or not
`seg` is a rebuild target. When `seg` is a target it is removed and exactly one
flush of the rebuild context is requested; when it is not, nothing is requested
and the target set stays as it is. -/
theorem ReleaseRebuildSegment_success_and_flush (cm : ContextManager σ) (segId : SegmentId) :
    (ContextManager.ReleaseRebuildSegment cm segId).1 = 0 ∧
    (segId ∈ cm.rebuildCtx.targetSegmentList →
      (ContextManager.ReleaseRebuildSegment cm segId).2.events =
        cm.events ++ [Event.FlushRebuildContext] ∧
      flushCount (ContextManager.ReleaseRebuildSegment cm segId).2.events =
        flushCount cm.events + 1 ∧
      (ContextManager.ReleaseRebuildSegment cm segId).2.rebuildCtx.targetSegmentList =
        cm.rebuildCtx.targetSegmentList.erase segId) ∧
    (segId ∉ cm.rebuildCtx.targetSegmentList →
      (ContextManager.ReleaseRebuildSegment cm segId).2.events = cm.events ∧
      flushCount (ContextManager.ReleaseRebuildSegment cm segId).2.events =
        flushCount cm.events ∧
      (ContextManager.ReleaseRebuildSegment cm segId).2.rebuildCtx.targetSegmentList =
        cm.rebuildCtx.targetSegmentList) := by
  by_cases h : segId ∈ cm.rebuildCtx.targetSegmentList
  · have e := RebuildCtx.release_of_mem cm.rebuildCtx segId h
    unfold ContextManager.ReleaseRebuildSegment
    rw [e]
    simp only [if_true, h, not_true_eq_false, flushCount_append, flushCount, zero_add,
      forall_true_left, false_implies, and_self]
  · have e := RebuildCtx.release_of_not_mem cm.rebuildCtx segId h
    have h01 : ¬ ((0 : Int) = 1) := by omega
    unfold ContextManager.ReleaseRebuildSegment
    rw [e]
    simp only [h01, if_false, h, not_false_eq_true, forall_true_left, false_implies, and_self]

/-- C11 on the targets `{5, 7}`: releasing 5 returns 0 and requests one flush,
releasing the unknown segment 9 returns 0 and requests none. -/
theorem ReleaseRebuildSegment_success_and_flush_witness :
    ((ContextManager.ReleaseRebuildSegment
        (ContextManager.scripted ScriptedSegmentCtx.empty true) 5).1 = 0 ∧
      flushCount (ContextManager.ReleaseRebuildSegment
        (ContextManager.scripted ScriptedSegmentCtx.empty true) 5).2.events = 1) ∧
    ((ContextManager.ReleaseRebuildSegment
        (ContextManager.scripted ScriptedSegmentCtx.empty true) 9).1 = 0 ∧
      flushCount (ContextManager.ReleaseRebuildSegment
        (ContextManager.scripted ScriptedSegmentCtx.empty true) 9).2.events = 0) :=
  have h := ReleaseRebuildSegment_success_and_flush
    (ContextManager.scripted ScriptedSegmentCtx.empty true)
  ⟨⟨(h 5).1, ((h 5).2.1 (by decide)).2.1⟩, ⟨(h 9).1, ((h 9).2.2 (by decide)).2.1⟩⟩

/-- C12 as stated fails in its last part: when the segment context's
`MakeRebuildTarget` returns -1, `ContextManager::MakeRebuildTarget` returns -1,
a negative value, and requests no flush. -/
theorem MakeRebuildTarget_passes_negative_result :
    (scriptedOps.MakeRebuildTarget
      { ScriptedSegmentCtx.empty with makeRebuildTarget := [-1] } RebuildCtx.ex57picked).1 = -1 ∧
    (ContextManager.MakeRebuildTarget scriptedOps
      (ContextManager.scripted
        { ScriptedSegmentCtx.empty with makeRebuildTarget := [-1] } true)).1 = -1 ∧
    (ContextManager.MakeRebuildTarget scriptedOps
      (ContextManager.scripted
        { ScriptedSegmentCtx.empty with makeRebuildTarget := [-1] } true)).1 < 0 ∧
    (ContextManager.MakeRebuildTarget scriptedOps
      (ContextManager.scripted
        { ScriptedSegmentCtx.empty with makeRebuildTarget := [-1] } true)).2.events = [] := by
  decide

/-- C12, amended: when the segment context's `MakeRebuildTarget` returns 1,
`ContextManager::MakeRebuildTarget` requests a flush and returns
`GetRebuildTargetSegmentCount()` of the rebuild context as the snapshot left
it, converted to `int`, which is that count and not negative for counts below
`2^31`; any other result of the segment context is returned as it is, so 0
gives 0 and a negative result stays negative, and no flush is requested. -/
theorem MakeRebuildTarget_result (ops : SegmentCtxOps σ) (cm : ContextManager σ) :
    ((ops.MakeRebuildTarget cm.segmentCtx cm.rebuildCtx).1 = 1 →
      (ContextManager.MakeRebuildTarget ops cm).2.rebuildCtx =
        (ops.MakeRebuildTarget cm.segmentCtx cm.rebuildCtx).2.2 ∧
      (ContextManager.MakeRebuildTarget ops cm).1 =
        toInt32 (ContextManager.MakeRebuildTarget ops cm).2.rebuildCtx.GetRebuildTargetSegmentCount ∧
      ((ContextManager.MakeRebuildTarget ops cm).2.rebuildCtx.GetRebuildTargetSegmentCount
          < 2147483648 →
        (ContextManager.MakeRebuildTarget ops cm).1 =
          ((ContextManager.MakeRebuildTarget ops cm).2.rebuildCtx.GetRebuildTargetSegmentCount
            : Int) ∧
        0 ≤ (ContextManager.MakeRebuildTarget ops cm).1) ∧
      (ContextManager.MakeRebuildTarget ops cm).2.events =
        cm.events ++ [Event.FlushRebuildContext]) ∧
    ((ops.MakeRebuildTarget cm.segmentCtx cm.rebuildCtx).1 ≠ 1 →
      (ContextManager.MakeRebuildTarget ops cm).1 =
        (ops.MakeRebuildTarget cm.segmentCtx cm.rebuildCtx).1 ∧
      (ContextManager.MakeRebuildTarget ops cm).2.events = cm.events) ∧
    ((ops.MakeRebuildTarget cm.segmentCtx cm.rebuildCtx).1 = 0 →
      (ContextManager.MakeRebuildTarget ops cm).1 = 0) := by
  have hne : ∀ h : (ops.MakeRebuildTarget cm.segmentCtx cm.rebuildCtx).1 ≠ 1,
      ContextManager.MakeRebuildTarget ops cm =
        ((ops.MakeRebuildTarget cm.segmentCtx cm.rebuildCtx).1,
         { cm with
           segmentCtx := (ops.MakeRebuildTarget cm.segmentCtx cm.rebuildCtx).2.1
           rebuildCtx := (ops.MakeRebuildTarget cm.segmentCtx cm.rebuildCtx).2.2 }) := by
    intro h
    unfold ContextManager.MakeRebuildTarget
    simp only [h, if_false]
  refine ⟨?_, ?_, ?_⟩
  · intro h
    have e : ContextManager.MakeRebuildTarget ops cm =
        (toInt32 (ops.MakeRebuildTarget cm.segmentCtx cm.rebuildCtx).2.2.GetRebuildTargetSegmentCount,
         { cm with
           segmentCtx := (ops.MakeRebuildTarget cm.segmentCtx cm.rebuildCtx).2.1
           rebuildCtx := (ops.MakeRebuildTarget cm.segmentCtx cm.rebuildCtx).2.2
           events := cm.events ++ [Event.FlushRebuildContext] }) := by
      unfold ContextManager.MakeRebuildTarget
      simp only [h, if_true]
    rw [e]
    refine ⟨rfl, rfl, ?_, rfl⟩
    intro hlt
    have e2 := toInt32_of_lt _ hlt
    simp only at e2 ⊢
    rw [e2]
    exact ⟨rfl, Int.ofNat_nonneg _⟩
  · intro h
    rw [hne h]
    exact ⟨rfl, rfl⟩
  · intro h
    have h1 : (ops.MakeRebuildTarget cm.segmentCtx cm.rebuildCtx).1 ≠ 1 := by
      rw [h]; omega
    rw [hne h1]
    exact h

/-- The amended C12 on scripted segment contexts over the targets `{5, 7}`:
result 1 gives the count 2 and a flush, result 0 gives 0. -/
theorem MakeRebuildTarget_result_witness :
    (ContextManager.MakeRebuildTarget scriptedOps
      (ContextManager.scripted
        { ScriptedSegmentCtx.empty with makeRebuildTarget := [1] } true)).1 = 2 ∧
    (ContextManager.MakeRebuildTarget scriptedOps
      (ContextManager.scripted
        { ScriptedSegmentCtx.empty with makeRebuildTarget := [1] } true)).2.events
      = [Event.FlushRebuildContext] ∧
    (ContextManager.MakeRebuildTarget scriptedOps
      (ContextManager.scripted
        { ScriptedSegmentCtx.empty with makeRebuildTarget := [0] } true)).1 = 0 :=
  have h1 := (MakeRebuildTarget_result scriptedOps
    (ContextManager.scripted
      { ScriptedSegmentCtx.empty with makeRebuildTarget := [1] } true)).1 (by decide)
  have h0 := (MakeRebuildTarget_result scriptedOps
    (ContextManager.scripted
      { ScriptedSegmentCtx.empty with makeRebuildTarget := [0] } true)).2.2 (by decide)
  ⟨(h1.2.2.1 (by decide)).1, h1.2.2.2, h0⟩

/-- C15: `GcCtx::GetCurrentGcMode(free_count)` with urgent threshold at most
the normal one. Every free count falls in one of three ranges: above normal
gives `MODE_NO_GC`, above urgent up to normal gives `MODE_NORMAL_GC`, up to
urgent gives `MODE_URGENT_GC`; more free segments never give a more urgent
mode; and `ContextManager::GetCurrentGcMode` returns this value at the free
count the segment context reports (converted to `int`, which changes nothing
below `2^31`). -/
theorem GetCurrentGcMode_step_function (g : GcCtx)
    (hle : g.urgentGcThreshold ≤ g.normalGcThreshold) :
    (∀ f : Int, g.normalGcThreshold < f → g.GetCurrentGcMode f = GcMode.MODE_NO_GC) ∧
    (∀ f : Int, g.urgentGcThreshold < f → f ≤ g.normalGcThreshold →
      g.GetCurrentGcMode f = GcMode.MODE_NORMAL_GC) ∧
    (∀ f : Int, f ≤ g.urgentGcThreshold → g.GetCurrentGcMode f = GcMode.MODE_URGENT_GC) ∧
    (∀ f : Int, g.normalGcThreshold < f ∨
      (g.urgentGcThreshold < f ∧ f ≤ g.normalGcThreshold) ∨ f ≤ g.urgentGcThreshold) ∧
    (∀ f₁ f₂ : Int, f₁ ≤ f₂ →
      (g.GetCurrentGcMode f₂).urgency ≤ (g.GetCurrentGcMode f₁).urgency) ∧
    (∀ (τ : Type) (ops : SegmentCtxOps τ) (cm : ContextManager τ), cm.gcCtx = g →
      (ContextManager.GetCurrentGcMode ops cm).1 =
        g.GetCurrentGcMode (toInt32 (ops.GetNumOfFreeSegment cm.segmentCtx).1) ∧
      ((ops.GetNumOfFreeSegment cm.segmentCtx).1 < 2147483648 →
        (ContextManager.GetCurrentGcMode ops cm).1 =
          g.GetCurrentGcMode ((ops.GetNumOfFreeSegment cm.segmentCtx).1 : Int))) := by
  refine ⟨?_, ?_, ?_, ?_, ?_, ?_⟩
  · intro f h
    unfold GcCtx.GetCurrentGcMode
    rw [if_pos h]
  · intro f h1 h2
    unfold GcCtx.GetCurrentGcMode
    rw [if_neg (by omega), if_pos h1]
  · intro f h
    unfold GcCtx.GetCurrentGcMode
    rw [if_neg (by omega), if_neg (by omega)]
  · intro f
    omega
  · intro f₁ f₂ h
    unfold GcCtx.GetCurrentGcMode
    split_ifs <;> simp only [GcMode.urgency] <;> omega
  · intro τ ops cm hg
    have e := (ContextManager.GetCurrentGcMode_fields ops cm).2.2.2.2.2
    rw [hg] at e
    refine ⟨e, ?_⟩
    intro hlt
    rw [e, toInt32_of_lt _ hlt]

/-- C15 with thresholds 3 and 1: the modes at 4, 2 and 1 free segments, and
the context manager at a segment context reporting 2 free segments. -/
theorem GetCurrentGcMode_step_function_witness :
    GcCtx.ex31.GetCurrentGcMode 4 = GcMode.MODE_NO_GC ∧
    GcCtx.ex31.GetCurrentGcMode 2 = GcMode.MODE_NORMAL_GC ∧
    GcCtx.ex31.GetCurrentGcMode 1 = GcMode.MODE_URGENT_GC ∧
    (GcCtx.ex31.GetCurrentGcMode 4).urgency ≤ (GcCtx.ex31.GetCurrentGcMode 1).urgency ∧
    (ContextManager.GetCurrentGcMode scriptedOps
      (ContextManager.scripted
        { ScriptedSegmentCtx.empty with numOfFreeSegment := [2] } true)).1
      = GcMode.MODE_NORMAL_GC :=
  have h := GetCurrentGcMode_step_function GcCtx.ex31 (by decide)
  ⟨h.1 4 (by decide), h.2.1 2 (by decide) (by decide), h.2.2.1 1 (by decide),
   h.2.2.2.2.1 1 4 (by decide),
   ((h.2.2.2.2.2 ScriptedSegmentCtx scriptedOps
      (ContextManager.scripted
        { ScriptedSegmentCtx.empty with numOfFreeSegment := [2] } true) rfl).1).trans
      (by decide)⟩

/-- C16: `ContextManager::GetGcThreshold(mode)` is the normal threshold for
`MODE_NORMAL_GC` and the urgent threshold for every other mode, `MODE_NO_GC`
included. -/
theorem GetGcThreshold_contract (cm : ContextManager σ) (mode : GcMode) :
    ContextManager.GetGcThreshold cm GcMode.MODE_NORMAL_GC = cm.gcCtx.GetNormalGcThreshold ∧
    ContextManager.GetGcThreshold cm GcMode.MODE_NORMAL_GC = cm.gcCtx.normalGcThreshold ∧
    (mode ≠ GcMode.MODE_NORMAL_GC →
      ContextManager.GetGcThreshold cm mode = cm.gcCtx.GetUrgentThreshold ∧
      ContextManager.GetGcThreshold cm mode = cm.gcCtx.urgentGcThreshold) ∧
    ContextManager.GetGcThreshold cm GcMode.MODE_NO_GC = cm.gcCtx.urgentGcThreshold ∧
    ContextManager.GetGcThreshold cm GcMode.MODE_URGENT_GC = cm.gcCtx.urgentGcThreshold := by
  refine ⟨rfl, rfl, ?_, rfl, rfl⟩
  intro h
  unfold ContextManager.GetGcThreshold
  rw [if_neg h]
  exact ⟨rfl, rfl⟩

/-- C16 with thresholds normal 3 and urgent 1. -/
theorem GetGcThreshold_contract_witness :
    ContextManager.GetGcThreshold (ContextManager.scripted ScriptedSegmentCtx.empty true)
      GcMode.MODE_NORMAL_GC = 3 ∧
    ContextManager.GetGcThreshold (ContextManager.scripted ScriptedSegmentCtx.empty true)
      GcMode.MODE_NO_GC = 1 ∧
    ContextManager.GetGcThreshold (ContextManager.scripted ScriptedSegmentCtx.empty true)
      GcMode.MODE_URGENT_GC = 1 :=
  have h := GetGcThreshold_contract (ContextManager.scripted ScriptedSegmentCtx.empty true)
  ⟨(h GcMode.MODE_NO_GC).2.1, ((h GcMode.MODE_NO_GC).2.2.1 (by decide)).2,
   ((h GcMode.MODE_URGENT_GC).2.2.1 (by decide)).2⟩

/-- C17: `ContextManager::AllocateGCVictimSegment` returns the segment
`FindMostInvalidSSDSegment` gives. When that is not `UNMAP_SEGMENT`, the
segment context is the one left by `SetSegmentState(victim, VICTIM, true)`
(and the reading of the free count for the log), and the victim is published
once under the GC-victim gauge; when it is `UNMAP_SEGMENT`, `SetSegmentState`
is not called, the segment context is as `FindMostInvalidSSDSegment` left it,
and nothing is published. -/
theorem AllocateGCVictimSegment_contract (ops : SegmentCtxOps σ) (cm : ContextManager σ) :
    (ContextManager.AllocateGCVictimSegment ops cm).1 =
      (ops.FindMostInvalidSSDSegment cm.segmentCtx).1 ∧
    ((ops.FindMostInvalidSSDSegment cm.segmentCtx).1 ≠ UNMAP_SEGMENT →
      (ContextManager.AllocateGCVictimSegment ops cm).2.segmentCtx =
        (ops.GetNumOfFreeSegmentWoLock
          (ops.SetSegmentState (ops.FindMostInvalidSSDSegment cm.segmentCtx).2
            (ops.FindMostInvalidSSDSegment cm.segmentCtx).1 SegmentState.VICTIM true)).2 ∧
      (ContextManager.AllocateGCVictimSegment ops cm).2.events =
        cm.events ++ [Event.PublishData TelemetryId.TEL30002_ALCT_GCVICTIM_SEG
          (ops.FindMostInvalidSSDSegment cm.segmentCtx).1]) ∧
    ((ops.FindMostInvalidSSDSegment cm.segmentCtx).1 = UNMAP_SEGMENT →
      (ContextManager.AllocateGCVictimSegment ops cm).2 =
        { cm with segmentCtx := (ops.FindMostInvalidSSDSegment cm.segmentCtx).2 } ∧
      (ContextManager.AllocateGCVictimSegment ops cm).2.events = cm.events) := by
  by_cases h : (ops.FindMostInvalidSSDSegment cm.segmentCtx).1 = UNMAP_SEGMENT
  · unfold ContextManager.AllocateGCVictimSegment
    simp only [h, ne_eq, not_true_eq_false, if_false, false_implies, forall_true_left, and_self]
  · unfold ContextManager.AllocateGCVictimSegment
    simp only [h, ne_eq, not_false_eq_true, if_true, false_implies, forall_true_left, and_self]

/-- C17 on scripted segment contexts: with victim 3 the recorded call is
`SetSegmentState(3, VICTIM, true)` and 3 is published under the GC-victim
gauge; with `UNMAP_SEGMENT` no call is recorded and nothing is published. -/
theorem AllocateGCVictimSegment_contract_witness :
    ((ContextManager.AllocateGCVictimSegment scriptedOps
        (ContextManager.scripted
          { ScriptedSegmentCtx.empty with findMostInvalidSSDSegment := [3] } true)).1 = 3 ∧
      (ContextManager.AllocateGCVictimSegment scriptedOps
        (ContextManager.scripted
          { ScriptedSegmentCtx.empty with findMostInvalidSSDSegment := [3] }
          true)).2.segmentCtx.setSegmentStateCalls = [(3, SegmentState.VICTIM, true)] ∧
      published TelemetryId.TEL30002_ALCT_GCVICTIM_SEG
        (ContextManager.AllocateGCVictimSegment scriptedOps
          (ContextManager.scripted
            { ScriptedSegmentCtx.empty with findMostInvalidSSDSegment := [3] }
            true)).2.events = [3]) ∧
    ((ContextManager.AllocateGCVictimSegment scriptedOps
        (ContextManager.scripted
          { ScriptedSegmentCtx.empty with findMostInvalidSSDSegment := [UNMAP_SEGMENT] }
          true)).1 = UNMAP_SEGMENT ∧
      (ContextManager.AllocateGCVictimSegment scriptedOps
        (ContextManager.scripted
          { ScriptedSegmentCtx.empty with findMostInvalidSSDSegment := [UNMAP_SEGMENT] }
          true)).2.segmentCtx.setSegmentStateCalls = [] ∧
      (ContextManager.AllocateGCVictimSegment scriptedOps
        (ContextManager.scripted
          { ScriptedSegmentCtx.empty with findMostInvalidSSDSegment := [UNMAP_SEGMENT] }
          true)).2.events = []) :=
  have h3 := AllocateGCVictimSegment_contract scriptedOps
    (ContextManager.scripted
      { ScriptedSegmentCtx.empty with findMostInvalidSSDSegment := [3] } true)
  have hu := AllocateGCVictimSegment_contract scriptedOps
    (ContextManager.scripted
      { ScriptedSegmentCtx.empty with findMostInvalidSSDSegment := [UNMAP_SEGMENT] } true)
  ⟨⟨h3.1, by rw [(h3.2.1 (by decide)).1]; decide, by rw [(h3.2.1 (by decide)).2]; decide⟩,
   ⟨hu.1, by rw [(hu.2.2 (by decide)).1]; decide, (hu.2.2 (by decide)).2⟩⟩

/-! ## Rebuild context: adding targets, the current-target invariant -/

/-- C18 as stated fails for the count: after `EmplaceRebuildTargetSegment(5)`
on a fresh context segment 5 is a target and the count is 0; adding 5 again
leaves the set as it is but the count becomes 1. -/
theorem AddRebuildTargetSegment_duplicate_changes_count :
    5 ∈ RebuildCtx.exEmplaced.targetSegmentList ∧
    RebuildCtx.exEmplaced.GetRebuildTargetSegmentCount = 0 ∧
    (RebuildCtx.exEmplaced.AddRebuildTargetSegment 5).targetSegmentList =
      RebuildCtx.exEmplaced.targetSegmentList ∧
    (RebuildCtx.exEmplaced.AddRebuildTargetSegment 5).GetRebuildTargetSegmentCount = 1 ∧
    (RebuildCtx.exEmplaced.AddRebuildTargetSegment 5).GetRebuildTargetSegmentCount ≠
      RebuildCtx.exEmplaced.GetRebuildTargetSegmentCount := by
  decide

/-- C18, amended: `AddRebuildTargetSegment(seg)` is total; the targets
afterwards are the former ones and `seg`, and the count is the size of that
set (as `uint32_t`), nothing else changes. Adding a segment already present
leaves the set as it is, and the count too whenever the count was the size of
the set before; adding the same segment twice is the same as adding it once. -/
theorem AddRebuildTargetSegment_contract (r : RebuildCtx) (seg : SegmentId) :
    (r.AddRebuildTargetSegment seg).targetSegmentList = r.targetSegmentList ∪ {seg} ∧
    (∀ x, x ∈ (r.AddRebuildTargetSegment seg).targetSegmentList ↔
      x ∈ r.targetSegmentList ∨ x = seg) ∧
    (r.AddRebuildTargetSegment seg).GetRebuildTargetSegmentCount =
      toUInt32 (r.AddRebuildTargetSegment seg).targetSegmentList.card ∧
    r.AddRebuildTargetSegment seg =
      { r with
        targetSegmentList := (r.AddRebuildTargetSegment seg).targetSegmentList
        targetSegmentCount := (r.AddRebuildTargetSegment seg).targetSegmentCount } ∧
    (seg ∈ r.targetSegmentList →
      (r.AddRebuildTargetSegment seg).targetSegmentList = r.targetSegmentList ∧
      (r.GetRebuildTargetSegmentCount = toUInt32 r.targetSegmentList.card →
        r.AddRebuildTargetSegment seg = r)) ∧
    (r.AddRebuildTargetSegment seg).AddRebuildTargetSegment seg =
      r.AddRebuildTargetSegment seg := by
  have hmem : seg ∈ insert seg r.targetSegmentList := Finset.mem_insert_self _ _
  refine ⟨?_, ?_, rfl, rfl, ?_, ?_⟩
  · show insert seg r.targetSegmentList = _
    ext x
    simp only [Finset.mem_insert, Finset.mem_union, Finset.mem_singleton]
    exact or_comm
  · intro x
    show x ∈ insert seg r.targetSegmentList ↔ _
    simp only [Finset.mem_insert]
    exact or_comm
  · intro h
    have hi : insert seg r.targetSegmentList = r.targetSegmentList := Finset.insert_eq_of_mem h
    refine ⟨hi, ?_⟩
    intro hc
    unfold RebuildCtx.AddRebuildTargetSegment
    unfold RebuildCtx.GetRebuildTargetSegmentCount at hc
    rw [hi, ← hc]
  · unfold RebuildCtx.AddRebuildTargetSegment
    simp only [Finset.insert_eq_of_mem hmem]

/-- The amended C18 on the targets `{5, 7}`: adding 9 gives three targets,
adding 5 again changes nothing. -/
theorem AddRebuildTargetSegment_contract_witness :
    (RebuildCtx.ex57.AddRebuildTargetSegment 9).GetRebuildTargetSegmentCount = 3 ∧
    (RebuildCtx.ex57.AddRebuildTargetSegment 5).targetSegmentList =
      RebuildCtx.ex57.targetSegmentList ∧
    RebuildCtx.ex57.AddRebuildTargetSegment 5 = RebuildCtx.ex57 :=
  have h := AddRebuildTargetSegment_contract RebuildCtx.ex57
  ⟨(h 9).2.2.1.trans (by decide), ((h 5).2.2.2.2.1 (by decide)).1,
   ((h 5).2.2.2.2.1 (by decide)).2 (by decide)⟩

theorem afterLoadLoop_superset (isUT : Bool) (segmentList : List SegmentId) :
    ∀ (n cnt : Nat) (s s' : Finset SegmentId),
      afterLoadLoop isUT segmentList n cnt s = some s' → s ⊆ s' := by
  intro n
  induction n with
  | zero =>
    intro cnt s s' h
    simp only [afterLoadLoop, Option.some.injEq] at h
    rw [h]
  | succ n ih =>
    intro cnt s s' h
    unfold afterLoadLoop at h
    cases hget : segmentList[cnt]? with
    | none => simp only [hget] at h; exact absurd h (by simp)
    | some seg =>
      simp only [hget] at h
      by_cases hm : seg ∈ s
      · rw [if_pos hm] at h
        by_cases hu : isUT = true
        · rw [if_pos hu] at h
          exact ih _ _ _ h
        · rw [if_neg hu] at h
          exact absurd h (by simp)
      · rw [if_neg hm] at h
        exact (Finset.subset_insert seg s).trans (ih _ _ _ h)

theorem RebuildCtx.AfterLoad_some (info : AllocatorAddressInfo) (r r' : RebuildCtx)
    (buf : RebuildCtxBuffer) (h : r.AfterLoad info buf = some r') :
    ∃ s, afterLoadLoop info.isUT buf.segmentList r.ctxHeader.numTargetSegments 0
        r.targetSegmentList = some s ∧
      r' = { r with
             ctxStoredVersion := r.ctxHeader.ctxVersion
             ctxDirtyVersion := inc64 r.ctxHeader.ctxVersion
             targetSegmentCount := r.ctxHeader.numTargetSegments
             targetSegmentList := s
             needContinue :=
               if r.ctxHeader.numTargetSegments ≠ 0 then true else r.needContinue } ∧
      (r.ctxHeader.numTargetSegments ≠ 0 → r.ctxHeader.numTargetSegments = s.card) := by
  unfold RebuildCtx.AfterLoad at h
  cases hl : afterLoadLoop info.isUT buf.segmentList r.ctxHeader.numTargetSegments 0
      r.targetSegmentList with
  | none => simp only [hl] at h; exact absurd h (by simp)
  | some s =>
    simp only [hl] at h
    refine ⟨s, rfl, ?_⟩
    by_cases hc : r.ctxHeader.numTargetSegments ≠ 0
    · rw [if_pos hc] at h
      by_cases hs : r.ctxHeader.numTargetSegments = s.card
      · rw [if_pos hs] at h
        simp only [Option.some.injEq] at h
        rw [← h, if_pos hc]
        exact ⟨rfl, fun _ => hs⟩
      · rw [if_neg hs] at h
        exact absurd h (by simp)
    · rw [if_neg hc] at h
      simp only [Option.some.injEq] at h
      rw [← h, if_neg hc]
      exact ⟨rfl, fun hne => absurd hne hc⟩

/-- Every operation on the target set or the current target other than
`ClearRebuildTargetList` keeps the current target a target or the sentinel:
the constructor establishes it, and `AddRebuildTargetSegment`,
`EmplaceRebuildTargetSegment`, `GetRebuildTargetSegment`,
`ReleaseRebuildSegment`, `FreeSegmentInRebuildTarget`,
`EraseRebuildTargetSegment`, `StopRebuilding` and `AfterLoad` preserve it. -/
theorem targetInv_preserved_elsewhere (r : RebuildCtx) (seg : SegmentId) (h : r.targetInv) :
    (∀ sig hdr, (RebuildCtx.new sig hdr).targetInv) ∧
    (r.AddRebuildTargetSegment seg).targetInv ∧
    (r.EmplaceRebuildTargetSegment seg).2.targetInv ∧
    r.GetRebuildTargetSegment.2.targetInv ∧
    (r.ReleaseRebuildSegment seg).2.targetInv ∧
    (r.FreeSegmentInRebuildTarget seg).2.targetInv ∧
    (r.EraseRebuildTargetSegment seg).targetInv ∧
    (∀ eid, (r.StopRebuilding eid).2.targetInv) ∧
    (∀ info buf r', r.AfterLoad info buf = some r' → r'.targetInv) := by
  have herase : (r.EraseRebuildTargetSegment seg).targetInv := by
    by_cases hm : seg ∈ r.targetSegmentList
    · rw [RebuildCtx.erase_of_mem r seg hm]
      unfold RebuildCtx.targetInv
      by_cases hc : seg = r.currentTarget
      · right
        simp only [hc, if_true, UNMAP_SEGMENT]
      · simp only [hc, if_false]
        rcases h with h | h
        · exact Or.inl (Finset.mem_erase.mpr ⟨fun e => hc e.symm, h⟩)
        · exact Or.inr h
    · unfold RebuildCtx.EraseRebuildTargetSegment
      rw [if_neg hm]
      exact h
  refine ⟨?_, ?_, ?_, ?_, ?_, ?_, herase, ?_, ?_⟩
  · intro sig hdr
    exact Or.inr rfl
  · rcases h with h | h
    · exact Or.inl (Finset.mem_insert_of_mem h)
    · exact Or.inr h
  · rcases h with h | h
    · exact Or.inl (Finset.mem_insert_of_mem h)
    · exact Or.inr h
  · by_cases he : r.targetSegmentList = ∅
    · rw [RebuildCtx.get_of_empty r he]
      exact h
    · have hne : r.targetSegmentList.Nonempty := Finset.nonempty_iff_ne_empty.mpr he
      rw [RebuildCtx.get_of_nonempty r hne]
      exact Or.inl (Finset.min'_mem r.targetSegmentList hne)
  · by_cases hm : seg ∈ r.targetSegmentList
    · rw [RebuildCtx.release_of_mem r seg hm, ← RebuildCtx.erase_of_mem r seg hm]
      exact herase
    · rw [RebuildCtx.release_of_not_mem r seg hm]
      exact Or.inr rfl
  · by_cases hm : seg ∈ r.targetSegmentList
    · by_cases hc : seg = r.currentTarget
      · rw [RebuildCtx.free_of_current r seg hc]
        exact h
      · rw [RebuildCtx.free_of_mem_of_ne r seg hm hc]
        rcases h with h | h
        · exact Or.inl (Finset.mem_erase.mpr ⟨fun e => hc e.symm, h⟩)
        · exact Or.inr h
    · rw [RebuildCtx.free_of_not_mem r seg hm]
      exact h
  · intro eid
    unfold RebuildCtx.StopRebuilding
    by_cases he : r.targetSegmentList = ∅
    · rw [if_pos he]
      exact h
    · rw [if_neg he]
      exact Or.inr rfl
  · intro info buf r' hl
    obtain ⟨s, hs, hr, _⟩ := RebuildCtx.AfterLoad_some info r r' buf hl
    rw [hr]
    rcases h with h | h
    · exact Or.inl (afterLoadLoop_superset _ _ _ _ _ _ hs h)
    · exact Or.inr h

/-- The operations other than `ClearRebuildTargetList` on the targets `{5, 7}`
with 5 picked. -/
theorem targetInv_preserved_elsewhere_witness :
    (RebuildCtx.ex57picked.ReleaseRebuildSegment 5).2.targetInv ∧
    (RebuildCtx.ex57picked.FreeSegmentInRebuildTarget 7).2.targetInv :=
  have h := targetInv_preserved_elsewhere RebuildCtx.ex57picked
  ⟨(h 5 (by decide)).2.2.2.2.1, (h 7 (by decide)).2.2.2.2.2.1⟩

/-- C19 at the failing input: a context with the single target 5, picked as
current target, satisfies the invariant; after `ClearRebuildTargetList` the
target set is empty and the current target is still 5, neither a target nor
the sentinel. `StopRebuilding`, which also empties the set, resets the current
target and keeps the invariant. -/
theorem ClearRebuildTargetList_breaks_target_invariant :
    RebuildCtx.fresh.targetInv ∧
    RebuildCtx.ex5picked.targetInv ∧
    RebuildCtx.ex5picked.currentTarget = 5 ∧
    RebuildCtx.ex5picked.ClearRebuildTargetList.targetSegmentList = ∅ ∧
    RebuildCtx.ex5picked.ClearRebuildTargetList.currentTarget = 5 ∧
    ¬ RebuildCtx.ex5picked.ClearRebuildTargetList.targetInv ∧
    (RebuildCtx.ex5picked.StopRebuilding 5001).2.targetSegmentList = ∅ ∧
    (RebuildCtx.ex5picked.StopRebuilding 5001).2.targetInv := by
  decide

/-! ## Rebuild context: flush and load -/

theorem afterLoadLoop_ascendingAux (isUT : Bool) (rest : List SegmentId) :
    ∀ (n : Nat) (S acc : Finset SegmentId) (pre : List SegmentId),
      S.card = n → Disjoint acc S →
      afterLoadLoop isUT (pre ++ ascendingAux n S ++ rest) n pre.length acc = some (acc ∪ S) := by
  intro n
  induction n with
  | zero =>
    intro S acc pre hS _
    rw [Finset.card_eq_zero.mp hS]
    simp only [afterLoadLoop, Finset.union_empty]
  | succ n ih =>
    intro S acc pre hS hd
    have hne : S.Nonempty := Finset.card_pos.mp (by omega)
    have hm : S.min' hne ∈ S := Finset.min'_mem S hne
    have hasc : ascendingAux (n + 1) S = S.min' hne :: ascendingAux n (S.erase (S.min' hne)) := by
      rw [ascendingAux, dif_pos hne]
    have hlist : pre ++ ascendingAux (n + 1) S ++ rest =
        (pre ++ [S.min' hne]) ++ ascendingAux n (S.erase (S.min' hne)) ++ rest := by
      rw [hasc]
      simp only [List.append_assoc, List.singleton_append, List.cons_append, List.nil_append]
    have hget : (pre ++ ascendingAux (n + 1) S ++ rest)[pre.length]? = some (S.min' hne) := by
      rw [hasc]
      simp only [List.append_assoc, List.cons_append]
      rw [List.getElem?_append_right (le_refl _)]
      simp only [Nat.sub_self, List.getElem?_cons_zero]
    have hnotin : S.min' hne ∉ acc := fun h => (Finset.disjoint_left.mp hd) h hm
    have hcard : (S.erase (S.min' hne)).card = n := by
      rw [Finset.card_erase_of_mem hm, hS]
      rfl
    have hd' : Disjoint (insert (S.min' hne) acc) (S.erase (S.min' hne)) := by
      rw [Finset.disjoint_left]
      intro x hx hx'
      rcases Finset.mem_insert.mp hx with h | h
      · exact (Finset.mem_erase.mp hx').1 h
      · exact (Finset.disjoint_left.mp hd) h (Finset.mem_erase.mp hx').2
    have hstep := ih (S.erase (S.min' hne)) (insert (S.min' hne) acc) (pre ++ [S.min' hne])
      hcard hd'
    rw [← hlist, List.length_append, List.length_singleton] at hstep
    unfold afterLoadLoop
    simp only [hget, hnotin, if_false]
    rw [hstep]
    congr 1
    ext x
    simp only [Finset.mem_union, Finset.mem_insert, Finset.mem_erase]
    constructor
    · rintro ((h | h) | h)
      · exact Or.inr (h ▸ hm)
      · exact Or.inl h
      · exact Or.inr h.2
    · rintro (h | h)
      · exact Or.inl (Or.inr h)
      · by_cases hx : x = S.min' hne
        · exact Or.inl (Or.inl hx)
        · exact Or.inr ⟨hx, h⟩

theorem card_lt_of_ids (S : Finset SegmentId) (h : ∀ x ∈ S, x < UNMAP_SEGMENT) :
    S.card < 4294967296 := by
  have hsub : S ⊆ Finset.range UNMAP_SEGMENT := fun x hx => Finset.mem_range.mpr (h x hx)
  have hle := Finset.card_le_card hsub
  rw [Finset.card_range] at hle
  have hu : UNMAP_SEGMENT = 4294967295 := rfl
  rw [hu] at hle
  omega

theorem toUInt32_of_lt (n : Nat) (h : n < 4294967296) : toUInt32 n = n :=
  Nat.mod_eq_of_lt h

/-- Loading into any context with no targets the buffer that `BeforeFlush`
wrote for a context whose targets are segment ids below `UNMAP_SEGMENT`. -/
theorem RebuildCtx.load_flushed (info : AllocatorAddressInfo) (r0 r : RebuildCtx)
    (buf : RebuildCtxBuffer) (h0 : r0.targetSegmentList = ∅)
    (hids : ∀ x ∈ r.targetSegmentList, x < UNMAP_SEGMENT) :
    r0.load info (r.BeforeFlush buf).2 =
      some { r0 with
             ctxHeader := (r.BeforeFlush buf).2.header
             ctxStoredVersion := r.ctxDirtyVersion
             ctxDirtyVersion := inc64 r.ctxDirtyVersion
             targetSegmentCount := r.targetSegmentList.card
             targetSegmentList := r.targetSegmentList
             needContinue := if r.targetSegmentList.card ≠ 0 then true else r0.needContinue } := by
  have hc : toUInt32 r.targetSegmentList.card = r.targetSegmentList.card :=
    toUInt32_of_lt _ (card_lt_of_ids _ hids)
  have hloop := afterLoadLoop_ascendingAux info.isUT
    (buf.segmentList.drop r.targetSegmentList.card) r.targetSegmentList.card
    r.targetSegmentList ∅ [] rfl (Finset.disjoint_empty_left _)
  simp only [List.nil_append, List.length_nil, Finset.empty_union] at hloop
  unfold RebuildCtx.load RebuildCtx.AfterLoad RebuildCtx.BeforeFlush
  simp only [hc, h0, ascending, hloop]
  by_cases hz : r.targetSegmentList.card = 0
  · simp only [hz, ne_eq, not_true_eq_false, if_false]
  · simp only [hz, ne_eq, not_false_eq_true, if_true]

theorem RebuildCtx.get_fst_of_targets (r₁ r₂ : RebuildCtx)
    (h : r₁.targetSegmentList = r₂.targetSegmentList) :
    r₁.GetRebuildTargetSegment.1 = r₂.GetRebuildTargetSegment.1 := by
  by_cases he : r₂.targetSegmentList = ∅
  · rw [RebuildCtx.get_of_empty r₂ he, RebuildCtx.get_of_empty r₁ (h.trans he)]
  · have hne₂ : r₂.targetSegmentList.Nonempty := Finset.nonempty_iff_ne_empty.mpr he
    have hne₁ : r₁.targetSegmentList.Nonempty := h ▸ hne₂
    rw [RebuildCtx.get_of_nonempty r₂ hne₂, RebuildCtx.get_of_nonempty r₁ hne₁]
    simp only [h]

/-- C13: crash-recovery round trip. Let a rebuild context hold targets that
are segment ids below `UNMAP_SEGMENT`, and let `BeforeFlush` write it to a
buffer. A freshly constructed rebuild context that loads this buffer (header
section from the buffer, then `AfterLoad`) does load, and then holds exactly
the same targets, reports their number as its count, picks next what the
original would pick, the smallest target, and needs a rebuild exactly when
there are targets. -/
theorem rebuild_ctx_round_trip (info : AllocatorAddressInfo) (sig : Nat)
    (hdr : Option RebuildCtxHeader) (r : RebuildCtx) (buf : RebuildCtxBuffer)
    (hids : ∀ x ∈ r.targetSegmentList, x < UNMAP_SEGMENT) :
    (r.BeforeFlush buf).1.targetSegmentList = r.targetSegmentList ∧
    ∃ r', (RebuildCtx.new sig hdr).load info (r.BeforeFlush buf).2 = some r' ∧
      r'.targetSegmentList = r.targetSegmentList ∧
      r'.GetRebuildTargetSegmentCount = r.targetSegmentList.card ∧
      r'.GetRebuildTargetSegment.1 = r.GetRebuildTargetSegment.1 ∧
      (∀ hne : r.targetSegmentList.Nonempty,
        r'.GetRebuildTargetSegment.1 = r.targetSegmentList.min' hne) ∧
      (r'.NeedRebuildAgain = true ↔ r.targetSegmentList.Nonempty) := by
  refine ⟨rfl, _, RebuildCtx.load_flushed info (RebuildCtx.new sig hdr) r buf rfl hids,
    rfl, rfl, ?_, ?_, ?_⟩
  · exact RebuildCtx.get_fst_of_targets _ _ rfl
  · intro hne
    have key : ∀ r'' : RebuildCtx, r''.targetSegmentList = r.targetSegmentList →
        r''.GetRebuildTargetSegment.1 = r.targetSegmentList.min' hne := by
      intro r'' h
      rw [RebuildCtx.get_fst_of_targets r'' r h, RebuildCtx.get_of_nonempty r hne]
    exact key _ rfl
  · unfold RebuildCtx.NeedRebuildAgain
    by_cases hz : r.targetSegmentList.card = 0
    · have he : r.targetSegmentList = ∅ := Finset.card_eq_zero.mp hz
      simp only [hz, ne_eq, not_true_eq_false, if_false, he, Finset.not_nonempty_empty, iff_false]
      simp [RebuildCtx.new]
    · have hne : r.targetSegmentList.Nonempty := Finset.card_pos.mp (by omega)
      simp only [hz, ne_eq, not_false_eq_true, if_true, hne]

/-- C13 on the targets `{3, 9, 17}` and a zeroed buffer of 20 ids: the fresh
context loads, holds `{3, 9, 17}`, needs a rebuild, counts 3 and picks 3. -/
theorem rebuild_ctx_round_trip_witness :
    (∀ x ∈ RebuildCtx.ex3917.targetSegmentList, x < UNMAP_SEGMENT) ∧
    (∃ r', RebuildCtx.fresh.load AllocatorAddressInfo.ex
        (RebuildCtx.ex3917.BeforeFlush (RebuildCtxBuffer.zeros 20)).2 = some r' ∧
      r'.targetSegmentList = RebuildCtx.ex3917.targetSegmentList ∧
      r'.GetRebuildTargetSegmentCount = RebuildCtx.ex3917.targetSegmentList.card ∧
      r'.GetRebuildTargetSegment.1 = RebuildCtx.ex3917.GetRebuildTargetSegment.1 ∧
      (∀ hne : RebuildCtx.ex3917.targetSegmentList.Nonempty,
        r'.GetRebuildTargetSegment.1 = RebuildCtx.ex3917.targetSegmentList.min' hne) ∧
      (r'.NeedRebuildAgain = true ↔ RebuildCtx.ex3917.targetSegmentList.Nonempty)) ∧
    (RebuildCtx.fresh.load AllocatorAddressInfo.ex
        (RebuildCtx.ex3917.BeforeFlush (RebuildCtxBuffer.zeros 20)).2).map
      (fun r' => (decide (r'.targetSegmentList = {3, 9, 17}), r'.NeedRebuildAgain,
        r'.GetRebuildTargetSegmentCount, r'.GetRebuildTargetSegment.1))
      = some (true, true, 3, 3) :=
  ⟨by decide,
   (rebuild_ctx_round_trip AllocatorAddressInfo.ex 0 none RebuildCtx.ex3917
      (RebuildCtxBuffer.zeros 20) (by decide)).2,
   by decide⟩

/-- C14: `NeedRebuildAgain()` is false on a freshly constructed context. When
a fresh context (more generally one whose flag is not yet set) loads a buffer
and `AfterLoad` returns, it is true exactly when the loaded header has
`numTargetSegments != 0`. `AfterLoad` does return on a header with no targets,
and on every buffer `BeforeFlush` wrote for targets below `UNMAP_SEGMENT`,
where the flag is true exactly when there were targets. -/
theorem NeedRebuildAgain_after_load (info : AllocatorAddressInfo) (sig : Nat)
    (hdr : Option RebuildCtxHeader) (buf : RebuildCtxBuffer) :
    (RebuildCtx.new sig hdr).NeedRebuildAgain = false ∧
    (∀ r', (RebuildCtx.new sig hdr).load info buf = some r' →
      (r'.NeedRebuildAgain = true ↔ buf.header.numTargetSegments ≠ 0)) ∧
    (∀ r r' : RebuildCtx, r.NeedRebuildAgain = false → r.AfterLoad info buf = some r' →
      (r'.NeedRebuildAgain = true ↔ r.ctxHeader.numTargetSegments ≠ 0)) ∧
    (buf.header.numTargetSegments = 0 →
      ∃ r', (RebuildCtx.new sig hdr).load info buf = some r' ∧ r'.NeedRebuildAgain = false) ∧
    (∀ r : RebuildCtx, (∀ x ∈ r.targetSegmentList, x < UNMAP_SEGMENT) →
      ∃ r', (RebuildCtx.new sig hdr).load info (r.BeforeFlush buf).2 = some r' ∧
        (r.BeforeFlush buf).2.header.numTargetSegments = r.targetSegmentList.card ∧
        (r'.NeedRebuildAgain = true ↔ r.targetSegmentList.card ≠ 0)) := by
  have hgen : ∀ r r' : RebuildCtx, r.NeedRebuildAgain = false →
      r.AfterLoad info buf = some r' →
      (r'.NeedRebuildAgain = true ↔ r.ctxHeader.numTargetSegments ≠ 0) := by
    intro r r' hf hl
    obtain ⟨s, _, hr, _⟩ := RebuildCtx.AfterLoad_some info r r' buf hl
    unfold RebuildCtx.NeedRebuildAgain at hf ⊢
    rw [hr]
    by_cases hz : r.ctxHeader.numTargetSegments = 0
    · simp only [hz, ne_eq, not_true_eq_false, if_false, hf, Bool.false_eq_true]
    · simp only [hz, ne_eq, not_false_eq_true, if_true]
  refine ⟨rfl, ?_, hgen, ?_, ?_⟩
  · intro r' hl
    exact hgen { RebuildCtx.new sig hdr with ctxHeader := buf.header } r' rfl hl
  · intro hz
    have e : (RebuildCtx.new sig hdr).load info buf =
        some { RebuildCtx.new sig hdr with
               ctxHeader := buf.header
               ctxStoredVersion := buf.header.ctxVersion
               ctxDirtyVersion := inc64 buf.header.ctxVersion
               targetSegmentCount := 0 } := by
      unfold RebuildCtx.load RebuildCtx.AfterLoad
      simp only [hz, afterLoadLoop, ne_eq, not_true_eq_false, if_false]
    exact ⟨_, e, rfl⟩
  · intro r hids
    refine ⟨_, RebuildCtx.load_flushed info (RebuildCtx.new sig hdr) r buf rfl hids,
      toUInt32_of_lt _ (card_lt_of_ids _ hids), ?_⟩
    unfold RebuildCtx.NeedRebuildAgain
    by_cases hz : r.targetSegmentList.card = 0
    · simp only [hz, ne_eq, not_true_eq_false, if_false, iff_false]
      simp [RebuildCtx.new]
    · simp only [hz, ne_eq, not_false_eq_true, if_true]

/-- C14 on concrete buffers: a fresh context is not in need of a rebuild; it
is after loading the flushed targets `{3, 9, 17}`, and it is not after loading
a zeroed buffer. -/
theorem NeedRebuildAgain_after_load_witness :
    RebuildCtx.fresh.NeedRebuildAgain = false ∧
    (RebuildCtx.fresh.load AllocatorAddressInfo.ex
        (RebuildCtx.ex3917.BeforeFlush (RebuildCtxBuffer.zeros 20)).2).map
      (fun r' => r'.NeedRebuildAgain) = some true ∧
    (RebuildCtx.fresh.load AllocatorAddressInfo.ex (RebuildCtxBuffer.zeros 20)).map
      (fun r' => r'.NeedRebuildAgain) = some false :=
  ⟨(NeedRebuildAgain_after_load AllocatorAddressInfo.ex 0 none (RebuildCtxBuffer.zeros 20)).1,
   by decide, by decide⟩

/-! ## Rebuild context: versions -/

/-- C20 as stated fails. After `Init`, two flushes and completion of the
second, the stored version is 1 and the dirty version 2; `ResetDirtyVersion`
sets the dirty version to 0, below the stored one. `FinalizeIo` on a buffer
flushed before an `Init` that reset the versions stores 1 over a dirty version
of 0. Loading a header that carries the largest 64-bit version stores it and
wraps the dirty version to 0. -/
theorem version_invariant_broken :
    (RebuildCtx.exStored1.versionInv ∧
      RebuildCtx.exStored1.ctxStoredVersion = 1 ∧
      RebuildCtx.exStored1.ResetDirtyVersion.ctxDirtyVersion = 0 ∧
      ¬ RebuildCtx.exStored1.ResetDirtyVersion.versionInv) ∧
    (RebuildCtx.exFlushedBeforeInit.1.Init.versionInv ∧
      ¬ (RebuildCtx.exFlushedBeforeInit.1.Init.FinalizeIo
          RebuildCtx.exFlushedBeforeInit.2).versionInv) ∧
    (RebuildCtx.fresh.load AllocatorAddressInfo.ex RebuildCtxBuffer.exMaxVersion).map
      (fun r => (r.ctxStoredVersion, r.ctxDirtyVersion, decide r.versionInv))
      = some (18446744073709551615, 0, false) := by
  decide

theorem inc64_of_lt (x : Nat) (h : x + 1 < 18446744073709551616) : inc64 x = x + 1 :=
  Nat.mod_eq_of_lt h

/-- Every admitted step keeps the invariant of a run. -/
theorem versionStep_inv (st st' : VersionState) (op : VersionOp) (hinv : st.inv)
    (h : versionStep st op = some st') : st'.inv := by
  obtain ⟨hv, hw⟩ := hinv
  unfold RebuildCtx.versionInv at hv
  cases op with
  | beforeFlush buf =>
    simp only [versionStep] at h
    by_cases hlt : st.ctx.ctxDirtyVersion + 1 < 18446744073709551616
    · rw [if_pos hlt] at h
      simp only [Option.some.injEq] at h
      rw [← h]
      unfold VersionState.inv RebuildCtx.versionInv RebuildCtx.BeforeFlush
      simp only [inc64_of_lt _ hlt, List.mem_cons]
      refine ⟨by omega, ?_⟩
      intro b hb
      rcases hb with hb | hb
      · rw [hb]
        exact Nat.lt_succ_self _
      · exact Nat.lt_succ_of_lt (hw b hb)
    · rw [if_neg hlt] at h
      exact absurd h (by simp)
  | finalizeIo k =>
    simp only [versionStep] at h
    cases hget : st.written[k]? with
    | none => simp only [hget] at h; exact absurd h (by simp)
    | some b =>
      simp only [hget, Option.some.injEq] at h
      rw [← h]
      have hb : b ∈ st.written := List.getElem?_mem hget
      exact ⟨Nat.le_of_lt (hw b hb), hw⟩
  | afterLoad info buf =>
    simp only [versionStep] at h
    by_cases hlt : st.ctx.ctxHeader.ctxVersion + 1 < 18446744073709551616
    · rw [if_pos hlt] at h
      cases hl : st.ctx.AfterLoad info buf with
      | none => simp only [hl] at h; exact absurd h (by simp)
      | some r =>
        simp only [hl, Option.some.injEq] at h
        rw [← h]
        obtain ⟨s, _, hr, _⟩ := RebuildCtx.AfterLoad_some info st.ctx r buf hl
        refine ⟨?_, fun b hb => absurd hb (List.not_mem_nil b)⟩
        unfold RebuildCtx.versionInv
        rw [hr]
        simp only [inc64_of_lt _ hlt]
        exact Nat.le_succ _
    · rw [if_neg hlt] at h
      exact absurd h (by simp)
  | resetDirtyVersion =>
    simp only [versionStep] at h
    by_cases hz : st.ctx.ctxStoredVersion = 0
    · rw [if_pos hz] at h
      simp only [Option.some.injEq] at h
      rw [← h]
      refine ⟨?_, fun b hb => absurd hb (List.not_mem_nil b)⟩
      unfold RebuildCtx.versionInv RebuildCtx.ResetDirtyVersion
      simp only [hz, le_refl]
    · rw [if_neg hz] at h
      exact absurd h (by simp)
  | init =>
    simp only [versionStep] at h
    simp only [Option.some.injEq] at h
    rw [← h]
    by_cases hi : st.ctx.initialized = true
    · unfold VersionState.inv RebuildCtx.versionInv RebuildCtx.Init
      simp only [hi, if_true]
      exact ⟨hv, hw⟩
    · have hf : st.ctx.initialized = false := Bool.eq_false_iff.mpr hi
      unfold VersionState.inv RebuildCtx.versionInv RebuildCtx.Init
      simp only [hf, Bool.false_eq_true, if_false, le_refl, true_and]
      exact fun b hb => absurd hb (List.not_mem_nil b)

/-- C20, amended: the stored version is at most the dirty version after
construction and after `Init`, and stays so along every sequence, in any
order, of `BeforeFlush` and `AfterLoad` (short of the 64-bit wrap), `Init`,
`FinalizeIo` on a buffer written by a `BeforeFlush` since the versions were
last set anew, and `ResetDirtyVersion` while the stored version is 0. -/
theorem version_invariant_along_runs (sig : Nat) (hdr : Option RebuildCtxHeader)
    (ops : List VersionOp) (st : VersionState)
    (h : versionRun { ctx := RebuildCtx.new sig hdr, written := [] } ops = some st) :
    (RebuildCtx.new sig hdr).versionInv ∧
    (RebuildCtx.new sig hdr).Init.versionInv ∧
    st.ctx.versionInv ∧
    st.ctx.Init.versionInv ∧
    (∀ b ∈ st.written, (st.ctx.FinalizeIo b).versionInv) := by
  have h0 : (VersionState.mk (RebuildCtx.new sig hdr) []).inv :=
    ⟨Nat.le_refl _, fun b hb => absurd hb (List.not_mem_nil b)⟩
  have hrun : ∀ (ops : List VersionOp) (s s' : VersionState), s.inv →
      versionRun s ops = some s' → s'.inv := by
    intro ops
    induction ops with
    | nil =>
      intro s s' hs hr
      simp only [versionRun, Option.some.injEq] at hr
      rw [← hr]
      exact hs
    | cons op rest ih =>
      intro s s' hs hr
      unfold versionRun at hr
      cases hstep : versionStep s op with
      | none => simp only [hstep] at hr; exact absurd hr (by simp)
      | some s1 =>
        simp only [hstep] at hr
        exact ih s1 s' (versionStep_inv s s1 op hs hstep) hr
  have hinit : ∀ s : VersionState, s.inv → s.ctx.Init.versionInv := fun s hs =>
    (versionStep_inv s _ VersionOp.init hs rfl).1
  have hst := hrun ops _ st h0 h
  refine ⟨h0.1, hinit _ h0, hst.1, hinit _ hst, ?_⟩
  intro b hb
  exact Nat.le_of_lt (hst.2 b hb)

/-- Every step of the run `exRun` from a fresh context is admitted. -/
theorem exRun_admitted :
    (versionRun { ctx := RebuildCtx.fresh, written := [] } VersionOp.exRun).isSome = true := by
  decide

/-- The amended C20 on the run `exRun` from a fresh context: every step is
admitted, at the end the stored version is 2 and the dirty version 3, and the
invariant holds there. -/
theorem version_invariant_along_runs_witness :
    (versionRun { ctx := RebuildCtx.fresh, written := [] } VersionOp.exRun).map
      (fun st => (st.ctx.ctxStoredVersion, st.ctx.ctxDirtyVersion, st.written.length))
      = some (2, 3, 1) ∧
    ((versionRun { ctx := RebuildCtx.fresh, written := [] } VersionOp.exRun).get
      exRun_admitted).ctx.versionInv :=
  ⟨by decide,
   (version_invariant_along_runs 0 none VersionOp.exRun
      ((versionRun { ctx := RebuildCtx.fresh, written := [] } VersionOp.exRun).get
        exRun_admitted)
      (Option.some_get exRun_admitted).symm).2.2.1⟩


/-! ## Rebuild context: flush cycles, load, serialization -/

theorem RebuildCtx.flushCycle_versions (r : RebuildCtx) (buf : RebuildCtxBuffer) :
    (r.BeforeFlush buf).1.ctxStoredVersion = r.ctxStoredVersion ∧
    (r.BeforeFlush buf).1.ctxDirtyVersion = inc64 r.ctxDirtyVersion ∧
    (r.BeforeFlush buf).2.header.ctxVersion = r.ctxDirtyVersion ∧
    (r.flushCycle buf).ctxStoredVersion = r.ctxDirtyVersion ∧
    (r.flushCycle buf).ctxDirtyVersion = inc64 r.ctxDirtyVersion :=
  ⟨rfl, rfl, rfl, rfl, rfl⟩

/-- C21: version monotonicity across flush cycles. From a context whose stored
version is at most its dirty version, and short of the 64-bit wrap, along any
sequence of cycles `BeforeFlush(buf)`, `FinalizeIo` on that buffer: the stored
version never decreases from one step to the next, it is at most the dirty
version after every step, and each `FinalizeIo` sets it to the version that
`BeforeFlush` wrote into the header of that buffer. -/
theorem flush_cycles_version_monotone (bufs : List RebuildCtxBuffer) :
    ∀ r : RebuildCtx, r.versionInv →
      r.ctxDirtyVersion + bufs.length < 18446744073709551616 →
      List.Chain (fun a b : RebuildCtx => a.ctxStoredVersion ≤ b.ctxStoredVersion) r
        (r.flushTrace bufs) ∧
      (∀ s ∈ r.flushTrace bufs, s.versionInv) ∧
      (∀ buf, (r.flushCycle buf).ctxStoredVersion = (r.BeforeFlush buf).2.header.ctxVersion ∧
        (r.BeforeFlush buf).2.header.ctxVersion = r.ctxDirtyVersion) := by
  induction bufs with
  | nil =>
    intro r _ _
    exact ⟨List.Chain.nil, fun s hs => absurd hs (List.not_mem_nil s), fun _ => ⟨rfl, rfl⟩⟩
  | cons buf rest ih =>
    intro r hv hw
    unfold RebuildCtx.versionInv at hv
    rw [List.length_cons] at hw
    have hinc : inc64 r.ctxDirtyVersion = r.ctxDirtyVersion + 1 := inc64_of_lt _ (by omega)
    obtain ⟨e1, e2, _, e4, e5⟩ := RebuildCtx.flushCycle_versions r buf
    have hv' : (r.flushCycle buf).versionInv := by
      unfold RebuildCtx.versionInv
      rw [e4, e5, hinc]
      exact Nat.le_succ _
    obtain ⟨ic, iv, _⟩ := ih (r.flushCycle buf) hv' (by rw [e5, hinc]; omega)
    refine ⟨?_, ?_, fun _ => ⟨rfl, rfl⟩⟩
    · unfold RebuildCtx.flushTrace
      refine List.Chain.cons (Nat.le_of_eq e1.symm) (List.Chain.cons ?_ ic)
      rw [e1, e4]
      exact hv
    · intro s hs
      unfold RebuildCtx.flushTrace at hs
      rcases List.mem_cons.mp hs with h | h
      · rw [h]
        unfold RebuildCtx.versionInv
        rw [e1, e2, hinc]
        exact Nat.le_succ_of_le hv
      · rcases List.mem_cons.mp h with h | h
        · rw [h]
          exact hv'
        · exact iv s h

/-- C21 on two flush cycles from a fresh context: the stored and dirty
versions after the four steps. -/
theorem flush_cycles_version_monotone_witness :
    (RebuildCtx.fresh.flushTrace [RebuildCtxBuffer.zeros 4, RebuildCtxBuffer.zeros 4]).map
      (fun r => (r.ctxStoredVersion, r.ctxDirtyVersion)) = [(0, 1), (0, 1), (0, 2), (1, 2)] ∧
    List.Chain (fun a b : RebuildCtx => a.ctxStoredVersion ≤ b.ctxStoredVersion)
      RebuildCtx.fresh
      (RebuildCtx.fresh.flushTrace [RebuildCtxBuffer.zeros 4, RebuildCtxBuffer.zeros 4]) ∧
    (∀ s ∈ RebuildCtx.fresh.flushTrace [RebuildCtxBuffer.zeros 4, RebuildCtxBuffer.zeros 4],
      s.versionInv) :=
  have h := flush_cycles_version_monotone [RebuildCtxBuffer.zeros 4, RebuildCtxBuffer.zeros 4]
    RebuildCtx.fresh (by decide) (by decide)
  ⟨by decide, h.1, h.2.1⟩

/-- C22: `AfterLoad` restores the versions from the loaded header. Whenever
it returns, the stored version is the version of the header, the dirty version
is that version plus 1 (in 64 bits, so plain plus 1 short of the wrap), and
the target count is the header's `numTargetSegments`; the header is left as
loaded. It returns whenever its loop comes to its end and its assertion holds,
in particular on every header without targets. -/
theorem AfterLoad_restores_versions (info : AllocatorAddressInfo) (r : RebuildCtx)
    (buf : RebuildCtxBuffer) :
    (∀ r', r.AfterLoad info buf = some r' →
      r'.ctxStoredVersion = r.ctxHeader.ctxVersion ∧
      r'.GetStoredVersion = r.ctxHeader.ctxVersion ∧
      r'.ctxDirtyVersion = inc64 r.ctxHeader.ctxVersion ∧
      (r.ctxHeader.ctxVersion + 1 < 18446744073709551616 →
        r'.ctxDirtyVersion = r.ctxHeader.ctxVersion + 1) ∧
      r'.GetRebuildTargetSegmentCount = r.ctxHeader.numTargetSegments ∧
      r'.ctxHeader = r.ctxHeader) ∧
    (∀ s, afterLoadLoop info.isUT buf.segmentList r.ctxHeader.numTargetSegments 0
          r.targetSegmentList = some s →
      (r.ctxHeader.numTargetSegments ≠ 0 → r.ctxHeader.numTargetSegments = s.card) →
      ∃ r', r.AfterLoad info buf = some r' ∧ r'.targetSegmentList = s) ∧
    (r.ctxHeader.numTargetSegments = 0 → ∃ r', r.AfterLoad info buf = some r') := by
  have hret : ∀ s, afterLoadLoop info.isUT buf.segmentList r.ctxHeader.numTargetSegments 0
        r.targetSegmentList = some s →
      (r.ctxHeader.numTargetSegments ≠ 0 → r.ctxHeader.numTargetSegments = s.card) →
      ∃ r', r.AfterLoad info buf = some r' ∧ r'.targetSegmentList = s := by
    intro s hs hc
    unfold RebuildCtx.AfterLoad
    simp only [hs]
    by_cases hz : r.ctxHeader.numTargetSegments ≠ 0
    · rw [if_pos hz, if_pos (hc hz)]
      exact ⟨_, rfl, rfl⟩
    · rw [if_neg hz]
      exact ⟨_, rfl, rfl⟩
  refine ⟨?_, hret, ?_⟩
  · intro r' h
    obtain ⟨s, _, hr, _⟩ := RebuildCtx.AfterLoad_some info r r' buf h
    rw [hr]
    exact ⟨rfl, rfl, rfl, fun hlt => inc64_of_lt _ hlt, rfl, rfl⟩
  · intro hz
    have hloop : afterLoadLoop info.isUT buf.segmentList r.ctxHeader.numTargetSegments 0
        r.targetSegmentList = some r.targetSegmentList := by
      rw [hz]
      rfl
    obtain ⟨r', hr', _⟩ := hret _ hloop (fun hne => absurd hz hne)
    exact ⟨r', hr'⟩

/-- Loading the buffer of the second of two flushes into a fresh context
returns. -/
theorem load_exFlushedTwice_returns :
    (RebuildCtx.fresh.load AllocatorAddressInfo.ex RebuildCtx.exFlushedTwice.2).isSome = true := by
  decide

/-- C22 on the buffer of the second of two flushes, whose header carries
version 1 and no targets: after the load the stored version is 1, the dirty
version 2 and the count 0. -/
theorem AfterLoad_restores_versions_witness :
    ((RebuildCtx.fresh.load AllocatorAddressInfo.ex RebuildCtx.exFlushedTwice.2).get
      load_exFlushedTwice_returns).ctxStoredVersion = 1 ∧
    ((RebuildCtx.fresh.load AllocatorAddressInfo.ex RebuildCtx.exFlushedTwice.2).get
      load_exFlushedTwice_returns).ctxDirtyVersion = 2 ∧
    ((RebuildCtx.fresh.load AllocatorAddressInfo.ex RebuildCtx.exFlushedTwice.2).get
      load_exFlushedTwice_returns).GetRebuildTargetSegmentCount = 0 :=
  have h := (AfterLoad_restores_versions AllocatorAddressInfo.ex
    { RebuildCtx.fresh with ctxHeader := RebuildCtx.exFlushedTwice.2.header }
    RebuildCtx.exFlushedTwice.2).1
    ((RebuildCtx.fresh.load AllocatorAddressInfo.ex RebuildCtx.exFlushedTwice.2).get
      load_exFlushedTwice_returns)
    (Option.some_get load_exFlushedTwice_returns).symm
  ⟨h.1, h.2.2.2.1 (by decide), h.2.2.2.2.1⟩

/-- C23 as stated fails: a fresh rebuild context, whose signature is 0, loads
a buffer whose header carries the signature 1; `AfterLoad` returns, the targets
3 and 9 of the buffer are in the target set, and the versions are those of the
header, 7 and 8. -/
theorem AfterLoad_accepts_foreign_signature :
    RebuildCtxBuffer.exForeignSig.header.sig ≠ RebuildCtx.GetSignature 0 RebuildCtx.fresh ∧
    (RebuildCtx.fresh.load AllocatorAddressInfo.ex RebuildCtxBuffer.exForeignSig).map
      (fun r => (decide (r.targetSegmentList = {3, 9}), r.ctxStoredVersion, r.ctxDirtyVersion,
        r.GetRebuildTargetSegmentCount, r.NeedRebuildAgain))
      = some (true, 7, 8, 2, true) := by
  decide

/-- C23, amended: `AfterLoad` does not look at the signature. With any other
signature in the header it returns in the same cases, with the same target
set, versions, count and rebuild flag; the signature `SIG_REBUILD_CTX` is only
handed out by `GetSignature`. -/
theorem AfterLoad_ignores_signature (info : AllocatorAddressInfo) (r : RebuildCtx)
    (buf : RebuildCtxBuffer) (sig SIG_REBUILD_CTX : Nat) :
    (RebuildCtx.AfterLoad info { r with ctxHeader := { r.ctxHeader with sig := sig } } buf).map
        (fun x => (x.targetSegmentList, x.ctxStoredVersion, x.ctxDirtyVersion,
          x.targetSegmentCount, x.needContinue)) =
      (RebuildCtx.AfterLoad info r buf).map
        (fun x => (x.targetSegmentList, x.ctxStoredVersion, x.ctxDirtyVersion,
          x.targetSegmentCount, x.needContinue)) ∧
    (∀ r', RebuildCtx.AfterLoad info { r with ctxHeader := { r.ctxHeader with sig := sig } } buf
        = some r' → r'.ctxHeader.sig = sig) ∧
    RebuildCtx.GetSignature SIG_REBUILD_CTX r = SIG_REBUILD_CTX := by
  refine ⟨?_, ?_, rfl⟩
  · unfold RebuildCtx.AfterLoad
    simp only
    cases afterLoadLoop info.isUT buf.segmentList r.ctxHeader.numTargetSegments 0
        r.targetSegmentList with
    | none => rfl
    | some s =>
      simp only
      split_ifs <;> rfl
  · intro r' h
    obtain ⟨s, _, hr, _⟩ := RebuildCtx.AfterLoad_some info _ r' buf h
    rw [hr]

/-- The amended C23 on the buffer with the foreign signature: the load gives
the same with signature 1 as with the signature 0 of the context. -/
theorem AfterLoad_ignores_signature_witness :
    (RebuildCtx.fresh.load AllocatorAddressInfo.ex RebuildCtxBuffer.exForeignSig).map
        (fun x => (x.targetSegmentList, x.ctxStoredVersion, x.ctxDirtyVersion,
          x.targetSegmentCount, x.needContinue)) =
      (RebuildCtx.AfterLoad AllocatorAddressInfo.ex
        { RebuildCtx.fresh with
          ctxHeader := { sig := 0, ctxVersion := 7, numTargetSegments := 2 } }
        RebuildCtxBuffer.exForeignSig).map
        (fun x => (x.targetSegmentList, x.ctxStoredVersion, x.ctxDirtyVersion,
          x.targetSegmentCount, x.needContinue)) :=
  (AfterLoad_ignores_signature AllocatorAddressInfo.ex
    { RebuildCtx.fresh with ctxHeader := { sig := 0, ctxVersion := 7, numTargetSegments := 2 } }
    RebuildCtxBuffer.exForeignSig 1 0).1

theorem ascendingAux_spec :
    ∀ (n : Nat) (S : Finset SegmentId), S.card = n →
      (ascendingAux n S).length = n ∧
      (∀ x, x ∈ ascendingAux n S ↔ x ∈ S) ∧
      (ascendingAux n S).Pairwise (· < ·) := by
  intro n
  induction n with
  | zero =>
    intro S hS
    rw [Finset.card_eq_zero.mp hS]
    simp [ascendingAux]
  | succ n ih =>
    intro S hS
    have hne : S.Nonempty := Finset.card_pos.mp (by omega)
    have hm : S.min' hne ∈ S := Finset.min'_mem S hne
    have hasc : ascendingAux (n + 1) S = S.min' hne :: ascendingAux n (S.erase (S.min' hne)) := by
      rw [ascendingAux, dif_pos hne]
    have hcard : (S.erase (S.min' hne)).card = n := by
      rw [Finset.card_erase_of_mem hm, hS]
      rfl
    obtain ⟨il, im, ip⟩ := ih (S.erase (S.min' hne)) hcard
    rw [hasc]
    refine ⟨by rw [List.length_cons, il], ?_, ?_⟩
    · intro x
      rw [List.mem_cons, im, Finset.mem_erase]
      constructor
      · rintro (h | h)
        · rw [h]; exact hm
        · exact h.2
      · intro h
        by_cases hx : x = S.min' hne
        · exact Or.inl hx
        · exact Or.inr ⟨hx, h⟩
    · rw [List.pairwise_cons]
      refine ⟨?_, ip⟩
      intro y hy
      have hy' := (im y).mp hy
      have hyS : y ∈ S := (Finset.mem_erase.mp hy').2
      have hne' : y ≠ S.min' hne := (Finset.mem_erase.mp hy').1
      exact lt_of_le_of_ne (Finset.min'_le S y hyS) (fun e => hne' e.symm)

/-- The in-order traversal lists the set in strictly ascending order: it is
the sorted list of the set. -/
theorem ascending_spec (S : Finset SegmentId) :
    (ascending S).length = S.card ∧
    (∀ x, x ∈ ascending S ↔ x ∈ S) ∧
    (ascending S).Pairwise (· < ·) ∧
    ascending S = S.sort (· ≤ ·) := by
  obtain ⟨hl, hm, hp⟩ := ascendingAux_spec S.card S rfl
  refine ⟨hl, hm, hp, ?_⟩
  have hs : (ascending S).Sorted (· ≤ ·) := hp.imp (fun h => Nat.le_of_lt h)
  have hnd : (ascending S).Nodup := hp.imp (fun h => Nat.ne_of_lt h)
  refine List.eq_of_perm_of_sorted ?_ hs (Finset.sort_sorted _ S)
  rw [List.perm_ext_iff_of_nodup hnd (Finset.sort_nodup _ S)]
  intro x
  rw [Finset.mem_sort]
  exact hm x

/-- C24: `BeforeFlush(buf)` serializes the header and the targets. For targets
that are segment ids below `UNMAP_SEGMENT`: the header in the buffer carries
the dirty version from before the call and `numTargetSegments` equal to the
number of targets; behind it come the targets, each once, in strictly
ascending order, and what the buffer held behind them stays; the dirty version
goes up by exactly 1 (in 64 bits); the target set is unchanged. -/
theorem BeforeFlush_serializes (r : RebuildCtx) (buf : RebuildCtxBuffer)
    (hids : ∀ x ∈ r.targetSegmentList, x < UNMAP_SEGMENT) :
    (r.BeforeFlush buf).2.header.ctxVersion = r.ctxDirtyVersion ∧
    (r.BeforeFlush buf).2.header.numTargetSegments = r.targetSegmentList.card ∧
    (r.BeforeFlush buf).2.header.sig = r.ctxHeader.sig ∧
    (r.BeforeFlush buf).2.segmentList.take r.targetSegmentList.card =
      ascending r.targetSegmentList ∧
    (r.BeforeFlush buf).2.segmentList.drop r.targetSegmentList.card =
      buf.segmentList.drop r.targetSegmentList.card ∧
    (ascending r.targetSegmentList).Pairwise (· < ·) ∧
    (∀ x, x ∈ ascending r.targetSegmentList ↔ x ∈ r.targetSegmentList) ∧
    (ascending r.targetSegmentList).length = r.targetSegmentList.card ∧
    ascending r.targetSegmentList = r.targetSegmentList.sort (· ≤ ·) ∧
    (r.BeforeFlush buf).1.ctxDirtyVersion = inc64 r.ctxDirtyVersion ∧
    (r.ctxDirtyVersion + 1 < 18446744073709551616 →
      (r.BeforeFlush buf).1.ctxDirtyVersion = r.ctxDirtyVersion + 1) ∧
    (r.BeforeFlush buf).1.targetSegmentList = r.targetSegmentList ∧
    (r.BeforeFlush buf).1.ctxHeader = (r.BeforeFlush buf).2.header := by
  obtain ⟨hl, hm, hp, hs⟩ := ascending_spec r.targetSegmentList
  refine ⟨rfl, toUInt32_of_lt _ (card_lt_of_ids _ hids), rfl, ?_, ?_, hp, hm, hl, hs, rfl,
    fun hlt => inc64_of_lt _ hlt, rfl, rfl⟩
  · show (ascending r.targetSegmentList ++ _).take r.targetSegmentList.card = _
    exact List.take_left' hl
  · show (ascending r.targetSegmentList ++ _).drop r.targetSegmentList.card = _
    exact List.drop_left' hl

/-- C24 on the targets `{3, 9, 17}`, added as 9, 17, 3, and a zeroed buffer of
20 ids: version 0, three targets, written as 3, 9, 17. -/
theorem BeforeFlush_serializes_witness :
    (RebuildCtx.ex3917.BeforeFlush (RebuildCtxBuffer.zeros 20)).2.header.ctxVersion = 0 ∧
    (RebuildCtx.ex3917.BeforeFlush (RebuildCtxBuffer.zeros 20)).2.header.numTargetSegments = 3 ∧
    (RebuildCtx.ex3917.BeforeFlush (RebuildCtxBuffer.zeros 20)).2.segmentList.take 3
      = [3, 9, 17] ∧
    (RebuildCtx.ex3917.BeforeFlush (RebuildCtxBuffer.zeros 20)).1.ctxDirtyVersion = 1 :=
  have h := BeforeFlush_serializes RebuildCtx.ex3917 (RebuildCtxBuffer.zeros 20) (by decide)
  ⟨h.1, h.2.1.trans (by decide), h.2.2.2.1.trans (by decide),
   h.2.2.2.2.2.2.2.2.2.2.1 (by decide)⟩

/-- C29 as stated fails: with `2^30` user-area segments, a header of 24 bytes
and the single target 3, which is below `numUserAreaSegments`, `BeforeFlush`
writes 28 bytes, while `GetSectionSize(RC_REBUILD_SEGMENT_LIST)`, the product
`2^30 * 4` returned as `int`, is 0 and the two section sizes add up to 24: the
bytes written exceed the sum, and the sum is not
`sizeof(RebuildCtxHeader) + numUserAreaSegments * sizeof(SegmentId)`. With
`2^29` segments the section size returned is `-2147483648`. -/
theorem BeforeFlush_exceeds_wrapped_section_size :
    (∀ x ∈ RebuildCtx.ex3.targetSegmentList, x < AllocatorAddressInfo.exHuge.numUserAreaSegments) ∧
    RebuildCtx.ex3.bytesWritten 24 = 28 ∧
    RebuildCtx.ex3.GetSectionSize 24 AllocatorAddressInfo.exHuge
      RebuildCtxSection.RC_REBUILD_SEGMENT_LIST = 0 ∧
    RebuildCtx.ex3.GetSectionSize 24 AllocatorAddressInfo.exHuge RebuildCtxSection.RC_HEADER +
      RebuildCtx.ex3.GetSectionSize 24 AllocatorAddressInfo.exHuge
        RebuildCtxSection.RC_REBUILD_SEGMENT_LIST = 24 ∧
    ¬ ((RebuildCtx.ex3.bytesWritten 24 : Int) ≤
      RebuildCtx.ex3.GetSectionSize 24 AllocatorAddressInfo.exHuge RebuildCtxSection.RC_HEADER +
        RebuildCtx.ex3.GetSectionSize 24 AllocatorAddressInfo.exHuge
          RebuildCtxSection.RC_REBUILD_SEGMENT_LIST) ∧
    RebuildCtx.ex3.GetSectionSize 24 AllocatorAddressInfo.exHuge RebuildCtxSection.RC_HEADER +
      RebuildCtx.ex3.GetSectionSize 24 AllocatorAddressInfo.exHuge
        RebuildCtxSection.RC_REBUILD_SEGMENT_LIST ≠
      ((24 + AllocatorAddressInfo.exHuge.numUserAreaSegments * sizeofSegmentId : Nat) : Int) ∧
    RebuildCtx.ex3.GetSectionSize 24 AllocatorAddressInfo.exHalfHuge
      RebuildCtxSection.RC_REBUILD_SEGMENT_LIST = -2147483648 := by
  decide

/-- C29, amended: `BeforeFlush` stays inside the declared sections. When every
target is below `numUserAreaSegments`, the number of segment ids written behind
the header is at most `numUserAreaSegments`, what the buffer holds from index
`numUserAreaSegments` on is not touched, and the bytes written are at most
`sizeof(RebuildCtxHeader) + numUserAreaSegments * sizeof(SegmentId)`; when
`sizeof(RebuildCtxHeader)` and `numUserAreaSegments * sizeof(SegmentId)` are
below `2^31`, the range of the `int` that `GetSectionSize` returns, this bound
is `GetSectionSize(RC_HEADER) + GetSectionSize(RC_REBUILD_SEGMENT_LIST)`. -/
theorem BeforeFlush_within_sections (sizeofHeader : Nat) (info : AllocatorAddressInfo)
    (r : RebuildCtx) (buf : RebuildCtxBuffer)
    (hids : ∀ x ∈ r.targetSegmentList, x < info.numUserAreaSegments) :
    (ascending r.targetSegmentList).length ≤ info.numUserAreaSegments ∧
    (r.BeforeFlush buf).2.segmentList.drop info.numUserAreaSegments =
      buf.segmentList.drop info.numUserAreaSegments ∧
    r.bytesWritten sizeofHeader ≤
      sizeofHeader + info.numUserAreaSegments * sizeofSegmentId ∧
    (sizeofHeader < 2147483648 →
      info.numUserAreaSegments * sizeofSegmentId < 2147483648 →
      r.GetSectionSize sizeofHeader info RebuildCtxSection.RC_HEADER +
          r.GetSectionSize sizeofHeader info RebuildCtxSection.RC_REBUILD_SEGMENT_LIST =
        ((sizeofHeader + info.numUserAreaSegments * sizeofSegmentId : Nat) : Int) ∧
      (r.bytesWritten sizeofHeader : Int) ≤
        r.GetSectionSize sizeofHeader info RebuildCtxSection.RC_HEADER +
          r.GetSectionSize sizeofHeader info RebuildCtxSection.RC_REBUILD_SEGMENT_LIST) := by
  obtain ⟨hlen, _, _, _⟩ := ascending_spec r.targetSegmentList
  have hsub : r.targetSegmentList ⊆ Finset.range info.numUserAreaSegments :=
    fun x hx => Finset.mem_range.mpr (hids x hx)
  have hcard : r.targetSegmentList.card ≤ info.numUserAreaSegments := by
    have := Finset.card_le_card hsub
    rw [Finset.card_range] at this
    exact this
  have hbytes : r.bytesWritten sizeofHeader ≤
      sizeofHeader + info.numUserAreaSegments * sizeofSegmentId := by
    unfold RebuildCtx.bytesWritten
    rw [hlen]
    exact Nat.add_le_add_left (Nat.mul_le_mul_right _ hcard) _
  refine ⟨by rw [hlen]; exact hcard, ?_, hbytes, ?_⟩
  · show (ascending r.targetSegmentList ++ _).drop info.numUserAreaSegments = _
    rw [List.drop_append_eq_append_drop, List.drop_drop, hlen,
      List.drop_of_length_le (by rw [hlen]; exact hcard), List.nil_append]
    congr 1
    omega
  · intro hh hl
    have hsum : r.GetSectionSize sizeofHeader info RebuildCtxSection.RC_HEADER +
          r.GetSectionSize sizeofHeader info RebuildCtxSection.RC_REBUILD_SEGMENT_LIST =
        ((sizeofHeader + info.numUserAreaSegments * sizeofSegmentId : Nat) : Int) := by
      unfold RebuildCtx.GetSectionSize
      rw [toInt32_of_lt _ hh, toInt32_of_lt _ hl, Int.ofNat_add]
    refine ⟨hsum, ?_⟩
    rw [hsum]
    exact Int.ofNat_le.mpr hbytes

/-- The amended C29 on the targets `{3, 9, 17}` with 20 user-area segments and a header of
24 bytes: three ids, 36 bytes written, at most the 104 bytes of the sections. -/
theorem BeforeFlush_within_sections_witness :
    (ascending RebuildCtx.ex3917.targetSegmentList).length = 3 ∧
    RebuildCtx.ex3917.bytesWritten 24 = 36 ∧
    RebuildCtx.ex3917.GetSectionSize 24
        { stripesPerSegment := 8, numUserAreaSegments := 20, isUT := true }
        RebuildCtxSection.RC_HEADER +
      RebuildCtx.ex3917.GetSectionSize 24
        { stripesPerSegment := 8, numUserAreaSegments := 20, isUT := true }
        RebuildCtxSection.RC_REBUILD_SEGMENT_LIST = 104 ∧
    (RebuildCtx.ex3917.bytesWritten 24 : Int) ≤
      RebuildCtx.ex3917.GetSectionSize 24
          { stripesPerSegment := 8, numUserAreaSegments := 20, isUT := true }
          RebuildCtxSection.RC_HEADER +
        RebuildCtx.ex3917.GetSectionSize 24
          { stripesPerSegment := 8, numUserAreaSegments := 20, isUT := true }
          RebuildCtxSection.RC_REBUILD_SEGMENT_LIST :=
  have h := BeforeFlush_within_sections 24
    { stripesPerSegment := 8, numUserAreaSegments := 20, isUT := true }
    RebuildCtx.ex3917 (RebuildCtxBuffer.zeros 20) (by decide)
  ⟨by decide, by decide, (h.2.2.2 (by decide) (by decide)).1,
   (h.2.2.2 (by decide) (by decide)).2⟩

/-! ## Rebuild context: the cached target count -/

theorem RebuildCtx.erase_count (r : RebuildCtx) (seg : SegmentId)
    (hc : r.targetSegmentCount = r.targetSegmentList.card)
    (hids : ∀ x ∈ r.targetSegmentList, x < UNMAP_SEGMENT) :
    (r.EraseRebuildTargetSegment seg).targetSegmentCount =
      (r.EraseRebuildTargetSegment seg).targetSegmentList.card ∧
    (∀ x ∈ (r.EraseRebuildTargetSegment seg).targetSegmentList, x < UNMAP_SEGMENT) ∧
    (seg ∈ r.targetSegmentList → r.targetSegmentCount ≠ 0 ∧
      (r.EraseRebuildTargetSegment seg).targetSegmentCount + 1 = r.targetSegmentCount) := by
  by_cases hm : seg ∈ r.targetSegmentList
  · have hpos : 0 < r.targetSegmentList.card := Finset.card_pos.mpr ⟨seg, hm⟩
    have hne : r.targetSegmentCount ≠ 0 := by omega
    have hd : dec32 r.targetSegmentCount = r.targetSegmentCount - 1 := by
      unfold dec32
      rw [if_neg hne]
    rw [RebuildCtx.erase_of_mem r seg hm]
    refine ⟨?_, ?_, fun _ => ⟨hne, ?_⟩⟩
    · show dec32 r.targetSegmentCount = (r.targetSegmentList.erase seg).card
      rw [hd, hc, Finset.card_erase_of_mem hm]
    · intro x hx
      exact hids x (Finset.mem_of_mem_erase hx)
    · show dec32 r.targetSegmentCount + 1 = r.targetSegmentCount
      rw [hd]
      omega
  · have he : r.EraseRebuildTargetSegment seg = r := by
      unfold RebuildCtx.EraseRebuildTargetSegment
      rw [if_neg hm]
    rw [he]
    exact ⟨hc, hids, fun h => absurd h hm⟩

theorem RebuildCtx.apply_count (eid : Int) (r : RebuildCtx) (op : RebuildOp)
    (hop : op.addsSegmentId)
    (hc : r.targetSegmentCount = r.targetSegmentList.card)
    (hids : ∀ x ∈ r.targetSegmentList, x < UNMAP_SEGMENT) :
    (r.apply eid op).targetSegmentCount = (r.apply eid op).targetSegmentList.card ∧
    (∀ x ∈ (r.apply eid op).targetSegmentList, x < UNMAP_SEGMENT) := by
  cases op with
  | add segmentId =>
    have hids' : ∀ x ∈ insert segmentId r.targetSegmentList, x < UNMAP_SEGMENT := by
      intro x hx
      rcases Finset.mem_insert.mp hx with h | h
      · rw [h]
        exact hop
      · exact hids x h
    exact ⟨toUInt32_of_lt _ (card_lt_of_ids _ hids'), hids'⟩
  | get =>
    show r.GetRebuildTargetSegment.2.targetSegmentCount =
        r.GetRebuildTargetSegment.2.targetSegmentList.card ∧
      ∀ x ∈ r.GetRebuildTargetSegment.2.targetSegmentList, x < UNMAP_SEGMENT
    by_cases he : r.targetSegmentList = ∅
    · rw [RebuildCtx.get_of_empty r he]
      exact ⟨hc, hids⟩
    · have hne : r.targetSegmentList.Nonempty := Finset.nonempty_iff_ne_empty.mpr he
      rw [RebuildCtx.get_of_nonempty r hne]
      exact ⟨hc, hids⟩
  | release segmentId =>
    show (r.ReleaseRebuildSegment segmentId).2.targetSegmentCount =
        (r.ReleaseRebuildSegment segmentId).2.targetSegmentList.card ∧
      ∀ x ∈ (r.ReleaseRebuildSegment segmentId).2.targetSegmentList, x < UNMAP_SEGMENT
    by_cases hm : segmentId ∈ r.targetSegmentList
    · rw [RebuildCtx.release_of_mem r segmentId hm, ← RebuildCtx.erase_of_mem r segmentId hm]
      exact ⟨(RebuildCtx.erase_count r segmentId hc hids).1,
        (RebuildCtx.erase_count r segmentId hc hids).2.1⟩
    · rw [RebuildCtx.release_of_not_mem r segmentId hm]
      exact ⟨hc, hids⟩
  | free segId =>
    show (r.FreeSegmentInRebuildTarget segId).2.targetSegmentCount =
        (r.FreeSegmentInRebuildTarget segId).2.targetSegmentList.card ∧
      ∀ x ∈ (r.FreeSegmentInRebuildTarget segId).2.targetSegmentList, x < UNMAP_SEGMENT
    unfold RebuildCtx.FreeSegmentInRebuildTarget
    split
    · exact ⟨hc, hids⟩
    · split
      · exact ⟨hc, hids⟩
      · split
        · exact ⟨hc, hids⟩
        · exact ⟨(RebuildCtx.erase_count r segId hc hids).1,
            (RebuildCtx.erase_count r segId hc hids).2.1⟩
  | stop =>
    show (r.StopRebuilding eid).2.targetSegmentCount =
        (r.StopRebuilding eid).2.targetSegmentList.card ∧
      ∀ x ∈ (r.StopRebuilding eid).2.targetSegmentList, x < UNMAP_SEGMENT
    unfold RebuildCtx.StopRebuilding
    split
    · exact ⟨hc, hids⟩
    · exact ⟨rfl, fun x hx => absurd hx (Finset.not_mem_empty x)⟩
  | clear =>
    show r.ClearRebuildTargetList.targetSegmentCount =
        r.ClearRebuildTargetList.targetSegmentList.card ∧
      ∀ x ∈ r.ClearRebuildTargetList.targetSegmentList, x < UNMAP_SEGMENT
    unfold RebuildCtx.ClearRebuildTargetList
    split
    · exact ⟨rfl, fun x hx => absurd hx (Finset.not_mem_empty x)⟩
    · exact ⟨hc, hids⟩
  | beforeFlush buf =>
    exact ⟨toUInt32_of_lt _ (card_lt_of_ids _ hids), hids⟩

theorem RebuildCtx.run_count (eid : Int) (ops : List RebuildOp) :
    ∀ r : RebuildCtx, (∀ op ∈ ops, op.addsSegmentId) →
      r.targetSegmentCount = r.targetSegmentList.card →
      (∀ x ∈ r.targetSegmentList, x < UNMAP_SEGMENT) →
      (RebuildCtx.run eid r ops).targetSegmentCount =
        (RebuildCtx.run eid r ops).targetSegmentList.card ∧
      (∀ x ∈ (RebuildCtx.run eid r ops).targetSegmentList, x < UNMAP_SEGMENT) := by
  induction ops with
  | nil =>
    intro r _ hc hids
    exact ⟨hc, hids⟩
  | cons op rest ih =>
    intro r hops hc hids
    have h1 := RebuildCtx.apply_count eid r op (hops op (List.mem_cons_self _ _)) hc hids
    exact ih (r.apply eid op) (fun o ho => hops o (List.mem_cons_of_mem _ ho)) h1.1 h1.2

/-- C28: the cached target count never drifts from the set. From a freshly
constructed `RebuildCtx`, after every sequence of `AddRebuildTargetSegment` (of
segment ids below `UNMAP_SEGMENT`), `GetRebuildTargetSegment`,
`ReleaseRebuildSegment`, `FreeSegmentInRebuildTarget`, `StopRebuilding`,
`ClearRebuildTargetList` and `BeforeFlush`, `GetRebuildTargetSegmentCount()` is
the cardinality of the target set; and an `EraseRebuildTargetSegment` of a
target then finds a count that is not 0 and takes exactly 1 from it: the
unsigned decrement does not underflow. -/
theorem target_count_never_drifts (SIG_REBUILD_CTX : Nat) (header : Option RebuildCtxHeader)
    (eidSetEmpty : Int) (ops : List RebuildOp) (hops : ∀ op ∈ ops, op.addsSegmentId) :
    (RebuildCtx.run eidSetEmpty (RebuildCtx.new SIG_REBUILD_CTX header) ops).GetRebuildTargetSegmentCount
      = (RebuildCtx.run eidSetEmpty (RebuildCtx.new SIG_REBUILD_CTX header) ops).targetSegmentList.card ∧
    (∀ seg ∈ (RebuildCtx.run eidSetEmpty (RebuildCtx.new SIG_REBUILD_CTX header) ops).targetSegmentList,
      (RebuildCtx.run eidSetEmpty (RebuildCtx.new SIG_REBUILD_CTX header)
        ops).GetRebuildTargetSegmentCount ≠ 0 ∧
      ((RebuildCtx.run eidSetEmpty (RebuildCtx.new SIG_REBUILD_CTX header)
        ops).EraseRebuildTargetSegment seg).GetRebuildTargetSegmentCount + 1 =
        (RebuildCtx.run eidSetEmpty (RebuildCtx.new SIG_REBUILD_CTX header)
          ops).GetRebuildTargetSegmentCount) := by
  have h := RebuildCtx.run_count eidSetEmpty ops (RebuildCtx.new SIG_REBUILD_CTX header) hops rfl
    (fun x hx => absurd hx (Finset.not_mem_empty x))
  exact ⟨h.1, fun seg hseg => (RebuildCtx.erase_count _ seg h.1 h.2).2.2 hseg⟩

/-- C28 on a sequence through every operation, and on its first nine steps,
after which the targets are 5 and 9 and the count is 2. -/
theorem target_count_never_drifts_witness :
    (∀ op ∈ RebuildOp.exRun, op.addsSegmentId) ∧
    (RebuildCtx.run 5001 (RebuildCtx.new 0 none) RebuildOp.exRun).GetRebuildTargetSegmentCount
      = (RebuildCtx.run 5001 (RebuildCtx.new 0 none) RebuildOp.exRun).targetSegmentList.card ∧
    (RebuildCtx.run 5001 (RebuildCtx.new 0 none)
      (RebuildOp.exRun.take 9)).GetRebuildTargetSegmentCount = 2 :=
  ⟨by decide, (target_count_never_drifts 0 none 5001 RebuildOp.exRun (by decide)).1,
   (target_count_never_drifts 0 none 5001 (RebuildOp.exRun.take 9) (by decide)).1.trans
     (by decide)⟩


/-! ## Context manager: gauges and the flush after a freed segment -/

theorem published_append (id : TelemetryId) (l₁ l₂ : List Event) :
    published id (l₁ ++ l₂) = published id l₁ ++ published id l₂ := by
  induction l₁ with
  | nil => rfl
  | cons e rest ih =>
    cases e with
    | PublishData i gauge =>
      by_cases h : i = id
      · simp [published, h, ih]
      · simp [published, h, ih]
    | SetGcFreeSegment n a => simpa [published] using ih
    | FlushRebuildContext => simpa [published] using ih
    | NotifySegmentFreed s => simpa [published] using ih

theorem ContextManager.GetCurrentGcMode_events (ops : SegmentCtxOps σ) (cm : ContextManager σ) :
    (ContextManager.GetCurrentGcMode ops cm).2.events =
      cm.events ++
        [Event.SetGcFreeSegment (toInt32 (ops.GetNumOfFreeSegment cm.segmentCtx).1) cm.arrayId] ++
        (if (ContextManager.GetCurrentGcMode ops cm).1 ≠ cm.curGcMode then
          [Event.PublishData TelemetryId.TEL30003_ALCT_GCMODE
            (ContextManager.GetCurrentGcMode ops cm).1.toNat]
         else []) ∧
    (ContextManager.GetCurrentGcMode ops cm).2.prevGcMode = cm.curGcMode ∧
    (ContextManager.GetCurrentGcMode ops cm).2.arrayId = cm.arrayId ∧
    (ContextManager.GetCurrentGcMode ops cm).2.segmentCtx =
      (ops.GetNumOfFreeSegment cm.segmentCtx).2 := by
  refine ⟨?_, rfl, rfl, rfl⟩
  unfold ContextManager.GetCurrentGcMode
  simp only
  by_cases h : cm.curGcMode =
      cm.gcCtx.GetCurrentGcMode (toInt32 (ops.GetNumOfFreeSegment cm.segmentCtx).1)
  · rw [if_neg (not_not.mpr h), if_neg (not_not.mpr h.symm), List.append_nil]
  · rw [if_pos h, if_pos (fun e => h e.symm)]

/-- C25: `ContextManager::GetCurrentGcMode` caches the previous mode and
publishes the GC-mode gauge only on a transition. After a call `prevGcMode` is
the mode cached before it and `curGcMode` is the returned mode; the call
reports the free count to the QoS manager and then publishes the returned mode
under the GC-mode gauge exactly when that mode differs from the mode cached
before, and publishes nothing else; a second call right after, to which the
segment context reports the same free count, returns the same mode and
publishes nothing. -/
theorem GetCurrentGcMode_publishes_on_transition (ops : SegmentCtxOps σ)
    (cm : ContextManager σ) :
    (ContextManager.GetCurrentGcMode ops cm).2.prevGcMode = cm.curGcMode ∧
    (ContextManager.GetCurrentGcMode ops cm).2.curGcMode =
      (ContextManager.GetCurrentGcMode ops cm).1 ∧
    (ContextManager.GetCurrentGcMode ops cm).2.events =
      cm.events ++
        [Event.SetGcFreeSegment (toInt32 (ops.GetNumOfFreeSegment cm.segmentCtx).1) cm.arrayId] ++
        (if (ContextManager.GetCurrentGcMode ops cm).1 ≠ cm.curGcMode then
          [Event.PublishData TelemetryId.TEL30003_ALCT_GCMODE
            (ContextManager.GetCurrentGcMode ops cm).1.toNat]
         else []) ∧
    published TelemetryId.TEL30003_ALCT_GCMODE (ContextManager.GetCurrentGcMode ops cm).2.events =
      published TelemetryId.TEL30003_ALCT_GCMODE cm.events ++
        (if (ContextManager.GetCurrentGcMode ops cm).1 ≠ cm.curGcMode then
          [(ContextManager.GetCurrentGcMode ops cm).1.toNat]
         else []) ∧
    (∀ id, id ≠ TelemetryId.TEL30003_ALCT_GCMODE →
      published id (ContextManager.GetCurrentGcMode ops cm).2.events =
        published id cm.events) ∧
    ((ops.GetNumOfFreeSegment (ContextManager.GetCurrentGcMode ops cm).2.segmentCtx).1 =
        (ops.GetNumOfFreeSegment cm.segmentCtx).1 →
      (ContextManager.GetCurrentGcMode ops (ContextManager.GetCurrentGcMode ops cm).2).1 =
        (ContextManager.GetCurrentGcMode ops cm).1 ∧
      ∀ id, published id
          (ContextManager.GetCurrentGcMode ops (ContextManager.GetCurrentGcMode ops cm).2).2.events =
        published id (ContextManager.GetCurrentGcMode ops cm).2.events) := by
  have hpub : ∀ (c : ContextManager σ) (id : TelemetryId),
      published id (ContextManager.GetCurrentGcMode ops c).2.events =
        published id c.events ++
          (if (ContextManager.GetCurrentGcMode ops c).1 ≠ c.curGcMode ∧
              id = TelemetryId.TEL30003_ALCT_GCMODE then
            [(ContextManager.GetCurrentGcMode ops c).1.toNat]
           else []) := by
    intro c id
    rw [(ContextManager.GetCurrentGcMode_events ops c).1, published_append, published_append]
    by_cases h : (ContextManager.GetCurrentGcMode ops c).1 ≠ c.curGcMode
    · by_cases hid : id = TelemetryId.TEL30003_ALCT_GCMODE
      · rw [if_pos h, if_pos ⟨h, hid⟩, hid]
        simp [published]
      · rw [if_pos h, if_neg (fun hh => hid hh.2)]
        have hid' : ¬ TelemetryId.TEL30003_ALCT_GCMODE = id := fun e => hid e.symm
        simp [published, hid']
    · rw [if_neg h, if_neg (fun hh => h hh.1)]
      simp [published]
  have hf := ContextManager.GetCurrentGcMode_fields ops cm
  refine ⟨(ContextManager.GetCurrentGcMode_events ops cm).2.1, hf.2.2.2.2.1,
    (ContextManager.GetCurrentGcMode_events ops cm).1, ?_, ?_, ?_⟩
  · rw [hpub cm]
    by_cases h : (ContextManager.GetCurrentGcMode ops cm).1 ≠ cm.curGcMode
    · rw [if_pos ⟨h, rfl⟩, if_pos h]
    · rw [if_neg (fun hh => h hh.1), if_neg h]
  · intro id hid
    rw [hpub cm, if_neg (fun hh => hid hh.2), List.append_nil]
  · intro hsame
    have hf2 := ContextManager.GetCurrentGcMode_fields ops (ContextManager.GetCurrentGcMode ops cm).2
    have hmode : (ContextManager.GetCurrentGcMode ops (ContextManager.GetCurrentGcMode ops cm).2).1 =
        (ContextManager.GetCurrentGcMode ops cm).1 := by
      rw [hf2.2.2.2.2.2, hsame, hf.2.2.2.1, ← hf.2.2.2.2.2]
    refine ⟨hmode, fun id => ?_⟩
    rw [hpub (ContextManager.GetCurrentGcMode ops cm).2, hf.2.2.2.2.1,
      if_neg (fun hh => hh.1 hmode), List.append_nil]

/-- C26 at the failing input: the segment context hands out segment 2 and then
reports 1 free segment. `AllocateFreeSegment` returns 2 and what it publishes
under the free-segment-count gauge is 2, the segment id, not the free count 1.
When the segment context hands out `UNMAP_SEGMENT`, the sentinel is returned
and nothing is published. -/
theorem AllocateFreeSegment_publishes_segment_id :
    (scriptedOps.GetNumOfFreeSegmentWoLock
      (scriptedOps.AllocateFreeSegment
        { ScriptedSegmentCtx.empty with
          allocateFreeSegment := [2], numOfFreeSegmentWoLock := [1] }).2).1 = 1 ∧
    (ContextManager.AllocateFreeSegment scriptedOps
      (ContextManager.scripted
        { ScriptedSegmentCtx.empty with
          allocateFreeSegment := [2], numOfFreeSegmentWoLock := [1] } true)).1 = 2 ∧
    published TelemetryId.TEL30000_ALCT_FREE_SEG_CNT
      (ContextManager.AllocateFreeSegment scriptedOps
        (ContextManager.scripted
          { ScriptedSegmentCtx.empty with
            allocateFreeSegment := [2], numOfFreeSegmentWoLock := [1] } true)).2.events = [2] ∧
    published TelemetryId.TEL30000_ALCT_FREE_SEG_CNT
      (ContextManager.AllocateFreeSegment scriptedOps
        (ContextManager.scripted
          { ScriptedSegmentCtx.empty with
            allocateFreeSegment := [2], numOfFreeSegmentWoLock := [1] } true)).2.events ≠ [1] ∧
    (ContextManager.AllocateFreeSegment scriptedOps
      (ContextManager.scripted
        { ScriptedSegmentCtx.empty with
          allocateFreeSegment := [UNMAP_SEGMENT], numOfFreeSegmentWoLock := [0] } true)).1
      = UNMAP_SEGMENT ∧
    (ContextManager.AllocateFreeSegment scriptedOps
      (ContextManager.scripted
        { ScriptedSegmentCtx.empty with
          allocateFreeSegment := [UNMAP_SEGMENT], numOfFreeSegmentWoLock := [0] } true)).2.events
      = [] := by
  decide

theorem ContextManager.GetCurrentGcMode_flushCount (ops : SegmentCtxOps σ)
    (cm : ContextManager σ) :
    flushCount (ContextManager.GetCurrentGcMode ops cm).2.events = flushCount cm.events := by
  rw [(ContextManager.GetCurrentGcMode_events ops cm).1, flushCount_append, flushCount_append]
  split_ifs <;> simp [flushCount]

theorem RebuildCtx.free_result (r : RebuildCtx) (segId : SegmentId) :
    ((r.FreeSegmentInRebuildTarget segId).1 = 1 ↔
      segId ∈ r.targetSegmentList ∧ segId ≠ r.currentTarget) ∧
    (r.FreeSegmentInRebuildTarget segId).2.targetSegmentList =
      (if segId ∈ r.targetSegmentList ∧ segId ≠ r.currentTarget
       then r.targetSegmentList.erase segId else r.targetSegmentList) := by
  by_cases hm : segId ∈ r.targetSegmentList
  · by_cases hc : r.currentTarget = segId
    · rw [RebuildCtx.free_of_current r segId hc.symm]
      have hn : ¬ (segId ∈ r.targetSegmentList ∧ segId ≠ r.currentTarget) :=
        fun hh => hh.2 hc.symm
      rw [if_neg hn]
      exact ⟨⟨fun h => absurd h (show ¬ (0 : Int) = 1 by decide), fun h => absurd h hn⟩, rfl⟩
    · have hc' : segId ≠ r.currentTarget := fun e => hc e.symm
      rw [RebuildCtx.free_of_mem_of_ne r segId hm hc', if_pos ⟨hm, hc'⟩]
      exact ⟨⟨fun _ => ⟨hm, hc'⟩, fun _ => rfl⟩, rfl⟩
  · rw [RebuildCtx.free_of_not_mem r segId hm]
    have hn : ¬ (segId ∈ r.targetSegmentList ∧ segId ≠ r.currentTarget) :=
      fun hh => hm hh.1
    rw [if_neg hn]
    exact ⟨⟨fun h => absurd h (show ¬ (0 : Int) = 1 by decide), fun h => absurd h hn⟩, rfl⟩

/-- C27: `ContextManager::_NotifySegmentFreed(seg)` requests a flush of the
rebuild context exactly when the freed segment was removed from the rebuild
target set, that is when `seg` was a target and not the current target; then
one flush is requested and `seg` is no longer a target, and otherwise (current
target, or not a target) no flush is requested and the target set is as it
was. -/
theorem notify_flushes_iff_removed (ops : SegmentCtxOps σ) (cm : ContextManager σ)
    (segId : SegmentId) :
    flushCount (ContextManager._NotifySegmentFreed ops cm segId).events =
      flushCount cm.events +
        (if segId ∈ cm.rebuildCtx.targetSegmentList ∧ segId ≠ cm.rebuildCtx.currentTarget
         then 1 else 0) ∧
    (ContextManager._NotifySegmentFreed ops cm segId).rebuildCtx.targetSegmentList =
      (if segId ∈ cm.rebuildCtx.targetSegmentList ∧ segId ≠ cm.rebuildCtx.currentTarget
       then cm.rebuildCtx.targetSegmentList.erase segId
       else cm.rebuildCtx.targetSegmentList) ∧
    ((segId ∈ cm.rebuildCtx.targetSegmentList ∧
        segId ∉ (ContextManager._NotifySegmentFreed ops cm segId).rebuildCtx.targetSegmentList) ↔
      flushCount (ContextManager._NotifySegmentFreed ops cm segId).events =
        flushCount cm.events + 1) := by
  obtain ⟨cm0, _, _, _, hrb, hev, hres⟩ := ContextManager.notify_unfold ops cm segId
  have hfr := RebuildCtx.free_result cm.rebuildCtx segId
  have hevents : (ContextManager._NotifySegmentFreed ops cm segId).events =
      (ContextManager.GetCurrentGcMode ops cm0).2.events := by
    rw [hres]
    split_ifs <;> rfl
  have hrebuild : (ContextManager._NotifySegmentFreed ops cm segId).rebuildCtx =
      (ContextManager.GetCurrentGcMode ops cm0).2.rebuildCtx := by
    rw [hres]
    split_ifs <;> rfl
  have hflush : flushCount (ContextManager._NotifySegmentFreed ops cm segId).events =
      flushCount cm.events +
        (if segId ∈ cm.rebuildCtx.targetSegmentList ∧ segId ≠ cm.rebuildCtx.currentTarget
         then 1 else 0) := by
    rw [hevents, ContextManager.GetCurrentGcMode_flushCount, hev, flushCount_append,
      flushCount_append]
    by_cases hc : segId ∈ cm.rebuildCtx.targetSegmentList ∧ segId ≠ cm.rebuildCtx.currentTarget
    · rw [if_pos (hfr.1.mpr hc), if_pos hc]
      simp [flushCount]
    · rw [if_neg (fun h => hc (hfr.1.mp h)), if_neg hc]
      simp [flushCount]
  have htargets : (ContextManager._NotifySegmentFreed ops cm segId).rebuildCtx.targetSegmentList =
      (if segId ∈ cm.rebuildCtx.targetSegmentList ∧ segId ≠ cm.rebuildCtx.currentTarget
       then cm.rebuildCtx.targetSegmentList.erase segId
       else cm.rebuildCtx.targetSegmentList) := by
    rw [hrebuild, (ContextManager.GetCurrentGcMode_fields ops cm0).2.1, hrb, hfr.2]
  refine ⟨hflush, htargets, ?_⟩
  rw [hflush, htargets]
  by_cases hc : segId ∈ cm.rebuildCtx.targetSegmentList ∧ segId ≠ cm.rebuildCtx.currentTarget
  · rw [if_pos hc, if_pos hc]
    exact ⟨fun _ => rfl, fun _ => ⟨hc.1, Finset.not_mem_erase _ _⟩⟩
  · rw [if_neg hc, if_neg hc]
    exact ⟨fun h => absurd h.1 h.2, fun h => absurd h (by omega)⟩

/-- C27 on the targets `{5, 7}` with 5 the current target: freeing 7 requests
one flush and leaves `{5}`; freeing 5, the current target, and freeing 6, not a
target, request none and leave `{5, 7}`. -/
theorem notify_flushes_iff_removed_witness :
    flushCount (ContextManager._NotifySegmentFreed scriptedOps
      (ContextManager.scripted ScriptedSegmentCtx.empty true) 7).events = 1 ∧
    (ContextManager._NotifySegmentFreed scriptedOps
      (ContextManager.scripted ScriptedSegmentCtx.empty true) 7).rebuildCtx.targetSegmentList
      = {5} ∧
    flushCount (ContextManager._NotifySegmentFreed scriptedOps
      (ContextManager.scripted ScriptedSegmentCtx.empty true) 5).events = 0 ∧
    (ContextManager._NotifySegmentFreed scriptedOps
      (ContextManager.scripted ScriptedSegmentCtx.empty true) 5).rebuildCtx.targetSegmentList
      = {5, 7} ∧
    flushCount (ContextManager._NotifySegmentFreed scriptedOps
      (ContextManager.scripted ScriptedSegmentCtx.empty true) 6).events = 0 :=
  have h7 := notify_flushes_iff_removed scriptedOps
    (ContextManager.scripted ScriptedSegmentCtx.empty true) 7
  have h5 := notify_flushes_iff_removed scriptedOps
    (ContextManager.scripted ScriptedSegmentCtx.empty true) 5
  have h6 := notify_flushes_iff_removed scriptedOps
    (ContextManager.scripted ScriptedSegmentCtx.empty true) 6
  ⟨h7.1.trans (by decide), h7.2.1.trans (by decide), h5.1.trans (by decide),
   h5.2.1.trans (by decide), h6.1.trans (by decide)⟩


/-! ## Partition manager -/

theorem PartitionManager.deleted_slots (pm : PartitionManager) (type : PartitionType) :
    pm._DeleteAllPartitions.partitions_ type = none ∧
    pm._DeleteAllPartitions.GetSizeInfo type = none := by
  have h : pm._DeleteAllPartitions.partitions_ type = none := by
    show (match pm.partitions_ type with
      | some _ => none
      | none => none) = none
    cases pm.partitions_ type <;> rfl
  refine ⟨h, ?_⟩
  unfold PartitionManager.GetSizeInfo
  rw [h]

theorem PartitionManager.CreateAll_cases (env : PartitionEnv) (pm : PartitionManager)
    (buf data : List ArrayDevice) (intf : List IntfCall) (arrayIndex : Nat)
    (ret : Int) (pm' : PartitionManager) (intf' : List IntfCall)
    (h : pm.CreateAll env buf data intf arrayIndex = some (ret, pm', intf')) :
    (ret ≠ 0 ∧ ∃ pmk ik, pm' = PartitionManager._DeleteAllPartitions pmk ∧
      intf' = ik ++ [IntfCall.ClearInterface]) ∨
    (ret = 0 ∧ ∃ pm1 i1 front pm2 i2 pm3 i3,
      pm._CreateMetaSsd env data intf arrayIndex = some (0, pm1, i1) ∧
      buf.head? = some front ∧
      PartitionManager._CreateUserData env pm1 data front i1 arrayIndex = some (0, pm2, i2) ∧
      PartitionManager._CreateMetaNvm env pm2 front i2 arrayIndex = some (0, pm3, i3) ∧
      PartitionManager._CreateWriteBuffer env pm3 front i3 arrayIndex = some (0, pm', intf')) := by
  unfold PartitionManager.CreateAll at h
  cases h1 : pm._CreateMetaSsd env data intf arrayIndex with
  | none => rw [h1] at h; exact absurd h (by simp)
  | some s1 =>
    obtain ⟨r1, pm1, i1⟩ := s1
    rw [h1] at h
    simp only at h
    by_cases hr1 : r1 ≠ 0
    · rw [if_pos hr1] at h
      simp only [PartitionManager.DeleteAll, Option.some.injEq, Prod.mk.injEq] at h
      obtain ⟨e1, e2, e3⟩ := h
      exact Or.inl ⟨e1 ▸ hr1, pm1, i1, e2.symm, e3.symm⟩
    · rw [if_neg hr1] at h
      have hz1 : r1 = 0 := not_not.mp hr1
      cases hb : buf.head? with
      | none => rw [hb] at h; exact absurd h (by simp)
      | some front =>
        rw [hb] at h
        simp only at h
        cases h2 : PartitionManager._CreateUserData env pm1 data front i1 arrayIndex with
        | none => rw [h2] at h; exact absurd h (by simp)
        | some s2 =>
          obtain ⟨r2, pm2, i2⟩ := s2
          rw [h2] at h
          simp only at h
          by_cases hr2 : r2 ≠ 0
          · rw [if_pos hr2] at h
            simp only [PartitionManager.DeleteAll, Option.some.injEq, Prod.mk.injEq] at h
            obtain ⟨e1, e2, e3⟩ := h
            exact Or.inl ⟨e1 ▸ hr2, pm2, i2, e2.symm, e3.symm⟩
          · rw [if_neg hr2] at h
            have hz2 : r2 = 0 := not_not.mp hr2
            cases h3 : PartitionManager._CreateMetaNvm env pm2 front i2 arrayIndex with
            | none => rw [h3] at h; exact absurd h (by simp)
            | some s3 =>
              obtain ⟨r3, pm3, i3⟩ := s3
              rw [h3] at h
              simp only at h
              by_cases hr3 : r3 ≠ 0
              · rw [if_pos hr3] at h
                simp only [PartitionManager.DeleteAll, Option.some.injEq, Prod.mk.injEq] at h
                obtain ⟨e1, e2, e3⟩ := h
                exact Or.inl ⟨e1 ▸ hr3, pm3, i3, e2.symm, e3.symm⟩
              · rw [if_neg hr3] at h
                have hz3 : r3 = 0 := not_not.mp hr3
                cases h4 : PartitionManager._CreateWriteBuffer env pm3 front i3 arrayIndex with
                | none => rw [h4] at h; exact absurd h (by simp)
                | some s4 =>
                  obtain ⟨r4, pm4, i4⟩ := s4
                  rw [h4] at h
                  simp only at h
                  by_cases hr4 : r4 ≠ 0
                  · rw [if_pos hr4] at h
                    simp only [PartitionManager.DeleteAll, Option.some.injEq, Prod.mk.injEq] at h
                    obtain ⟨e1, e2, e3⟩ := h
                    exact Or.inl ⟨e1 ▸ hr4, pm4, i4, e2.symm, e3.symm⟩
                  · rw [if_neg hr4] at h
                    have hz4 : r4 = 0 := not_not.mp hr4
                    simp only [Option.some.injEq, Prod.mk.injEq] at h
                    obtain ⟨e1, e2, e3⟩ := h
                    refine Or.inr ⟨e1.symm, pm1, i1, front, pm2, i2, pm3, i3, ?_, rfl, ?_, ?_, ?_⟩
                    · rw [hz1]
                    · rw [hz2] at h2
                      exact h2
                    · rw [hz3] at h3
                      exact h3
                    · rw [hz4, e2, e3] at h4
                      exact h4

/-- C30: `PartitionManager::CreateAll` is all-or-nothing. It runs
`_CreateMetaSsd`, `_CreateUserData`, `_CreateMetaNvm`, `_CreateWriteBuffer` in
that order, each on what the one before left. When a step returns a code that
is not 0, `CreateAll` returns that code, with `DeleteAll` applied to what that
step left and no later step run; whenever `CreateAll` returns a code that is
not 0, every slot of `partitions_` is null, `GetSizeInfo` returns null for
every partition type, and `ClearInterface` was the last call into the
interface; when all four steps return 0 it returns 0 and leaves what the last
step left, and it returns 0 only when all four steps returned 0. -/
theorem CreateAll_all_or_nothing (env : PartitionEnv) (pm : PartitionManager)
    (buf data : List ArrayDevice) (intf : List IntfCall) (arrayIndex : Nat) :
    (∀ r1 pm1 i1, pm._CreateMetaSsd env data intf arrayIndex = some (r1, pm1, i1) → r1 ≠ 0 →
      pm.CreateAll env buf data intf arrayIndex =
        some (r1, PartitionManager._DeleteAllPartitions pm1, i1 ++ [IntfCall.ClearInterface])) ∧
    (∀ pm1 i1 front, pm._CreateMetaSsd env data intf arrayIndex = some (0, pm1, i1) →
      buf.head? = some front →
      (∀ r2 pm2 i2,
        PartitionManager._CreateUserData env pm1 data front i1 arrayIndex = some (r2, pm2, i2) →
        r2 ≠ 0 →
        pm.CreateAll env buf data intf arrayIndex =
          some (r2, PartitionManager._DeleteAllPartitions pm2, i2 ++ [IntfCall.ClearInterface])) ∧
      (∀ pm2 i2,
        PartitionManager._CreateUserData env pm1 data front i1 arrayIndex = some (0, pm2, i2) →
        (∀ r3 pm3 i3,
          PartitionManager._CreateMetaNvm env pm2 front i2 arrayIndex = some (r3, pm3, i3) →
          r3 ≠ 0 →
          pm.CreateAll env buf data intf arrayIndex =
            some (r3, PartitionManager._DeleteAllPartitions pm3,
              i3 ++ [IntfCall.ClearInterface])) ∧
        (∀ pm3 i3,
          PartitionManager._CreateMetaNvm env pm2 front i2 arrayIndex = some (0, pm3, i3) →
          (∀ r4 pm4 i4,
            PartitionManager._CreateWriteBuffer env pm3 front i3 arrayIndex =
              some (r4, pm4, i4) →
            r4 ≠ 0 →
            pm.CreateAll env buf data intf arrayIndex =
              some (r4, PartitionManager._DeleteAllPartitions pm4,
                i4 ++ [IntfCall.ClearInterface])) ∧
          (∀ pm4 i4,
            PartitionManager._CreateWriteBuffer env pm3 front i3 arrayIndex =
              some (0, pm4, i4) →
            pm.CreateAll env buf data intf arrayIndex = some (0, pm4, i4))))) ∧
    (∀ ret pm' intf', pm.CreateAll env buf data intf arrayIndex = some (ret, pm', intf') →
      ret ≠ 0 →
      (∀ type, pm'.partitions_ type = none ∧ pm'.GetSizeInfo type = none) ∧
      intf'.getLast? = some IntfCall.ClearInterface) ∧
    (∀ pm' intf', pm.CreateAll env buf data intf arrayIndex = some (0, pm', intf') →
      ∃ pm1 i1 front pm2 i2 pm3 i3,
        pm._CreateMetaSsd env data intf arrayIndex = some (0, pm1, i1) ∧
        buf.head? = some front ∧
        PartitionManager._CreateUserData env pm1 data front i1 arrayIndex = some (0, pm2, i2) ∧
        PartitionManager._CreateMetaNvm env pm2 front i2 arrayIndex = some (0, pm3, i3) ∧
        PartitionManager._CreateWriteBuffer env pm3 front i3 arrayIndex =
          some (0, pm', intf')) := by
  refine ⟨?_, ?_, ?_, ?_⟩
  · intro r1 pm1 i1 h1 hr1
    unfold PartitionManager.CreateAll
    rw [h1]
    simp only
    rw [if_pos hr1]
    rfl
  · intro pm1 i1 front h1 hb
    have hz : ¬ ((0 : Int) ≠ 0) := fun h => h rfl
    refine ⟨?_, ?_⟩
    · intro r2 pm2 i2 h2 hr2
      unfold PartitionManager.CreateAll
      rw [h1]
      simp only
      rw [if_neg hz, hb]
      simp only
      rw [h2]
      simp only
      rw [if_pos hr2]
      rfl
    · intro pm2 i2 h2
      refine ⟨?_, ?_⟩
      · intro r3 pm3 i3 h3 hr3
        unfold PartitionManager.CreateAll
        rw [h1]
        simp only
        rw [if_neg hz, hb]
        simp only
        rw [h2]
        simp only
        rw [if_neg hz, h3]
        simp only
        rw [if_pos hr3]
        rfl
      · intro pm3 i3 h3
        refine ⟨?_, ?_⟩
        · intro r4 pm4 i4 h4 hr4
          unfold PartitionManager.CreateAll
          rw [h1]
          simp only
          rw [if_neg hz, hb]
          simp only
          rw [h2]
          simp only
          rw [if_neg hz, h3]
          simp only
          rw [if_neg hz, h4]
          simp only
          rw [if_pos hr4]
          rfl
        · intro pm4 i4 h4
          unfold PartitionManager.CreateAll
          rw [h1]
          simp only
          rw [if_neg hz, hb]
          simp only
          rw [h2]
          simp only
          rw [if_neg hz, h3]
          simp only
          rw [if_neg hz, h4]
          simp only
          rw [if_neg hz]
  · intro ret pm' intf' h hret
    rcases PartitionManager.CreateAll_cases env pm buf data intf arrayIndex ret pm' intf' h with
      ⟨_, pmk, ik, e1, e2⟩ | ⟨hz, _⟩
    · rw [e1, e2]
      exact ⟨fun type => PartitionManager.deleted_slots pmk type, by simp⟩
    · exact absurd hz hret
  · intro pm' intf' h
    rcases PartitionManager.CreateAll_cases env pm buf data intf arrayIndex 0 pm' intf' h with
      ⟨hne, _⟩ | ⟨_, hchain⟩
    · exact absurd rfl hne
    · exact hchain

theorem sub64_spec (a b : Nat) (ha : a < 18446744073709551616) (hb : b < 18446744073709551616) :
    sub64 a b < 18446744073709551616 ∧
    (sub64 a b + b) % 18446744073709551616 = a := by
  unfold sub64 toUInt64
  rw [Nat.mod_eq_of_lt ha, Nat.mod_eq_of_lt hb]
  split_ifs with h
  · refine ⟨by omega, ?_⟩
    rw [Nat.sub_add_cancel h, Nat.mod_eq_of_lt ha]
  · refine ⟨by omega, ?_⟩
    have : 18446744073709551616 - (b - a) + b = a + 18446744073709551616 := by omega
    rw [this, Nat.add_mod_right, Nat.mod_eq_of_lt ha]

/-- The physical sizes that `CreateAll` computes. On four data devices of 40
segments and a buffer device of 1 MiB: one meta segment from LBA 64, 38 user
segments from LBA 128, the meta partition of the buffer device from LBA 8 and
the write buffer from LBA 136 with 14 stripes. On data devices of a single
segment the number of user segments is `1 - 1 - 1` in `uint64_t`, stored as
4294967295; on a buffer device of a single block the number of write-buffer
stripes comes from the difference `1 - 17` in `uint64_t` and is stored as
4294967295. -/
theorem CreateAll_physical_sizes :
    [PartitionType.META_SSD, PartitionType.USER_DATA, PartitionType.META_NVM,
      PartitionType.WRITE_BUFFER].map (fun t =>
      PartitionManager.physicalSizeOf t
        (PartitionManager.CreateAll (PartitionEnv.ex true) PartitionManager.new ArrayDevice.exBuf
          ArrayDevice.exData [] 0)) =
    [some { startLba := 64, blksPerChunk := 4, chunksPerStripe := 4, stripesPerSegment := 2,
            totalSegments := 1 },
     some { startLba := 128, blksPerChunk := 4, chunksPerStripe := 4, stripesPerSegment := 2,
            totalSegments := 38 },
     some { startLba := 8, blksPerChunk := 16, chunksPerStripe := 1, stripesPerSegment := 1,
            totalSegments := 1 },
     some { startLba := 136, blksPerChunk := 16, chunksPerStripe := 1, stripesPerSegment := 14,
            totalSegments := 1 }] ∧
    (PartitionManager.physicalSizeOf PartitionType.USER_DATA
      (PartitionManager.CreateAll (PartitionEnv.ex true) PartitionManager.new ArrayDevice.exBuf
        ArrayDevice.exSmallData [] 0)).map (fun p => p.totalSegments) = some 4294967295 ∧
    (PartitionManager.physicalSizeOf PartitionType.WRITE_BUFFER
      (PartitionManager.CreateAll (PartitionEnv.ex true) PartitionManager.new
        ArrayDevice.exSmallBuf ArrayDevice.exData [] 0)).map (fun p => p.stripesPerSegment)
      = some 4294967295 := by
  decide

theorem CreateAll_ex_returns :
    (PartitionManager.CreateAll (PartitionEnv.ex false) PartitionManager.new ArrayDevice.exBuf
      ArrayDevice.exData [] 0).isSome = true := by
  decide

/-- C30 on four data devices and one buffer device. When `AllocParityPools`
fails, `_CreateMetaSsd` has stored its partition and made its three calls,
`_CreateUserData` returns the load error 2502, and `CreateAll` returns 2502
with every slot null and `ClearInterface` as last call, no call of a later
step before it. When no data device is `NORMAL`, the first step fails and the
creation error 2501 is returned. When every step succeeds, 0 is returned, all
four slots are set and the calls are those of the four steps in order. When
`AllocParityPools` succeeds for fewer than 1000 segments only and the data
devices hold a single segment each, the wrapped number of user segments makes
it fail: 2502 is returned and every slot is null. -/
theorem CreateAll_all_or_nothing_witness :
    (PartitionManager.CreateAll (PartitionEnv.ex false) PartitionManager.new ArrayDevice.exBuf
      ArrayDevice.exData [] 0).map (fun r => (r.1, r.2.2)) =
      some (2502,
        [IntfCall.AddTranslator PartitionType.META_SSD,
         IntfCall.AddRecover PartitionType.META_SSD,
         IntfCall.AddRebuildTarget PartitionType.META_SSD, IntfCall.ClearInterface]) ∧
    (∀ type,
      ((PartitionManager.CreateAll (PartitionEnv.ex false) PartitionManager.new
          ArrayDevice.exBuf ArrayDevice.exData [] 0).get
        CreateAll_ex_returns).2.1.partitions_ type = none ∧
      ((PartitionManager.CreateAll (PartitionEnv.ex false) PartitionManager.new
          ArrayDevice.exBuf ArrayDevice.exData [] 0).get
        CreateAll_ex_returns).2.1.GetSizeInfo type = none) ∧
    (PartitionManager.CreateAll (PartitionEnv.ex true) PartitionManager.new ArrayDevice.exBuf
      ArrayDevice.exFaulty [] 0).map (fun r => (r.1, r.2.1.occupied, r.2.2)) =
      some (2501, [false, false, false, false], [IntfCall.ClearInterface]) ∧
    (PartitionManager.CreateAll (PartitionEnv.ex true) PartitionManager.new ArrayDevice.exBuf
      ArrayDevice.exData [] 0).map (fun r => (r.1, r.2.1.occupied, r.2.2)) =
      some (0, [true, true, true, true],
        [IntfCall.AddTranslator PartitionType.META_SSD,
         IntfCall.AddRecover PartitionType.META_SSD,
         IntfCall.AddRebuildTarget PartitionType.META_SSD,
         IntfCall.AddTranslator PartitionType.USER_DATA,
         IntfCall.AddRecover PartitionType.USER_DATA,
         IntfCall.AddRebuildTarget PartitionType.USER_DATA,
         IntfCall.AddTranslator PartitionType.META_NVM,
         IntfCall.AddTranslator PartitionType.WRITE_BUFFER]) ∧
    (PartitionManager.CreateAll PartitionEnv.exSized PartitionManager.new ArrayDevice.exBuf
      ArrayDevice.exSmallData [] 0).map (fun r => (r.1, r.2.1.occupied, r.2.2)) =
      some (2502, [false, false, false, false],
        [IntfCall.AddTranslator PartitionType.META_SSD,
         IntfCall.AddRecover PartitionType.META_SSD,
         IntfCall.AddRebuildTarget PartitionType.META_SSD, IntfCall.ClearInterface]) ∧
    (PartitionManager.CreateAll PartitionEnv.exSized PartitionManager.new ArrayDevice.exBuf
      ArrayDevice.exData [] 0).map (fun r => (r.1, r.2.1.occupied)) =
      some (0, [true, true, true, true]) :=
  ⟨by decide,
   ((CreateAll_all_or_nothing (PartitionEnv.ex false) PartitionManager.new ArrayDevice.exBuf
      ArrayDevice.exData [] 0).2.2.1 _ _ _ (Option.some_get CreateAll_ex_returns).symm
      (by decide)).1,
   by decide, by decide, by decide, by decide⟩

end pos
